import Mathlib

/-!
# DDS-Router: configuration resolution and topic matching

A shallow embedding of

* `ddsrouter_yaml/src/cpp/YamlReader.cpp` (entity builders over a parsed YAML tree),
* `src/cpp/types/topic/WildcardTopic.cpp` (wildcard topic matching),
* `src/cpp/communication/Track.cpp` (the constructor of a track),
* `src/cpp/DataBrokerParticipant.cpp` (`enable`, `add_topic`, `stop_topic`, `send_data`), and
* `src/cpp/DataBrokerWANParticipant.cpp` (`wan_participant_qos`),

followed by theorems about the embedded functions.

Exceptions are modelled by `Except`, the log sink by an explicit list of log entries
carried next to the result.
-/

set_option autoImplicit false

namespace ddsrouter
namespace yaml

/-! ## The parsed document -/

/-- Modelled from the spec: the parsed generic document (`Yaml`, declared in
`ddsrouter_yaml/Yaml.hpp`, which is not among the sources): a tree of scalars, ordered
sequences, mappings from string keys to trees, and null. -/
inductive Yaml where
  | null : Yaml
  | scalar (value : String) : Yaml
  | sequence (items : List Yaml) : Yaml
  | map (entries : List (String × Yaml)) : Yaml

/-- Tag type of `YamlReader.hpp`: `using TagType = std::string`. -/
abbrev TagType := String

/-- Source: `yml.IsMap()`. -/
def Yaml.IsMap : Yaml → Bool
  | .map _ => true
  | _ => false

/-- Source: `yml.IsNull()`. -/
def Yaml.IsNull : Yaml → Bool
  | .null => true
  | _ => false

/-- Source: `yml.IsScalar()`. -/
def Yaml.IsScalar : Yaml → Bool
  | .scalar _ => true
  | _ => false

/-- The node `yml[tag]`: the value stored under the first key equal to `tag` when `yml` is a
mapping holding that key, and no (defined) node otherwise. -/
def Yaml.index (yml : Yaml) (tag : TagType) : Option Yaml :=
  match yml with
  | .map entries => entries.lookup tag
  | _ => none

/-- The document `yml` without the entries stored under `tag` (used to state properties
that compare a document with the same document lacking one tag). -/
def Yaml.erase (yml : Yaml) (tag : TagType) : Yaml :=
  match yml with
  | .map entries => .map (entries.filter (fun kv => kv.1 != tag))
  | other => other

/-! ## Errors -/

/-- The failures raised by the reader. In the source every one of them is a
`utils::ConfigurationException` and differs only by its message; the constructors are named
after the error kinds of the specification and record which `throw` was reached. -/
inductive ConfigurationException where
  /-- Message "Trying to find a tag: <tag> in a not yaml object map." -/
  | MalformedTree (tag : TagType)
  /-- Message "Required tag not found: <tag>." -/
  | MissingRequiredTag (tag : TagType)
  /-- A scalar conversion failed (raised by `get_scalar`). -/
  | TypeConversionError
  /-- A scalar is not a key of the enumeration table (raised by `get_enumeration`). -/
  | UnknownEnumerationValue (value : String)
  /-- Message "Address requires to specify <ip> or <domain>." -/
  | AddressUnderspecified
  /-- Message "TLS Configuration is set and does not fit with Client or Server parameters." -/
  | IncoherentSecurityConfiguration
  deriving DecidableEq, Repr

/-- Result of a reader function that may throw. -/
abbrev Result (α : Type) := Except ConfigurationException α

/-! ## Entities of `ddsrouter_core` built by the reader -/

/-- Source: `TransportProtocol` enumeration. -/
inductive TransportProtocol where
  | TCP
  | UDP
  deriving DecidableEq, Repr

/-- Source: `IpVersion` enumeration. -/
inductive IpVersion where
  | IPv4
  | IPv6
  deriving DecidableEq, Repr

/-- Source: `PortType` is `uint16_t` in the core; no arithmetic is done on it here. -/
abbrev PortType := Nat

/-- Source: `IpType` is `std::string`. -/
abbrev IpType := String

/-- Modelled from the spec: the `Address` entity (class `Address` of `ddsrouter_core`, not
among the sources). One constructor per C++ constructor overload used by the reader, each
recording the arguments it is given. -/
inductive Address where
  /-- Source: `Address(port, ip_version, domain_name, tp)` -/
  | of_domain_version (port : PortType) (ip_version : IpVersion) (domain_name : String)
      (tp : TransportProtocol)
  /-- Source: `Address(port, domain_name, tp)` -/
  | of_domain (port : PortType) (domain_name : String) (tp : TransportProtocol)
  /-- Source: `Address(ip, port, ip_version, tp)` -/
  | of_ip_version (ip : IpType) (port : PortType) (ip_version : IpVersion)
      (tp : TransportProtocol)
  /-- Source: `Address(ip, port, tp)` -/
  | of_ip (ip : IpType) (port : PortType) (tp : TransportProtocol)
  deriving DecidableEq, Repr

/-- Port given to the `Address` constructor. -/
def Address.port : Address → PortType
  | .of_domain_version p _ _ _ => p
  | .of_domain p _ _ => p
  | .of_ip_version _ p _ _ => p
  | .of_ip _ p _ => p

/-- Transport protocol given to the `Address` constructor. -/
def Address.transport_protocol : Address → TransportProtocol
  | .of_domain_version _ _ _ tp => tp
  | .of_domain _ _ tp => tp
  | .of_ip_version _ _ _ tp => tp
  | .of_ip _ _ tp => tp

/-- Literal ip given to the `Address` constructor, if it was built from one. -/
def Address.ip? : Address → Option IpType
  | .of_ip_version ip _ _ _ => some ip
  | .of_ip ip _ _ => some ip
  | _ => none

/-- Domain name given to the `Address` constructor, if it was built from one. -/
def Address.domain_name? : Address → Option String
  | .of_domain_version _ _ dn _ => some dn
  | .of_domain _ dn _ => some dn
  | _ => none

/-- Modelled from the spec: the closed variant `security::TlsConfiguration` with its three
subclasses `TlsConfigurationClient`, `TlsConfigurationServer`, `TlsConfigurationBoth`
(classes of `ddsrouter_core`, not among the sources); each constructor records the
arguments passed by the reader, in the order of the call. -/
inductive TlsConfiguration where
  /-- Source: `TlsConfigurationClient(certificate_authority_file)` -/
  | Client (certificate_authority_file : String)
  /-- Source: `TlsConfigurationServer(password, private_key_file, certificate_chain_file, dh_params_file)` -/
  | Server (private_key_file_password private_key_file certificate_chain_file
      dh_params_file : String)
  /-- Source: `TlsConfigurationBoth(password, private_key_file, ca_file, certificate_chain_file, dh_params_file)` -/
  | Both (private_key_file_password private_key_file certificate_authority_file
      certificate_chain_file dh_params_file : String)
  deriving DecidableEq, Repr

/-- Modelled from the spec: the `GuidPrefix` entity (class `GuidPrefix` of `ddsrouter_core`,
not among the sources). One constructor per C++ constructor overload used by the reader,
each recording the arguments it is given. -/
inductive GuidPrefix where
  /-- Source: `GuidPrefix(guid)`, from a literal string -/
  | of_string (guid : String)
  /-- Source: `GuidPrefix(ros_id, id)` -/
  | of_ros_id (ros_id : Bool) (id : Nat)
  /-- Source: `GuidPrefix(id)` -/
  | of_id (id : Nat)
  deriving DecidableEq, Repr

/-- Modelled from the spec: `DomainId` (class of `ddsrouter_core`, not among the sources),
built by `DomainId(domain_id)` from a `DomainIdType` (`uint32_t`). -/
structure DomainId where
  domain_id : Nat
  deriving DecidableEq, Repr

/-- Modelled from the spec: `ParticipantId` (class of `ddsrouter_core`, not among the
sources), built by `ParticipantId(name)` from a string. -/
structure ParticipantId where
  id_ : String
  deriving DecidableEq, Repr

/-- Modelled from the spec: `ParticipantKind` (enumeration class of `ddsrouter_core`, not
among the sources). Its values are not listed in the sources; a kind is identified by a
number. -/
structure ParticipantKind where
  value : Nat
  deriving DecidableEq, Repr

/-- Modelled from the spec: `RealTopic` of `ddsrouter_core` (not among the sources). One
constructor per C++ constructor overload used by the reader. -/
inductive RealTopic where
  /-- Source: `RealTopic(name, type, keyed)` -/
  | of_name_type_keyed (name type : String) (keyed : Bool)
  /-- Source: `RealTopic(name, type)`: the keyed flag takes the default of the class -/
  | of_name_type (name type : String)
  deriving DecidableEq, Repr

/-- Modelled from the spec: `WildcardTopic` of `ddsrouter_core` (not among the sources). One
constructor per C++ constructor overload used by the reader; `keyed` is `none` when the
call leaves the last argument to its default. -/
inductive WildcardTopic where
  /-- Source: `WildcardTopic(name, type, topic_with_key_set, keyed)` and
  `WildcardTopic(name, type, topic_with_key_set)` -/
  | of_name_type (name type : String) (topic_with_key_set : Bool) (keyed : Option Bool)
  /-- Source: `WildcardTopic(name, topic_with_key_set, keyed)` and
  `WildcardTopic(name, topic_with_key_set)`: the type takes the default of the class -/
  | of_name (name : String) (topic_with_key_set : Bool) (keyed : Option Bool)
  deriving DecidableEq, Repr

/-- Modelled from the spec: `DiscoveryServerConnectionAddress` of `ddsrouter_core` (not among
the sources), built by `DiscoveryServerConnectionAddress(server_guid, addresses)` from a
guid prefix and a `std::set<Address>`. -/
structure DiscoveryServerConnectionAddress where
  discovery_server_guid : GuidPrefix
  addresses : Finset Address
  deriving DecidableEq

/-- Modelled from the spec: `configuration::ParticipantConfiguration` (not among the
sources), built by `ParticipantConfiguration(id, kind)`. -/
structure ParticipantConfiguration where
  id : ParticipantId
  kind : ParticipantKind
  deriving DecidableEq, Repr

/-- Modelled from the spec: `configuration::SimpleParticipantConfiguration` (not among the
sources), built by `SimpleParticipantConfiguration(id, kind, domain)`. -/
structure SimpleParticipantConfiguration where
  id : ParticipantId
  kind : ParticipantKind
  domain : DomainId
  deriving DecidableEq, Repr

/-- Modelled from the spec: `configuration::DiscoveryServerParticipantConfiguration` (not
among the sources). It records the arguments of the constructor call; the four overloads
used by the reader differ in whether a tls configuration and a domain are passed, and
`none` stands for an argument that is not passed (the class then applies its default). -/
structure DiscoveryServerParticipantConfiguration where
  id : ParticipantId
  discovery_server_guid : GuidPrefix
  listening_addresses : Finset Address
  connection_addresses : Finset DiscoveryServerConnectionAddress
  kind : ParticipantKind
  tls : Option TlsConfiguration
  domain : Option DomainId
  deriving DecidableEq

/-! ## Declarations used by the reader that are not among the sources -/

/-- Modelled from the spec: the tag constants of `yaml_configuration_tags.hpp`, the defaults
`Address::default_port()` and `Address::default_transport_protocol()`, and the scalar
conversions `yml.as<T>()` of the YAML library, none of which is among the sources. They are
parameters of the embedding: every reader function takes an `Env`. -/
structure Env where
  ADDRESS_TRANSPORT_TCP_TAG : TagType
  ADDRESS_TRANSPORT_UDP_TAG : TagType
  ADDRESS_IP_VERSION_V4_TAG : TagType
  ADDRESS_IP_VERSION_V6_TAG : TagType
  ADDRESS_IP_VERSION_TAG : TagType
  ADDRESS_IP_TAG : TagType
  ADDRESS_DNS_TAG : TagType
  ADDRESS_PORT_TAG : TagType
  ADDRESS_TRANSPORT_TAG : TagType
  TLS_PRIVATE_KEY_TAG : TagType
  TLS_PASSWORD_TAG : TagType
  TLS_CA_TAG : TagType
  TLS_CERT_TAG : TagType
  TLS_DHPARAMS_TAG : TagType
  DISCOVERY_SERVER_GUID_TAG : TagType
  DISCOVERY_SERVER_ID_ROS_TAG : TagType
  DISCOVERY_SERVER_ID_TAG : TagType
  DISCOVERY_SERVER_GUID_PREFIX_TAG : TagType
  COLLECTION_ADDRESSES_TAG : TagType
  TOPIC_NAME_TAG : TagType
  TOPIC_TYPE_NAME_TAG : TagType
  TOPIC_KIND_TAG : TagType
  PARTICIPANT_NAME_TAG : TagType
  PARTICIPANT_KIND_TAG : TagType
  DOMAIN_ID_TAG : TagType
  LISTENING_ADDRESSES_TAG : TagType
  CONNECTION_ADDRESSES_TAG : TagType
  TLS_TAG : TagType
  /-- Source: `Address::default_port()` -/
  default_port : PortType
  /-- Source: `Address::default_transport_protocol()` -/
  default_transport_protocol : TransportProtocol
  /-- Source: `yml.as<PortType>()` on the text of a scalar node; `none` when the conversion throws. -/
  as_PortType : String → Option PortType
  /-- Source: `yml.as<bool>()` on the text of a scalar node; `none` when the conversion throws. -/
  as_bool : String → Option Bool
  /-- Source: `yml.as<uint32_t>()` on the text of a scalar node; `none` when the conversion throws. -/
  as_uint32 : String → Option Nat
  /-- Source: `yml.as<DomainIdType>()` on the text of a scalar node; `none` when the conversion
  throws. -/
  as_DomainIdType : String → Option Nat
  /-- Source: `ParticipantKind::participant_kind_from_name(name)`; `none` when the name is not
  the name of a kind. -/
  participant_kind_from_name : String → Option ParticipantKind

/-- Decimal reading of a text made of digits only, used by `specEnv`. -/
def parse_decimal (s : String) : Option Nat :=
  match s.toList with
  | [] => none
  | cs => if cs.all Char.isDigit then some (cs.foldl (fun n c => 10 * n + (c.toNat - 48)) 0)
    else none

/-- Modelled from the spec: one concrete choice of the missing declarations, with the tag
names the specification uses (`ip`, `domain-name`, ...); used to evaluate the reader on
concrete documents. -/
def specEnv : Env where
  ADDRESS_TRANSPORT_TCP_TAG := "tcp"
  ADDRESS_TRANSPORT_UDP_TAG := "udp"
  ADDRESS_IP_VERSION_V4_TAG := "v4"
  ADDRESS_IP_VERSION_V6_TAG := "v6"
  ADDRESS_IP_VERSION_TAG := "ip-version"
  ADDRESS_IP_TAG := "ip"
  ADDRESS_DNS_TAG := "domain-name"
  ADDRESS_PORT_TAG := "port"
  ADDRESS_TRANSPORT_TAG := "transport"
  TLS_PRIVATE_KEY_TAG := "private_key"
  TLS_PASSWORD_TAG := "password"
  TLS_CA_TAG := "ca"
  TLS_CERT_TAG := "cert"
  TLS_DHPARAMS_TAG := "dh_params"
  DISCOVERY_SERVER_GUID_TAG := "guid"
  DISCOVERY_SERVER_ID_ROS_TAG := "ros-discovery-server"
  DISCOVERY_SERVER_ID_TAG := "id"
  DISCOVERY_SERVER_GUID_PREFIX_TAG := "discovery-server-guid"
  COLLECTION_ADDRESSES_TAG := "addresses"
  TOPIC_NAME_TAG := "name"
  TOPIC_TYPE_NAME_TAG := "type"
  TOPIC_KIND_TAG := "keyed"
  PARTICIPANT_NAME_TAG := "name"
  PARTICIPANT_KIND_TAG := "kind"
  DOMAIN_ID_TAG := "domain"
  LISTENING_ADDRESSES_TAG := "listening-addresses"
  CONNECTION_ADDRESSES_TAG := "connection-addresses"
  TLS_TAG := "tls"
  default_port := 11600
  default_transport_protocol := .UDP
  as_PortType := fun s => match parse_decimal s with
    | some n => if n < 65536 then some n else none
    | none => none
  as_bool := fun s =>
    if s = "true" then some true else if s = "false" then some false else none
  as_uint32 := fun s => match parse_decimal s with
    | some n => if n < 4294967296 then some n else none
    | none => none
  as_DomainIdType := fun s => match parse_decimal s with
    | some n => if n < 4294967296 then some n else none
    | none => none
  participant_kind_from_name := fun s =>
    if s = "simple" then some ⟨1⟩ else if s = "discovery-server" then some ⟨2⟩ else none

/-! ## Generic accessors -/

/-- Source: `YamlReader::is_tag_present`. -/
def is_tag_present (yml : Yaml) (tag : TagType) : Result Bool :=
  if !yml.IsMap && !yml.IsNull then
    .error (.MalformedTree tag)
  else
    .ok (if (yml.index tag).isSome then true else false)

/-- Source: `YamlReader::get_value_in_tag`. -/
def get_value_in_tag (yml : Yaml) (tag : TagType) : Result Yaml :=
  match is_tag_present yml tag with
  | .error e => .error e
  | .ok true => .ok ((yml.index tag).getD .null)
  | .ok false => .error (.MissingRequiredTag tag)

/-- Modelled from the spec: `YamlReader::get_scalar<std::string>(yml)` (defined in
`impl/YamlReader.ipp`, not among the sources): the text of a scalar node; any other node
fails with a type-conversion error. -/
def get_scalar_string (yml : Yaml) : Result String :=
  match yml with
  | .scalar s => .ok s
  | _ => .error .TypeConversionError

/-- Modelled from the spec: `YamlReader::get_scalar<T>(yml, tag)` and
`YamlReader::get<T>(yml, tag)` (both defined in `impl/YamlReader.ipp`, not among the
sources): apply the reader for `T` to the value stored under `tag`, failing when the tag is
missing. -/
def get_in_tag {α : Type} (reader : Yaml → Result α) (yml : Yaml) (tag : TagType) : Result α :=
  match get_value_in_tag yml tag with
  | .error e => .error e
  | .ok value => reader value

/-- Modelled from the spec: `YamlReader::get_enumeration<T>(yml, enum_values)` (defined in
`impl/YamlReader.ipp`, not among the sources): the scalar text is looked up in the table,
exact match only; a text that is no key of the table fails. The table is a `std::map`
built from an initializer list, so the first entry of a repeated key is the one kept. -/
def get_enumeration {α : Type} (yml : Yaml) (enum_values : List (TagType × α)) : Result α :=
  match get_scalar_string yml with
  | .error e => .error e
  | .ok value =>
    match enum_values.lookup value with
    | some v => .ok v
    | none => .error (.UnknownEnumerationValue value)

/-! ## Entities -/

/-- Source: `YamlReader::get<TransportProtocol>`. -/
def get_TransportProtocol (env : Env) (yml : Yaml) : Result TransportProtocol :=
  get_enumeration yml
    [ (env.ADDRESS_TRANSPORT_TCP_TAG, TransportProtocol.TCP),
      (env.ADDRESS_TRANSPORT_UDP_TAG, TransportProtocol.UDP) ]

/-- Source: `YamlReader::get<IpVersion>`. -/
def get_IpVersion (env : Env) (yml : Yaml) : Result IpVersion :=
  get_enumeration yml
    [ (env.ADDRESS_IP_VERSION_V4_TAG, IpVersion.IPv4),
      (env.ADDRESS_IP_VERSION_V6_TAG, IpVersion.IPv6) ]

/-- Source: `YamlReader::get<PortType>`: `PortType(get_scalar<PortType>(yml))`, where
`get_scalar<PortType>` (not among the sources) converts the text of a scalar node with
`env.as_PortType` and fails with a type-conversion error on any other node or text. -/
def get_PortType (env : Env) (yml : Yaml) : Result PortType :=
  match yml with
  | .scalar s =>
    match env.as_PortType s with
    | some p => .ok p
    | none => .error .TypeConversionError
  | _ => .error .TypeConversionError

/-- Source: `YamlReader::get<IpType>`: `IpType(get_scalar<IpType>(yml))`, with `IpType = std::string`. -/
def get_IpType (yml : Yaml) : Result IpType :=
  get_scalar_string yml

/-- Source: `YamlReader::get<std::shared_ptr<security::TlsConfiguration>>`. -/
def get_TlsConfiguration (env : Env) (yml : Yaml) : Result TlsConfiguration := do
  -- Optional private key
  let has_private_key_file ← is_tag_present yml env.TLS_PRIVATE_KEY_TAG
  let private_key_file ←
    (if has_private_key_file then get_in_tag get_scalar_string yml env.TLS_PRIVATE_KEY_TAG
    else pure "")
  -- Optional private key password
  let has_private_key_file_password ← is_tag_present yml env.TLS_PASSWORD_TAG
  let private_key_file_password ←
    (if has_private_key_file_password then get_in_tag get_scalar_string yml env.TLS_PASSWORD_TAG
    else pure "")
  -- Optional certificate authority
  let has_certificate_authority_file ← is_tag_present yml env.TLS_CA_TAG
  let certificate_authority_file ←
    (if has_certificate_authority_file then get_in_tag get_scalar_string yml env.TLS_CA_TAG
    else pure "")
  -- Optional certificate chain
  let has_certificate_chain_file ← is_tag_present yml env.TLS_CERT_TAG
  let certificate_chain_file ←
    (if has_certificate_chain_file then get_in_tag get_scalar_string yml env.TLS_CERT_TAG
    else pure "")
  -- Optional dh params
  let has_dh_params_file ← is_tag_present yml env.TLS_DHPARAMS_TAG
  let dh_params_file ←
    (if has_dh_params_file then get_in_tag get_scalar_string yml env.TLS_DHPARAMS_TAG
    else pure "")
  if has_private_key_file && has_certificate_chain_file && has_dh_params_file then
    if has_certificate_authority_file then
      -- Both TLS configuration
      pure (.Both private_key_file_password private_key_file certificate_authority_file
        certificate_chain_file dh_params_file)
    else
      -- Server TLS configuration
      pure (.Server private_key_file_password private_key_file certificate_chain_file
        dh_params_file)
  else
    if has_certificate_authority_file then
      -- Client TLS configuration
      pure (.Client certificate_authority_file)
    else
      throw .IncoherentSecurityConfiguration

/-! ## The log sink -/

/-- One entry handed to the log sink by `logWarning(DDSROUTER_YAML, message)`. -/
structure LogEntry where
  category : String
  message : String
  deriving DecidableEq, Repr

/-- Outcome of a reader function that may write to the log before it returns or throws:
the entries written, in order, and the result. -/
structure Logged (α : Type) where
  log : List LogEntry
  result : Result α

/-- A step that neither logs nor throws. -/
def Logged.pure {α : Type} (a : α) : Logged α := ⟨[], .ok a⟩

/-- Sequencing: a throwing first step stops the run and keeps what was logged so far. -/
def Logged.bind {α β : Type} (x : Logged α) (f : α → Logged β) : Logged β :=
  match x.result with
  | .error e => ⟨x.log, .error e⟩
  | .ok a => ⟨x.log ++ (f a).log, (f a).result⟩

instance : Monad Logged where
  pure := Logged.pure
  bind := Logged.bind

/-- A reader call that does not log. -/
def Logged.lift {α : Type} (r : Result α) : Logged α := ⟨[], r⟩

/-- Source: `logWarning(DDSROUTER_YAML, message)`. -/
def logWarning (message : String) : Logged Unit := ⟨[⟨"DDSROUTER_YAML", message⟩], .ok ()⟩

/-- Source: `throw utils::ConfigurationException(...)` after possible logging. -/
def Logged.throw {α : Type} (e : ConfigurationException) : Logged α := ⟨[], .error e⟩

/-- The warning text of `YamlReader::get<Address>` for an ignored domain tag. -/
def dns_ignored_message (env : Env) : String :=
  "Tag <" ++ env.ADDRESS_DNS_TAG ++ "> will not be used as <" ++ env.ADDRESS_IP_TAG ++ "> is set."

/-- Source: `YamlReader::get<Address>`. Variables the source leaves uninitialised when their tag is
absent hold an arbitrary value here (`IPv4`, the empty string); the source never reads
them in that case. -/
def get_Address (env : Env) (yml : Yaml) : Logged Address := do
  -- Optional get IP version
  let ip_version_set ← Logged.lift (is_tag_present yml env.ADDRESS_IP_VERSION_TAG)
  let ip_version ←
    (if ip_version_set then
      Logged.lift (get_in_tag (get_IpVersion env) yml env.ADDRESS_IP_VERSION_TAG)
    else pure IpVersion.IPv4)
  -- Optional get IP
  let ip_set ← Logged.lift (is_tag_present yml env.ADDRESS_IP_TAG)
  let ip ←
    (if ip_set then Logged.lift (get_in_tag get_IpType yml env.ADDRESS_IP_TAG)
    else pure "")
  -- Optional get Domain tag for DNS
  let domain_name_read ← Logged.lift (is_tag_present yml env.ADDRESS_DNS_TAG)
  let domain_name ←
    (if domain_name_read then Logged.lift (get_in_tag get_scalar_string yml env.ADDRESS_DNS_TAG)
    else pure "")
  -- If IP and domain_name set, warning that domain_name will not be used
  -- If neither set, throw
  let domain_name_set ←
    (if ip_set && domain_name_read then do
      logWarning (dns_ignored_message env)
      pure false
    else if !ip_set && !domain_name_read then
      Logged.throw .AddressUnderspecified
    else pure domain_name_read)
  -- Optional get port
  let port_set ← Logged.lift (is_tag_present yml env.ADDRESS_PORT_TAG)
  let port ←
    (if port_set then Logged.lift (get_in_tag (get_PortType env) yml env.ADDRESS_PORT_TAG)
    else pure env.default_port)
  -- Optional get Transport protocol
  let tp_set ← Logged.lift (is_tag_present yml env.ADDRESS_TRANSPORT_TAG)
  let tp ←
    (if tp_set then
      Logged.lift (get_in_tag (get_TransportProtocol env) yml env.ADDRESS_TRANSPORT_TAG)
    else pure env.default_transport_protocol)
  -- Construct Address object
  if domain_name_set then
    if ip_version_set then
      pure (Address.of_domain_version port ip_version domain_name tp)
    else
      pure (Address.of_domain port domain_name tp)
  else
    if ip_version_set then
      pure (Address.of_ip_version ip port ip_version tp)
    else
      pure (Address.of_ip ip port tp)

/-! ## Identities, topics, connection addresses and participants -/

/-- Modelled from the spec: `YamlReader::get_scalar<T>(yml)` for a primitive type `T`
(defined in `impl/YamlReader.ipp`, not among the sources): the text of a scalar node is
converted with `convert` (the conversion `yml.as<T>()`); a text that does not convert, and
any node that is no scalar, fails with a type-conversion error. -/
def get_scalar {α : Type} (convert : String → Option α) (yml : Yaml) : Result α :=
  match yml with
  | .scalar s =>
    match convert s with
    | some v => .ok v
    | none => .error .TypeConversionError
  | _ => .error .TypeConversionError

/-- Modelled from the spec: `YamlReader::get<T>(yml, tag)` (defined in
`impl/YamlReader.ipp`, not among the sources) for a reader that may log: apply the reader
for `T` to the value stored under `tag`, failing when the tag is missing. -/
def get_in_tag_logged {α : Type} (reader : Yaml → Logged α) (yml : Yaml) (tag : TagType) :
    Logged α :=
  match get_value_in_tag yml tag with
  | .error e => Logged.throw e
  | .ok value => reader value

/-- The elements of a sequence read one after the other, in document order; the first
failure stops the reading. -/
def read_items {α : Type} (reader : Yaml → Logged α) : List Yaml → Logged (List α)
  | [] => pure []
  | item :: rest => do
    let a ← reader item
    let others ← read_items reader rest
    pure (a :: others)

/-- Modelled from the spec: `YamlReader::get_list<T>(yml)` (defined in
`impl/YamlReader.ipp`, not among the sources): the per-type reader is applied to every
element of a sequence node, in document order; a node that is no sequence fails. -/
def get_list {α : Type} (reader : Yaml → Logged α) (yml : Yaml) : Logged (List α) :=
  match yml with
  | .sequence items => read_items reader items
  | _ => Logged.throw .TypeConversionError

/-- Modelled from the spec: `YamlReader::get_set<T>(yml, tag)` (defined in
`impl/YamlReader.ipp`, not among the sources): the list read under `tag`, as a `std::set`,
which holds every value once. -/
def get_set {α : Type} [DecidableEq α] (reader : Yaml → Logged α) (yml : Yaml)
    (tag : TagType) : Logged (Finset α) := do
  let elements_list ← get_in_tag_logged (get_list reader) yml tag
  pure elements_list.toFinset

/-- Source: `YamlReader::get<ParticipantId>`: `ParticipantId(get_scalar<std::string>(yml))`. -/
def get_ParticipantId (yml : Yaml) : Result ParticipantId := do
  -- Participant name required
  let name ← get_scalar_string yml
  pure (ParticipantId.mk name)

/-- Source: `YamlReader::get<ParticipantKind>`:
`ParticipantKind::participant_kind_from_name(get_scalar<std::string>(yml))`; a name that is
not the name of a kind fails as an unknown enumeration value. -/
def get_ParticipantKind (env : Env) (yml : Yaml) : Result ParticipantKind := do
  -- Participant kind required
  let name ← get_scalar_string yml
  match env.participant_kind_from_name name with
  | some kind => pure kind
  | none => throw (.UnknownEnumerationValue name)

/-- Source: `YamlReader::get<DomainId>`: `DomainId(get_scalar<DomainIdType>(yml))`. -/
def get_DomainId (env : Env) (yml : Yaml) : Result DomainId := do
  -- Domain id required
  let domain_id ← get_scalar env.as_DomainIdType yml
  pure (DomainId.mk domain_id)

/-- Source: `YamlReader::get<GuidPrefix>`. The flag `ros_id`, which the source leaves
uninitialised when its tag is absent, holds `false` here; the source never reads it in that
case. -/
def get_GuidPrefix (env : Env) (yml : Yaml) : Result GuidPrefix := do
  -- If guid exists, use it. Non mandatory.
  let guid_set ← is_tag_present yml env.DISCOVERY_SERVER_GUID_TAG
  if guid_set then
    let guid ← get_in_tag get_scalar_string yml env.DISCOVERY_SERVER_GUID_TAG
    pure (GuidPrefix.of_string guid)
  else
    -- ROS DS is optional.
    let ros_id_set ← is_tag_present yml env.DISCOVERY_SERVER_ID_ROS_TAG
    let ros_id ←
      (if ros_id_set then get_in_tag (get_scalar env.as_bool) yml env.DISCOVERY_SERVER_ID_ROS_TAG
      else pure false)
    -- Id is mandatory if guid is not present
    let id ← get_in_tag (get_scalar env.as_uint32) yml env.DISCOVERY_SERVER_ID_TAG
    -- Create GuidPrefix
    if ros_id_set then
      pure (GuidPrefix.of_ros_id ros_id id)
    else
      pure (GuidPrefix.of_id id)

/-- Source: `YamlReader::get<DiscoveryServerConnectionAddress>`. -/
def get_DiscoveryServerConnectionAddress (env : Env) (yml : Yaml) :
    Logged DiscoveryServerConnectionAddress := do
  -- GuidPrefix required
  let server_guid ←
    Logged.lift (get_in_tag (get_GuidPrefix env) yml env.DISCOVERY_SERVER_GUID_PREFIX_TAG)
  -- Addresses required
  let addresses ← get_set (get_Address env) yml env.COLLECTION_ADDRESSES_TAG
  -- Create Connection Address
  pure (DiscoveryServerConnectionAddress.mk server_guid addresses)

/-- Source: `YamlReader::get<RealTopic>`. The flag `keyed`, which the source leaves
uninitialised when its tag is absent, holds `false` here; the source never reads it in that
case. -/
def get_RealTopic (env : Env) (yml : Yaml) : Result RealTopic := do
  -- Mandatory name
  let name ← get_in_tag get_scalar_string yml env.TOPIC_NAME_TAG
  -- Mandatory type
  let type ← get_in_tag get_scalar_string yml env.TOPIC_TYPE_NAME_TAG
  -- Optional keyed
  let keyed_set ← is_tag_present yml env.TOPIC_KIND_TAG
  let keyed ←
    (if keyed_set then get_in_tag (get_scalar env.as_bool) yml env.TOPIC_KIND_TAG
    else pure false)
  -- Create Topic
  if keyed_set then
    pure (RealTopic.of_name_type_keyed name type keyed)
  else
    pure (RealTopic.of_name_type name type)

/-- Source: `YamlReader::get<WildcardTopic>`. The variables `type` and `keyed`, which the
source leaves empty or uninitialised when their tag is absent, hold the empty string and
`false` here; the source never reads them in that case. -/
def get_WildcardTopic (env : Env) (yml : Yaml) : Result WildcardTopic := do
  -- Mandatory name
  let name ← get_in_tag get_scalar_string yml env.TOPIC_NAME_TAG
  -- Optional type
  let type_set ← is_tag_present yml env.TOPIC_TYPE_NAME_TAG
  let type ←
    (if type_set then get_in_tag get_scalar_string yml env.TOPIC_TYPE_NAME_TAG
    else pure "")
  -- Optional keyed
  let keyed_set ← is_tag_present yml env.TOPIC_KIND_TAG
  let keyed ←
    (if keyed_set then get_in_tag (get_scalar env.as_bool) yml env.TOPIC_KIND_TAG
    else pure false)
  -- Create Topic
  if keyed_set then
    if type_set then
      pure (WildcardTopic.of_name_type name type true (some keyed))
    else
      pure (WildcardTopic.of_name name true (some keyed))
  else
    if type_set then
      pure (WildcardTopic.of_name_type name type false none)
    else
      pure (WildcardTopic.of_name name false none)

/-- Source: `YamlReader::get<configuration::ParticipantConfiguration>`. -/
def get_ParticipantConfiguration (env : Env) (yml : Yaml) : Result ParticipantConfiguration := do
  -- Id required
  let id ← get_in_tag get_ParticipantId yml env.PARTICIPANT_NAME_TAG
  -- Kind required
  let kind ← get_in_tag (get_ParticipantKind env) yml env.PARTICIPANT_KIND_TAG
  pure (ParticipantConfiguration.mk id kind)

/-- Source: `YamlReader::get<configuration::SimpleParticipantConfiguration>`. -/
def get_SimpleParticipantConfiguration (env : Env) (yml : Yaml) :
    Result SimpleParticipantConfiguration := do
  -- Id required
  let id ← get_in_tag get_ParticipantId yml env.PARTICIPANT_NAME_TAG
  -- Kind required
  let kind ← get_in_tag (get_ParticipantKind env) yml env.PARTICIPANT_KIND_TAG
  -- Domain required
  let domain ← get_in_tag (get_DomainId env) yml env.DOMAIN_ID_TAG
  pure (SimpleParticipantConfiguration.mk id kind domain)

/-- Source: `YamlReader::get<configuration::DiscoveryServerParticipantConfiguration>`. The
variable `domain`, default-constructed in the source when its tag is absent, holds
`DomainId(0)` here, and the null `tls` pointer is `none`; neither is passed to the
constructor in that case. -/
def get_DiscoveryServerParticipantConfiguration (env : Env) (yml : Yaml) :
    Logged DiscoveryServerParticipantConfiguration := do
  -- Id required
  let id ← Logged.lift (get_in_tag get_ParticipantId yml env.PARTICIPANT_NAME_TAG)
  -- Kind required
  let kind ← Logged.lift (get_in_tag (get_ParticipantKind env) yml env.PARTICIPANT_KIND_TAG)
  -- Guid Prefix required
  let guid ←
    Logged.lift (get_in_tag (get_GuidPrefix env) yml env.DISCOVERY_SERVER_GUID_PREFIX_TAG)
  -- Domain option
  let has_domain ← Logged.lift (is_tag_present yml env.DOMAIN_ID_TAG)
  let domain ←
    (if has_domain then Logged.lift (get_in_tag (get_DomainId env) yml env.DOMAIN_ID_TAG)
    else pure (DomainId.mk 0))
  -- Optional listening addresses
  let has_listening_addresses ← Logged.lift (is_tag_present yml env.LISTENING_ADDRESSES_TAG)
  let listening_addresses ←
    (if has_listening_addresses then get_set (get_Address env) yml env.LISTENING_ADDRESSES_TAG
    else pure ∅)
  -- Optional connection addresses
  let has_connection_addresses ← Logged.lift (is_tag_present yml env.CONNECTION_ADDRESSES_TAG)
  let connection_addresses ←
    (if has_connection_addresses then
      get_set (get_DiscoveryServerConnectionAddress env) yml env.CONNECTION_ADDRESSES_TAG
    else pure ∅)
  -- Optional TLS
  let has_tls ← Logged.lift (is_tag_present yml env.TLS_TAG)
  let tls ←
    (if has_tls then
      Logged.lift ((get_in_tag (get_TlsConfiguration env) yml env.TLS_TAG).map some)
    else pure none)
  if has_domain then
    if has_tls then
      pure { id := id, discovery_server_guid := guid, listening_addresses := listening_addresses,
             connection_addresses := connection_addresses, kind := kind, tls := tls,
             domain := some domain }
    else
      pure { id := id, discovery_server_guid := guid, listening_addresses := listening_addresses,
             connection_addresses := connection_addresses, kind := kind, tls := none,
             domain := some domain }
  else
    if has_tls then
      pure { id := id, discovery_server_guid := guid, listening_addresses := listening_addresses,
             connection_addresses := connection_addresses, kind := kind, tls := tls,
             domain := none }
    else
      pure { id := id, discovery_server_guid := guid, listening_addresses := listening_addresses,
             connection_addresses := connection_addresses, kind := kind, tls := none,
             domain := none }

/-! ## Vocabulary for stating properties of the builders -/

/-- The five tags read by the security builder. -/
def tls_tags (env : Env) : List TagType :=
  [env.TLS_PRIVATE_KEY_TAG, env.TLS_PASSWORD_TAG, env.TLS_CA_TAG, env.TLS_CERT_TAG,
    env.TLS_DHPARAMS_TAG]

/-- Every one of `tags` that `yml` holds is a scalar node (a string value). -/
def string_valued (yml : Yaml) (tags : List TagType) : Bool :=
  tags.all (fun tag =>
    match yml.index tag with
    | some v => v.IsScalar
    | none => true)

/-- The three variants of the security configuration. -/
inductive TlsKind where
  | Client
  | Server
  | Both
  deriving DecidableEq, Repr

/-- Variant of a security configuration. -/
def TlsConfiguration.kind : TlsConfiguration → TlsKind
  | .Client _ => .Client
  | .Server _ _ _ _ => .Server
  | .Both _ _ _ _ _ => .Both

/-- Outcome kind of the security builder: the variant built, or `none` for a failure. -/
def outcome_kind (r : Result TlsConfiguration) : Option TlsKind :=
  match r with
  | .ok cfg => some cfg.kind
  | .error _ => none

/-- The optional field `tag` of `yml` is absent, or present with a value the reader for its
type accepts. -/
def optional_valid {α : Type} (reader : Yaml → Result α) (yml : Yaml) (tag : TagType) : Bool :=
  match is_tag_present yml tag with
  | .ok false => true
  | .ok true =>
    match get_in_tag reader yml tag with
    | .ok _ => true
    | .error _ => false
  | .error _ => false

/-- The value supplied for the optional field `tag`, given the outcome `read` of reading
it: `none` when the tag is absent, the value read when the tag is present; an error when
the node admits no tag lookup or the reading fails. -/
def supplied {α : Type} (yml : Yaml) (tag : TagType) (read : Result α) : Result (Option α) :=
  match is_tag_present yml tag with
  | .error e => .error e
  | .ok false => .ok none
  | .ok true =>
    match read with
    | .ok v => .ok (some v)
    | .error e => .error e

/-- IP version given to the `Address` constructor, if the call passes one. -/
def Address.ip_version? : Address → Option IpVersion
  | .of_domain_version _ v _ _ => some v
  | .of_ip_version _ _ v _ => some v
  | _ => none

/-- Password given to the constructor of a security configuration; the Client variant is
built without one. -/
def TlsConfiguration.private_key_file_password? : TlsConfiguration → Option String
  | .Client _ => none
  | .Server pw _ _ _ => some pw
  | .Both pw _ _ _ _ => some pw

/-! ## Example documents -/

/-- The document `{private_key: key.pem, ca: ca.pem, cert: cert.pem, dh_params: dh.pem}`. -/
def tls_document_both : Yaml :=
  .map [("private_key", .scalar "key.pem"), ("ca", .scalar "ca.pem"),
    ("cert", .scalar "cert.pem"), ("dh_params", .scalar "dh.pem")]

/-- The document `{private_key: key.pem, password: secret, cert: cert.pem, dh_params: dh.pem}`. -/
def tls_document_server : Yaml :=
  .map [("private_key", .scalar "key.pem"), ("password", .scalar "secret"),
    ("cert", .scalar "cert.pem"), ("dh_params", .scalar "dh.pem")]

/-- The document `{ca: ca.pem}`. -/
def tls_document_client : Yaml :=
  .map [("ca", .scalar "ca.pem")]

/-- The document `{private_key: key.pem, cert: cert.pem, dh_params: dh.pem, password: [a, b]}`,
whose password is a sequence. -/
def tls_document_password_sequence : Yaml :=
  .map [("private_key", .scalar "key.pem"), ("cert", .scalar "cert.pem"),
    ("dh_params", .scalar "dh.pem"), ("password", .sequence [.scalar "a", .scalar "b"])]

/-- The document `{ca: ca.pem, private_key: key.pem}`. -/
def tls_document_ca_key : Yaml :=
  .map [("ca", .scalar "ca.pem"), ("private_key", .scalar "key.pem")]

/-- The document `{private_key: other.key, ca: root.crt}`: the tags of
`tls_document_ca_key` with other values, in another order. -/
def tls_document_key_ca : Yaml :=
  .map [("private_key", .scalar "other.key"), ("ca", .scalar "root.crt")]

/-- The document `{password: secret}`. -/
def tls_document_password : Yaml :=
  .map [("password", .scalar "secret")]

/-- The document `{ip-version: v5}`: neither ip nor domain-name, and an ip-version that is
no key of the enumeration. -/
def address_document_version_v5 : Yaml :=
  .map [("ip-version", .scalar "v5")]

/-- The document `{port: [], transport: sctp}`: neither ip nor domain-name, a port that is
no scalar and a transport that is no key of the enumeration. -/
def address_document_port_transport : Yaml :=
  .map [("port", .sequence []), ("transport", .scalar "sctp")]

/-- The document `{ip: 192.168.1.2}`. -/
def address_document_ip : Yaml :=
  .map [("ip", .scalar "192.168.1.2")]

/-- The document `{ip: 192.168.1.2, domain-name: localhost, transport: tcp}`. -/
def address_document_ip_domain : Yaml :=
  .map [("ip", .scalar "192.168.1.2"), ("domain-name", .scalar "localhost"),
    ("transport", .scalar "tcp")]

/-- The document `{ip: 192.168.1.2, domain-name: [localhost]}`, whose domain name is a
sequence. -/
def address_document_ip_domain_sequence : Yaml :=
  .map [("ip", .scalar "192.168.1.2"), ("domain-name", .sequence [.scalar "localhost"])]

/-- The identity document `{guid: 01.0f.00.00.00.00.00.00.00.00.ca.fe, id: [1, 2],
ros-discovery-server: maybe}`: a literal guid next to a malformed id and a malformed ROS
flag. -/
def guid_document_literal : Yaml :=
  .map [("guid", .scalar "01.0f.00.00.00.00.00.00.00.00.ca.fe"),
    ("id", .sequence [.scalar "1", .scalar "2"]), ("ros-discovery-server", .scalar "maybe")]

/-- The identity document `{id: 7, ros-discovery-server: true}`. -/
def guid_document_ros : Yaml :=
  .map [("id", .scalar "7"), ("ros-discovery-server", .scalar "true")]

/-- The identity document `{id: 7}`. -/
def guid_document_id : Yaml :=
  .map [("id", .scalar "7")]

/-- The identity document `{ros-discovery-server: maybe}`: no guid, no id, and a ROS flag
that is no boolean. -/
def guid_document_ros_malformed : Yaml :=
  .map [("ros-discovery-server", .scalar "maybe")]

/-- The topic document `{name: HelloWorld, type: Chat, keyed: true}`. -/
def topic_document_keyed : Yaml :=
  .map [("name", .scalar "HelloWorld"), ("type", .scalar "Chat"), ("keyed", .scalar "true")]

/-- The topic document `{name: HelloWorld, type: Chat}`. -/
def topic_document_name_type : Yaml :=
  .map [("name", .scalar "HelloWorld"), ("type", .scalar "Chat")]

/-- The topic document `{name: Hello*}`. -/
def topic_document_name : Yaml :=
  .map [("name", .scalar "Hello*")]

/-- The topic document `{type: Chat, keyed: maybe}`: no name, and a keyed flag that is no
boolean. -/
def topic_document_no_name : Yaml :=
  .map [("type", .scalar "Chat"), ("keyed", .scalar "maybe")]

/-- The topic document `{name: Hello*, keyed: false}`. -/
def topic_document_name_keyed : Yaml :=
  .map [("name", .scalar "Hello*"), ("keyed", .scalar "false")]

/-- The Discovery-Server participant document
`{name: DS, kind: discovery-server, discovery-server-guid: {id: 1}, domain: 3,
listening-addresses: [{ip: 127.0.0.1}],
connection-addresses: [{discovery-server-guid: {id: 2}, addresses: [{ip: 192.168.1.2}]}],
tls: {ca: ca.pem}}`, with every optional field. -/
def participant_document_ds_full : Yaml :=
  .map [("name", .scalar "DS"), ("kind", .scalar "discovery-server"),
    ("discovery-server-guid", .map [("id", .scalar "1")]),
    ("domain", .scalar "3"),
    ("listening-addresses", .sequence [.map [("ip", .scalar "127.0.0.1")]]),
    ("connection-addresses", .sequence [
      .map [("discovery-server-guid", .map [("id", .scalar "2")]),
        ("addresses", .sequence [.map [("ip", .scalar "192.168.1.2")]])]]),
    ("tls", .map [("ca", .scalar "ca.pem")])]

/-- The Discovery-Server participant document
`{name: DS, kind: discovery-server, discovery-server-guid: {id: 1}}`, without optional
field. -/
def participant_document_ds_bare : Yaml :=
  .map [("name", .scalar "DS"), ("kind", .scalar "discovery-server"),
    ("discovery-server-guid", .map [("id", .scalar "1")])]

/-- The Discovery-Server participant document
`{kind: discovery-server, discovery-server-guid: {id: 1}, tls: {password: secret},
listening-addresses: [{port: 1}]}`: no name, an incoherent tls block and an address without
ip and domain name. -/
def participant_document_ds_no_name : Yaml :=
  .map [("kind", .scalar "discovery-server"),
    ("discovery-server-guid", .map [("id", .scalar "1")]),
    ("tls", .map [("password", .scalar "secret")]),
    ("listening-addresses", .sequence [.map [("port", .scalar "1")]])]

/-- The identity document `{ros-discovery-server: true}`: no guid, no id, and a valid ROS
flag. -/
def guid_document_ros_only : Yaml :=
  .map [("ros-discovery-server", .scalar "true")]

/-- The connection-address document
`{discovery-server-guid: {id: 2}, addresses: [{ip: 192.168.1.2}, {ip: 192.168.1.3},
{ip: 192.168.1.2}]}`, which lists one address twice. -/
def connection_document_duplicate : Yaml :=
  .map [("discovery-server-guid", .map [("id", .scalar "2")]),
    ("addresses", .sequence [.map [("ip", .scalar "192.168.1.2")],
      .map [("ip", .scalar "192.168.1.3")], .map [("ip", .scalar "192.168.1.2")]])]

/-- The connection-address document `{discovery-server-guid: {id: 2}}`, without addresses. -/
def connection_document_no_addresses : Yaml :=
  .map [("discovery-server-guid", .map [("id", .scalar "2")])]

/-- The connection-address document
`{discovery-server-guid: {id: 2}, addresses: [{ip: 192.168.1.2}, {port: 1}]}`, whose second
address has neither ip nor domain name. -/
def connection_document_invalid_address : Yaml :=
  .map [("discovery-server-guid", .map [("id", .scalar "2")]),
    ("addresses", .sequence [.map [("ip", .scalar "192.168.1.2")],
      .map [("port", .scalar "1")]])]

/-- The Address document `{domain-name: localhost, ip-version: v6}`. -/
def address_document_domain_version : Yaml :=
  .map [("domain-name", .scalar "localhost"), ("ip-version", .scalar "v6")]

/-- The Address document `{ip: 192.168.1.2, port: 11666, transport: tcp}`. -/
def address_document_ip_port_tcp : Yaml :=
  .map [("ip", .scalar "192.168.1.2"), ("port", .scalar "11666"), ("transport", .scalar "tcp")]

/-- The identity document `{id: abc}`: no guid, and an id that is no number. -/
def guid_document_id_text : Yaml :=
  .map [("id", .scalar "abc")]

/-- The topic document `{name: HelloWorld, type: Chat, keyed: maybe}`, whose keyed flag is
no boolean. -/
def topic_document_keyed_malformed : Yaml :=
  .map [("name", .scalar "HelloWorld"), ("type", .scalar "Chat"), ("keyed", .scalar "maybe")]

/-- The topic document `{name: Hello*, keyed: maybe}`, whose keyed flag is no boolean. -/
def topic_document_name_keyed_malformed : Yaml :=
  .map [("name", .scalar "Hello*"), ("keyed", .scalar "maybe")]

/-- The Discovery-Server participant document
`{name: DS, kind: discovery-server, discovery-server-guid: {id: 1}, domain: abc}`, whose
domain is no number. -/
def participant_document_ds_domain_text : Yaml :=
  .map [("name", .scalar "DS"), ("kind", .scalar "discovery-server"),
    ("discovery-server-guid", .map [("id", .scalar "1")]), ("domain", .scalar "abc")]

/-- The connection-address document
`{discovery-server-guid: {id: abc}, addresses: [{ip: 192.168.1.2}]}`, whose guid holds an id
that is no number. -/
def connection_document_guid_text : Yaml :=
  .map [("discovery-server-guid", .map [("id", .scalar "abc")]),
    ("addresses", .sequence [.map [("ip", .scalar "192.168.1.2")]])]

end yaml

/-! ## Wildcard topics (`databroker`) -/

namespace databroker

/-- Helper of `match_chars` for a `*`: the suffixes of the candidate, longest first, are
tested with `f`; true when one of them passes. -/
def any_suffix (f : List Char → Bool) : List Char → Bool
  | [] => f []
  | c :: s => f (c :: s) || any_suffix f s

/-- Modelled from the spec: the glob algorithm of `match_pattern` on character lists: `*`
stands for any run of characters (the empty one included), `?` for any single character,
every other character for itself; the whole candidate must be consumed. -/
def match_chars : List Char → List Char → Bool
  | [], s => s.isEmpty
  | a :: p, s =>
    if a = '*' then any_suffix (match_chars p) s
    else
      match s with
      | [] => false
      | c :: rest => (a = '?' || a = c) && match_chars p rest

/-- Modelled from the spec: `match_pattern(pattern, str)` (declared in
`databroker/types/utils.hpp`, not among the sources): glob-style pattern matching, `*` = any
run of characters, `?` = any single character, case-sensitive, exact-anchor (the whole
candidate must be consumed). -/
def match_pattern (pattern str : String) : Bool :=
  match_chars pattern.toList str.toList

/-- Modelled from the spec: `AbstractTopic` (declared in
`databroker/types/topic/AbstractTopic.hpp`, not among the sources): a topic name and a topic
type, set by the constructor `AbstractTopic(topic_name, topic_type)` and read by the
accessors `topic_name()` and `topic_type()`. -/
structure AbstractTopic where
  topic_name : String
  topic_type : String
  deriving DecidableEq, Repr

/-- Source: `RealTopic`, a subclass of `AbstractTopic`. -/
structure RealTopic extends AbstractTopic
  deriving DecidableEq, Repr

/-- Source: `WildcardTopic`, a subclass of `AbstractTopic`. -/
structure WildcardTopic extends AbstractTopic
  deriving DecidableEq, Repr

/-- Source: `WildcardTopic::WildcardTopic(topic_name)`: `AbstractTopic(topic_name, "*")`. -/
def WildcardTopic.of_topic_name (topic_name : String) : WildcardTopic :=
  { topic_name := topic_name, topic_type := "*" }

/-- Exceptions of the `databroker` library. -/
inductive DatabrokerException where
  /-- Source: `UnsupportedException`: a method or class is not implemented yet or not supported. -/
  | UnsupportedException (message : String)
  deriving DecidableEq, Repr

/-- Source: `WildcardTopic::contains`. -/
def WildcardTopic.contains (self : WildcardTopic) (other : AbstractTopic) :
    Except DatabrokerException Bool :=
  -- TODO: implement
  let _ := self
  let _ := other
  .ok false

/-- Source: `WildcardTopic::matches`. -/
def WildcardTopic.matches (self : WildcardTopic) (other : RealTopic) : Bool :=
  if match_pattern self.topic_name other.topic_name then
    -- Topic name matches, check if type matches
    match_pattern self.topic_type other.topic_type
  else
    false

/-! ## Tracks (`databroker`) -/

/-- Modelled from the spec: `ParticipantId` of `databroker` (not among the sources), the key
of the target map of a Track. -/
structure ParticipantId where
  id_ : String
  deriving DecidableEq, Repr

/-- Modelled from the spec: a `std::shared_ptr<IDatabrokerParticipant>` (the interface is
not among the sources): a reference to a participant, identified by a number. -/
structure IDatabrokerParticipant where
  reference : Nat
  deriving DecidableEq, Repr

/-- Source: members of `Track` set by its constructor: `topic_`, `source_participant_` and
`target_participants_` (a `std::map<ParticipantId, std::shared_ptr<IDatabrokerParticipant>>`,
here the list of its entries). -/
structure Track where
  topic_ : RealTopic
  source_participant_ : IDatabrokerParticipant
  target_participants_ : List (ParticipantId × IDatabrokerParticipant)
  deriving DecidableEq, Repr

/-- Source: `Track::Track(topic, source, targets)`: the three members are initialised from
the three arguments; the body is empty (`// TODO`). The constructor and the destructor
(body `// TODO`) are all that `Track.cpp` defines: the class has no operation that takes a
sample or publishes to a target. -/
def Track.create (topic : RealTopic) (source : IDatabrokerParticipant)
    (targets : List (ParticipantId × IDatabrokerParticipant)) : Track :=
  { topic_ := topic, source_participant_ := source, target_participants_ := targets }

/-! ## Participants (`databroker`) -/

/-- A `eprosima::fastdds::dds::Topic` created by the middleware, identified by a number; a
`Topic*` is an `Option Topic`, `none` being the null pointer. -/
structure Topic where
  handle : Nat
  deriving DecidableEq, Repr

/-- A `eprosima::fastdds::dds::DataWriter` created by the middleware; a `DataWriter*` is an
`Option DataWriter`. -/
structure DataWriter where
  handle : Nat
  deriving DecidableEq, Repr

/-- A `eprosima::fastdds::dds::DataReader` created by the middleware; a `DataReader*` is an
`Option DataReader`. -/
structure DataReader where
  handle : Nat
  deriving DecidableEq, Repr

/-- A `eprosima::fastdds::dds::DomainParticipant` created by the middleware. -/
structure DomainParticipant where
  handle : Nat
  deriving DecidableEq, Repr

/-- The data type `StdString` sent by a participant. -/
structure StdString where
  message : String
  deriving DecidableEq, Repr

/-- Return codes `eprosima::fastrtps::types::ReturnCode_t` of the middleware: `RETCODE_OK`
or any other code. -/
inductive ReturnCode_t where
  | RETCODE_OK
  | other (code : Nat)
  deriving DecidableEq, Repr

/-- A `std::map<std::string, T*>`, as the list of its entries; a key occurs at most once in
a map built with `StringMap.assign` from the empty list. -/
abbrev StringMap (α : Type) := List (String × Option α)

/-- Source: `map.find(key)`: the pointer stored under `key`, or `none` for `map.end()`. -/
def StringMap.find {α : Type} (map : StringMap α) (key : String) : Option (Option α) :=
  map.lookup key

/-- Source: `map[key] = pointer`. -/
def StringMap.assign {α : Type} (map : StringMap α) (key : String) (pointer : Option α) :
    StringMap α :=
  (key, pointer) :: map.filter (fun entry => entry.1 != key)

/-- Key set of a map. -/
def StringMap.has_key {α : Type} (map : StringMap α) (key : String) : Bool :=
  (map.find key).isSome

/-- What the middleware (Fast DDS, an external collaborator) answers to the calls of a
participant during one operation: the pointers returned by `create_topic`,
`create_datawriter` and `create_datareader` (`none` is the null pointer) and the code
returned by `DomainParticipant::enable`. -/
structure Middleware where
  create_topic : String → String → Option Topic
  create_datawriter : Option Topic → Option DataWriter
  create_datareader : Option Topic → Option DataReader
  enable : ReturnCode_t

/-- What a participant operation does outside of its own members: calls to the middleware
and entries written to the log. -/
inductive Event where
  | logError (message : String)
  | logInfo (message : String)
  | participant_enable
  | create_topic (topic_name type_name : String)
  | create_datawriter (topic : Option Topic)
  | create_datareader (topic : Option Topic)
  | write (writer : DataWriter) (data : StdString)
  deriving DecidableEq, Repr

/-- Outcome of a call that may go through a null pointer: the call returns a value, or it
dereferences a null pointer, where the behaviour of the source is undefined (the process is
killed by a segmentation fault) and nothing is returned. -/
inductive Outcome (α : Type) where
  | returns (value : α)
  | null_dereference
  deriving DecidableEq, Repr

/-- Source: members of `DataBrokerParticipant` used by `enable`, `add_topic`, `stop_topic`
and `send_data`: the pointer `participant_`, the flag `enabled_` and the three maps
`topics_`, `datawriters_` and `datareaders_`. A call through the pointers `participant_`,
`publisher_` and `subscriber_` is recorded as an event and answered by the `Middleware`
(`add_topic` is embedded for a participant whose `init` set these pointers); a call through
a pointer stored in `datawriters_` is an `Outcome`, which tells the null pointer apart. -/
structure DataBrokerParticipant where
  participant_ : Option DomainParticipant
  enabled_ : Bool
  topics_ : StringMap Topic
  datawriters_ : StringMap DataWriter
  datareaders_ : StringMap DataReader
  deriving DecidableEq, Repr

/-- Source: `DataBrokerParticipant::name`. -/
def DataBrokerParticipant.name : String := "DataBroker_Participant"

/-- Source: `DataBrokerParticipant::type_name_`. -/
def DataBrokerParticipant.type_name_ : String := "StdString"

/-- Source: `DataBrokerParticipant::topic_mangled_`. -/
def DataBrokerParticipant.topic_mangled_ (topic_name : String) : String := topic_name

/-- Source: `DataBrokerParticipant::enable`. Returns the boolean result, the participant
after the call and the events of the call. -/
def DataBrokerParticipant.enable (dds : Middleware) (self : DataBrokerParticipant) :
    Bool × DataBrokerParticipant × List Event :=
  if !self.enabled_ then
    if self.participant_.isNone then
      (false, self, [.logError "Trying to enable a Participant not created"])
    else if dds.enable != ReturnCode_t.RETCODE_OK then
      (false, self,
        [.participant_enable,
          .logError ("Fail to enable Participant " ++ DataBrokerParticipant.name)])
    else
      (true, { self with enabled_ := true },
        [.participant_enable,
          .logInfo ("DataBroker Participant with name " ++ DataBrokerParticipant.name
            ++ " enabled")])
  else
    (true, self,
      [.logInfo ("DataBroker Participant with name " ++ DataBrokerParticipant.name
        ++ " enabled")])

/-- Source: `DataBrokerParticipant::get_topic_`. Returns the pointer answered by
`create_topic` and the events of the call. -/
def DataBrokerParticipant.get_topic_ (dds : Middleware) (topic_name : String) :
    Option Topic × List Event :=
  let topic_mangled := DataBrokerParticipant.topic_mangled_ topic_name
  (dds.create_topic topic_mangled DataBrokerParticipant.type_name_,
    [.logInfo ("Adding topic mangled \x27" ++ topic_mangled ++ "\x27 endpoints for Participant "
        ++ DataBrokerParticipant.name),
      .create_topic topic_mangled DataBrokerParticipant.type_name_])

/-- Source: `DataBrokerParticipant::add_topic`. Returns the participant after the call and
the events of the call. -/
def DataBrokerParticipant.add_topic (dds : Middleware) (self : DataBrokerParticipant)
    (topic_name : String) : DataBrokerParticipant × List Event :=
  -- Check if this topic already exists
  match self.topics_.find topic_name with
  | some _ =>
    -- Topic already exists
    (self, [])
  | none =>
    let (topic, events) := DataBrokerParticipant.get_topic_ dds topic_name
    if topic.isNone then
      (self, events ++ [.logError ("Error creating topic " ++ topic_name ++ " in Participant "
        ++ DataBrokerParticipant.name)])
    else
      -- Create DataWriter
      let dw := dds.create_datawriter topic
      -- Create DataReader
      let dr := dds.create_datareader topic
      -- Store new objects in maps
      ({ self with
          topics_ := self.topics_.assign topic_name topic,
          datawriters_ := self.datawriters_.assign topic_name dw,
          datareaders_ := self.datareaders_.assign topic_name dr },
        events ++ [.create_datawriter topic, .create_datareader topic,
          .logInfo ("Topic \x27" ++ topic_name ++ "\x27 created in Participant "
            ++ DataBrokerParticipant.name)])

/-- Source: `DataBrokerParticipant::stop_topic`, whose body is empty (`// TODO`). -/
def DataBrokerParticipant.stop_topic (self : DataBrokerParticipant) (topic : String) :
    DataBrokerParticipant × List Event :=
  let _ := topic
  (self, [])

/-- Source: `DataBrokerParticipant::send_data`. Returns the participant after the call and
the events of the call; `dw->write(&data)` on a stored null pointer (line 246) does not
return. -/
def DataBrokerParticipant.send_data (self : DataBrokerParticipant) (topic : String)
    (data : StdString) : Outcome (DataBrokerParticipant × List Event) :=
  -- Find correct DataWriter
  match self.datawriters_.find topic with
  | none =>
    .returns (self, [.logError ("Datawriter missing for topic " ++ topic ++ " in Participant "
      ++ DataBrokerParticipant.name)])
  | some none =>
    -- dw->write(&data) with dw == nullptr
    .null_dereference
  | some (some dw) =>
    .returns (self, [.write dw data,
      .logInfo ("Data sent in topic " ++ topic ++ " in Participant "
        ++ DataBrokerParticipant.name)])

/-- The three maps of a participant have the same key set. -/
def DataBrokerParticipant.same_keys (self : DataBrokerParticipant) : Prop :=
  ∀ key : String,
    self.datawriters_.has_key key = self.topics_.has_key key ∧
    self.datareaders_.has_key key = self.topics_.has_key key

/-- The states a participant reaches from a state with three empty maps, in which it is
after its construction, by the operations `enable`, `add_topic`, `stop_topic` and
`send_data`, whatever the middleware answers; a `send_data` call that does not return leads
to no state. -/
inductive DataBrokerParticipant.Reachable : DataBrokerParticipant → Prop where
  | constructed (self : DataBrokerParticipant) (htopics : self.topics_ = [])
      (hwriters : self.datawriters_ = []) (hreaders : self.datareaders_ = []) :
      Reachable self
  | enable (dds : Middleware) (self : DataBrokerParticipant) :
      Reachable self → Reachable (DataBrokerParticipant.enable dds self).2.1
  | add_topic (dds : Middleware) (self : DataBrokerParticipant) (topic_name : String) :
      Reachable self → Reachable (DataBrokerParticipant.add_topic dds self topic_name).1
  | stop_topic (self : DataBrokerParticipant) (topic : String) :
      Reachable self → Reachable (DataBrokerParticipant.stop_topic self topic).1
  | send_data (self next : DataBrokerParticipant) (topic : String) (data : StdString)
      (events : List Event) :
      Reachable self →
      DataBrokerParticipant.send_data self topic data = .returns (next, events) →
      Reachable next

/-- The number of `write` calls among the events of an operation. -/
def count_writes (events : List Event) : Nat :=
  (events.filter (fun e => match e with
    | .write _ _ => true
    | _ => false)).length

/-- A middleware that creates topics and readers and answers `create_datawriter` with the
null pointer. -/
def writerless_middleware : Middleware where
  create_topic := fun _ _ => some ⟨1⟩
  create_datawriter := fun _ => none
  create_datareader := fun _ => some ⟨3⟩
  enable := .RETCODE_OK

/-- A middleware that creates every entity asked for and enables the participant. -/
def obliging_middleware : Middleware where
  create_topic := fun _ _ => some ⟨1⟩
  create_datawriter := fun _ => some ⟨2⟩
  create_datareader := fun _ => some ⟨3⟩
  enable := .RETCODE_OK

/-- A middleware that fails to create topics and to enable the participant. -/
def failing_middleware : Middleware where
  create_topic := fun _ _ => none
  create_datawriter := fun _ => none
  create_datareader := fun _ => none
  enable := .other 1

/-- A participant after its construction and a successful `init`: created, not enabled,
with empty maps. -/
def initialised_participant : DataBrokerParticipant where
  participant_ := some ⟨0⟩
  enabled_ := false
  topics_ := []
  datawriters_ := []
  datareaders_ := []

/-- The real topic `chatter` of type `StdString`. -/
def chatter_topic : RealTopic :=
  { topic_name := "chatter", topic_type := "StdString" }

/-- Two targets `P1` and `P2`, the first of which is the participant with reference 1. -/
def two_targets : List (ParticipantId × IDatabrokerParticipant) :=
  [(⟨"P1"⟩, ⟨1⟩), (⟨"P2"⟩, ⟨2⟩)]

/-! ## WAN participant QoS (`databroker`) -/

/-- A `eprosima::fastrtps::rtps::GuidPrefix_t` of the middleware, identified by its text. -/
structure GuidPrefix_t where
  value : String
  deriving DecidableEq, Repr

/-- Modelled from the spec: `Address` of `databroker` (declared in `databroker/Address.hpp`,
not among the sources): the members `ip`, `port` and `guid` read by
`wan_participant_qos`. -/
structure Address where
  ip : String
  port : Nat
  guid : GuidPrefix_t
  deriving DecidableEq, Repr

/-- Locator kinds of the middleware used by the source. -/
inductive LocatorKind where
  | LOCATOR_KIND_UDPv4
  | LOCATOR_KIND_TCPv4
  deriving DecidableEq, Repr

/-- A `eprosima::fastrtps::rtps::Locator_t` of the middleware, as the record of what the
`IPLocator` setters stored in it: the IPv4 address, the WAN address, the logical and the
physical port. -/
structure Locator_t where
  kind : LocatorKind
  ipv4 : Option String
  wan : Option String
  logical_port : Nat
  physical_port : Nat
  deriving DecidableEq, Repr

/-- A default-constructed `Locator_t`: kind UDPv4, no address, ports 0. -/
def Locator_t.default : Locator_t :=
  { kind := .LOCATOR_KIND_UDPv4, ipv4 := none, wan := none, logical_port := 0,
    physical_port := 0 }

/-- Source: `IPLocator::setIPv4(locator, ip)`. -/
def IPLocator.setIPv4 (locator : Locator_t) (ip : String) : Locator_t :=
  { locator with ipv4 := some ip }

/-- Source: `IPLocator::setWan(locator, ip)`. -/
def IPLocator.setWan (locator : Locator_t) (ip : String) : Locator_t :=
  { locator with wan := some ip }

/-- Source: `IPLocator::setLogicalPort(locator, port)`. -/
def IPLocator.setLogicalPort (locator : Locator_t) (port : Nat) : Locator_t :=
  { locator with logical_port := port }

/-- Source: `IPLocator::setPhysicalPort(locator, port)`. -/
def IPLocator.setPhysicalPort (locator : Locator_t) (port : Nat) : Locator_t :=
  { locator with physical_port := port }

/-- A `TCPv4TransportDescriptor` of the middleware, as the record of what the source stores
in it: the listener ports added, the WAN address and the two buffer sizes. -/
structure TCPv4TransportDescriptor where
  listening_ports : List Nat
  wan_addr : Option String
  sendBufferSize : Nat
  receiveBufferSize : Nat
  deriving DecidableEq, Repr

/-- An entry of `transport().user_transports`: a TCPv4 descriptor, or a descriptor of
another kind that a default QoS may hold. -/
inductive TransportDescriptor where
  | TCPv4 (descriptor : TCPv4TransportDescriptor)
  | other (name : String)
  deriving DecidableEq, Repr

/-- A `eprosima::fastrtps::rtps::RemoteServerAttributes` of the middleware: the guid prefix
of a remote discovery server and its metatraffic unicast locators. -/
structure RemoteServerAttributes where
  guidPrefix : Option GuidPrefix_t
  metatrafficUnicastLocatorList : List Locator_t
  deriving DecidableEq, Repr

/-- A `fastrtps::Duration_t(seconds, nanosec)`. -/
structure Duration_t where
  seconds : Nat
  nanosec : Nat
  deriving DecidableEq, Repr

/-- The constant `fastrtps::c_TimeInfinite` of the middleware. -/
def c_TimeInfinite : Duration_t := { seconds := 2147483647, nanosec := 4294967295 }

/-- Discovery protocols `fastrtps::rtps::DiscoveryProtocol` of the middleware. -/
inductive DiscoveryProtocol where
  | NONE
  | SIMPLE
  | EXTERNAL
  | CLIENT
  | SERVER
  | BACKUP
  deriving DecidableEq, Repr

/-- The members of `eprosima::fastdds::dds::DomainParticipantQos` that
`wan_participant_qos` writes: `wire_protocol().prefix`, `transport().user_transports`,
`wire_protocol().builtin.metatrafficUnicastLocatorList`, and in
`wire_protocol().builtin.discovery_config` the members `m_DiscoveryServers`,
`leaseDuration`, `leaseDuration_announcementperiod` and `discoveryProtocol`. -/
structure DomainParticipantQos where
  prefix_ : Option GuidPrefix_t
  user_transports : List TransportDescriptor
  metatrafficUnicastLocatorList : List Locator_t
  m_DiscoveryServers : List RemoteServerAttributes
  leaseDuration : Duration_t
  leaseDuration_announcementperiod : Duration_t
  discoveryProtocol : DiscoveryProtocol
  deriving DecidableEq, Repr

/-- What `wan_participant_qos` takes from outside the sources: the QoS returned by
`default_participant_qos()` (a function of this repository that is not among the sources),
and `LocatorList::push_back` of the middleware, the operation behind
`metatrafficUnicastLocatorList.push_back(locator)`. -/
structure QosLibrary where
  default_participant_qos : DomainParticipantQos
  locator_list_push_back : List Locator_t → Locator_t → List Locator_t

/-- The contract of `LocatorList::push_back` that the properties below rely on: a locator
that is not in the list is added at its end. -/
def QosLibrary.appends_new (lib : QosLibrary) : Prop :=
  ∀ (list : List Locator_t) (locator : Locator_t),
    locator ∉ list → lib.locator_list_push_back list locator = list ++ [locator]

/-- The other half of the contract of `LocatorList::push_back`: a locator that is in the
list already is not added again, and the list is left as it is. -/
def QosLibrary.keeps_present (lib : QosLibrary) : Prop :=
  ∀ (list : List Locator_t) (locator : Locator_t),
    locator ∈ list → lib.locator_list_push_back list locator = list

/-- The operation `LocatorList::push_back` of the middleware (Fast DDS, an external library),
as its header documents it: "Add locator to the end if not found within the list"; a
locator equal to one of the list is not added again. -/
def LocatorList.push_back (list : List Locator_t) (locator : Locator_t) : List Locator_t :=
  if locator ∈ list then list else list ++ [locator]

/-- A QoS without transports, locators and servers, standing for a default QoS. -/
def empty_qos : DomainParticipantQos where
  prefix_ := none
  user_transports := []
  metatrafficUnicastLocatorList := []
  m_DiscoveryServers := []
  leaseDuration := { seconds := 20, nanosec := 0 }
  leaseDuration_announcementperiod := { seconds := 3, nanosec := 0 }
  discoveryProtocol := .SIMPLE

/-- The library with the `LocatorList::push_back` of the middleware and `empty_qos` as
default QoS. -/
def fastdds_library : QosLibrary where
  default_participant_qos := empty_qos
  locator_list_push_back := LocatorList.push_back

/-- Source: the TCPv4 descriptor built for a listening address in the first loop of
`wan_participant_qos` (lines 66-73). -/
def listening_descriptor (address : Address) : TCPv4TransportDescriptor :=
  -- descriptor->add_listener_port(address.port); descriptor->set_WAN_address(address.ip);
  -- descriptor->sendBufferSize = 0; descriptor->receiveBufferSize = 0;
  { listening_ports := [address.port], wan_addr := some address.ip, sendBufferSize := 0,
    receiveBufferSize := 0 }

/-- Source: the locator built for a listening address in the first loop of
`wan_participant_qos` (lines 81-87). -/
def listening_locator (udp : Bool) (address : Address) : Locator_t :=
  let locator := Locator_t.default
  let locator := { locator with
    kind := if udp then LocatorKind.LOCATOR_KIND_UDPv4 else LocatorKind.LOCATOR_KIND_TCPv4 }
  let locator := IPLocator.setIPv4 locator address.ip
  let locator := IPLocator.setWan locator address.ip
  let locator := IPLocator.setLogicalPort locator address.port
  IPLocator.setPhysicalPort locator address.port

/-- Source: the locator built for a connection address in the second loop of
`wan_participant_qos` (lines 103-108). -/
def connection_locator (udp : Bool) (address : Address) : Locator_t :=
  let locator := Locator_t.default
  let locator := { locator with
    kind := if udp then LocatorKind.LOCATOR_KIND_UDPv4 else LocatorKind.LOCATOR_KIND_TCPv4 }
  let locator := IPLocator.setIPv4 locator address.ip
  let locator := IPLocator.setLogicalPort locator address.port
  IPLocator.setPhysicalPort locator address.port

/-- Source: body of the first loop of `wan_participant_qos`, for one listening address
(lines 59-92). -/
def add_listening_address (lib : QosLibrary) (udp : Bool) (pqos : DomainParticipantQos)
    (address : Address) : DomainParticipantQos :=
  -- Configuring transport
  let pqos :=
    if !udp then
      { pqos with
        user_transports := pqos.user_transports ++ [.TCPv4 (listening_descriptor address)] }
    else pqos
  -- Create Locator
  { pqos with
    metatrafficUnicastLocatorList :=
      lib.locator_list_push_back pqos.metatrafficUnicastLocatorList
        (listening_locator udp address) }

/-- Source: body of the second loop of `wan_participant_qos`, for one connection address
(lines 95-116). -/
def add_connection_address (lib : QosLibrary) (udp : Bool) (pqos : DomainParticipantQos)
    (address : Address) : DomainParticipantQos :=
  let server_attr : RemoteServerAttributes :=
    { guidPrefix := none, metatrafficUnicastLocatorList := [] }
  -- Set Server GUID
  let server_attr := { server_attr with guidPrefix := some address.guid }
  -- Discovery server locator configuration
  let server_attr := { server_attr with
    metatrafficUnicastLocatorList :=
      lib.locator_list_push_back server_attr.metatrafficUnicastLocatorList
        (connection_locator udp address) }
  { pqos with m_DiscoveryServers := pqos.m_DiscoveryServers ++ [server_attr] }

/-- Source: `DataBrokerWANParticipant::wan_participant_qos`. The `logInfo` calls, which do
not touch the QoS, are left out. -/
def wan_participant_qos (lib : QosLibrary) (server_guid : GuidPrefix_t)
    (listening_addresses connection_addresses : List Address) (udp : Bool) :
    DomainParticipantQos :=
  let pqos := lib.default_participant_qos
  -- Configuring Server Guid
  let pqos := { pqos with prefix_ := some server_guid }
  let pqos := listening_addresses.foldl (add_listening_address lib udp) pqos
  -- Configure connection addresses
  let pqos := connection_addresses.foldl (add_connection_address lib udp) pqos
  { pqos with
    leaseDuration := c_TimeInfinite,
    leaseDuration_announcementperiod := { seconds := 2, nanosec := 0 },
    -- Set this participant as a SERVER
    discoveryProtocol := .SERVER }

/-- The listening address `192.168.1.2:11600` of the server `01.0f`. -/
def example_address : Address :=
  { ip := "192.168.1.2", port := 11600, guid := ⟨"01.0f"⟩ }

/-- The listening address `192.168.1.3:11601` of the server `01.0e`. -/
def other_address : Address :=
  { ip := "192.168.1.3", port := 11601, guid := ⟨"01.0e"⟩ }

end databroker
end ddsrouter

namespace ddsrouter
namespace yaml

/-! ## Auxiliary facts on the generic accessors -/

theorem is_tag_present_of_get_in_tag {α : Type} (reader : Yaml → Result α) (yml : Yaml)
    (tag : TagType) (v : α) (h : get_in_tag reader yml tag = .ok v) :
    is_tag_present yml tag = .ok true := by
  unfold get_in_tag get_value_in_tag at h
  cases hp : is_tag_present yml tag with
  | error e => simp [hp] at h
  | ok b => cases b <;> simp [hp] at h ⊢

/-- Reading a tag whose node is `value` applies the reader to that node. -/
theorem get_in_tag_of_index {α : Type} (reader : Yaml → Result α) (yml : Yaml)
    (tag : TagType) (value : Yaml) (h : yml.index tag = some value) :
    is_tag_present yml tag = .ok true ∧ get_in_tag reader yml tag = reader value := by
  cases yml with
  | map entries =>
    simp [get_in_tag, get_value_in_tag, is_tag_present, Yaml.IsMap, Yaml.IsNull, h]
  | null => simp [Yaml.index] at h
  | scalar _ => simp [Yaml.index] at h
  | sequence _ => simp [Yaml.index] at h

theorem get_in_tag_of_absent {α : Type} (reader : Yaml → Result α) (yml : Yaml)
    (tag : TagType) (h : is_tag_present yml tag = .ok false) :
    get_in_tag reader yml tag = .error (.MissingRequiredTag tag) := by
  simp [get_in_tag, get_value_in_tag, h]

theorem is_tag_present_ok_of_ok (yml : Yaml) (t1 t2 : TagType) (b : Bool)
    (h : is_tag_present yml t1 = .ok b) : ∃ b2, is_tag_present yml t2 = .ok b2 := by
  unfold is_tag_present at h ⊢
  by_cases hm : (!yml.IsMap && !yml.IsNull) = true
  · simp [hm] at h
  · simp [hm]

theorem is_tag_present_error_of_error (yml : Yaml) (t1 t2 : TagType)
    (e : ConfigurationException) (h : is_tag_present yml t1 = .error e) :
    is_tag_present yml t2 = .error (.MalformedTree t2) := by
  unfold is_tag_present at h ⊢
  by_cases hm : (!yml.IsMap && !yml.IsNull) = true
  · simp [hm]
  · simp [hm] at h

theorem get_string_of_present (yml : Yaml) (tags : List TagType) (tag : TagType)
    (hs : string_valued yml tags = true) (hmem : tag ∈ tags)
    (hp : is_tag_present yml tag = .ok true) :
    ∃ s, get_in_tag get_scalar_string yml tag = .ok s := by
  have hv := List.all_eq_true.mp hs tag hmem
  unfold is_tag_present at hp
  by_cases hm : (!yml.IsMap && !yml.IsNull) = true
  · simp [hm] at hp
  · simp only [hm] at hp
    cases hi : yml.index tag with
    | none => simp [hi] at hp
    | some v =>
      simp only [hi] at hv
      cases v with
      | scalar s =>
        refine ⟨s, ?_⟩
        simp [get_in_tag, get_value_in_tag, is_tag_present, hm, hi, get_scalar_string]
      | null => simp [Yaml.IsScalar] at hv
      | sequence _ => simp [Yaml.IsScalar] at hv
      | map _ => simp [Yaml.IsScalar] at hv

/-- The optional read `if present then get_scalar<std::string>(yml, tag)` of a string-valued
document never throws. -/
theorem optional_string_ok (yml : Yaml) (tags : List TagType) (tag : TagType) (b : Bool)
    (hs : string_valued yml tags = true) (hmem : tag ∈ tags)
    (hp : is_tag_present yml tag = .ok b) :
    ∃ s, (if b = true then get_in_tag get_scalar_string yml tag else (pure "" : Result String))
      = .ok s := by
  cases b with
  | false => exact ⟨"", rfl⟩
  | true =>
    obtain ⟨s, h⟩ := get_string_of_present yml tags tag hs hmem hp
    exact ⟨s, by simp [h]⟩

/-- On a document whose present TLS fields are strings, the outcome kind of the security
builder is given by the presence flags through the decision of the source. -/
theorem tls_outcome_of_flags (env : Env) (yml : Yaml) (bk bp bca bc bd : Bool)
    (hs : string_valued yml (tls_tags env) = true)
    (hk : is_tag_present yml env.TLS_PRIVATE_KEY_TAG = .ok bk)
    (hp : is_tag_present yml env.TLS_PASSWORD_TAG = .ok bp)
    (hca : is_tag_present yml env.TLS_CA_TAG = .ok bca)
    (hc : is_tag_present yml env.TLS_CERT_TAG = .ok bc)
    (hd : is_tag_present yml env.TLS_DHPARAMS_TAG = .ok bd) :
    outcome_kind (get_TlsConfiguration env yml) =
      (if (bk && bc && bd) = true then
        (if bca = true then some TlsKind.Both else some TlsKind.Server)
      else (if bca = true then some TlsKind.Client else none)) := by
  obtain ⟨sk, hsk⟩ := optional_string_ok yml _ _ _ hs (by simp [tls_tags]) hk
  obtain ⟨sp, hsp⟩ := optional_string_ok yml _ _ _ hs (by simp [tls_tags]) hp
  obtain ⟨sca, hsca⟩ := optional_string_ok yml _ _ _ hs (by simp [tls_tags]) hca
  obtain ⟨sc, hsc⟩ := optional_string_ok yml _ _ _ hs (by simp [tls_tags]) hc
  obtain ⟨sd, hsd⟩ := optional_string_ok yml _ _ _ hs (by simp [tls_tags]) hd
  simp only [get_TlsConfiguration, bind, Except.bind, hk, hp, hca, hc, hd, hsk, hsp, hsca, hsc, hsd]
  cases bk <;> cases bc <;> cases bd <;> cases bca <;> rfl

/-! ## Security builder -/

/-- C1 (amended): for every TLS document whose present fields are scalar strings: when
private key, certificate chain and DH params are all present the builder returns the Both
variant if the CA certificate is also present and the Server variant if it is absent
(whether or not a password is present), built from exactly the values read; and when the CA
certificate is the only one of the five fields present it returns the Client variant
carrying that CA file. -/
theorem get_TlsConfiguration_variants (env : Env) (yml : Yaml) :
    (∀ k c d pw : String,
      get_in_tag get_scalar_string yml env.TLS_PRIVATE_KEY_TAG = .ok k →
      get_in_tag get_scalar_string yml env.TLS_CERT_TAG = .ok c →
      get_in_tag get_scalar_string yml env.TLS_DHPARAMS_TAG = .ok d →
      (get_in_tag get_scalar_string yml env.TLS_PASSWORD_TAG = .ok pw ∨
        (is_tag_present yml env.TLS_PASSWORD_TAG = .ok false ∧ pw = "")) →
      (∀ ca : String, get_in_tag get_scalar_string yml env.TLS_CA_TAG = .ok ca →
        get_TlsConfiguration env yml = .ok (.Both pw k ca c d)) ∧
      (is_tag_present yml env.TLS_CA_TAG = .ok false →
        get_TlsConfiguration env yml = .ok (.Server pw k c d))) ∧
    (∀ ca : String,
      get_in_tag get_scalar_string yml env.TLS_CA_TAG = .ok ca →
      is_tag_present yml env.TLS_PRIVATE_KEY_TAG = .ok false →
      is_tag_present yml env.TLS_PASSWORD_TAG = .ok false →
      is_tag_present yml env.TLS_CERT_TAG = .ok false →
      is_tag_present yml env.TLS_DHPARAMS_TAG = .ok false →
      get_TlsConfiguration env yml = .ok (.Client ca)) := by
  refine ⟨?_, ?_⟩
  · intro k c d pw hk hc hd hpw
    have hk1 := is_tag_present_of_get_in_tag _ _ _ _ hk
    have hc1 := is_tag_present_of_get_in_tag _ _ _ _ hc
    have hd1 := is_tag_present_of_get_in_tag _ _ _ _ hd
    refine ⟨?_, ?_⟩
    · intro ca hca
      have hca1 := is_tag_present_of_get_in_tag _ _ _ _ hca
      rcases hpw with hpw | ⟨hpw, rfl⟩
      · have hpw1 := is_tag_present_of_get_in_tag _ _ _ _ hpw
        simp [get_TlsConfiguration, hk, hc, hd, hca, hpw, hk1, hc1, hd1, hca1, hpw1, bind,
          Except.bind, pure, Except.pure]
      · simp [get_TlsConfiguration, hk, hc, hd, hca, hpw, hk1, hc1, hd1, hca1, bind,
          Except.bind, pure, Except.pure]
    · intro hca
      rcases hpw with hpw | ⟨hpw, rfl⟩
      · have hpw1 := is_tag_present_of_get_in_tag _ _ _ _ hpw
        simp [get_TlsConfiguration, hk, hc, hd, hca, hpw, hk1, hc1, hd1, hpw1, bind,
          Except.bind, pure, Except.pure]
      · simp [get_TlsConfiguration, hk, hc, hd, hca, hpw, hk1, hc1, hd1, bind,
          Except.bind, pure, Except.pure]
  · intro ca hca hk hp hc hd
    have hca1 := is_tag_present_of_get_in_tag _ _ _ _ hca
    simp [get_TlsConfiguration, hk, hc, hd, hca, hp, hca1, bind, Except.bind, pure,
      Except.pure]

/-- Witness for C1: a Both document, a Server document with a password, and a Client
document. -/
theorem get_TlsConfiguration_variants_witness :
    get_TlsConfiguration specEnv tls_document_both
      = .ok (.Both "" "key.pem" "ca.pem" "cert.pem" "dh.pem") ∧
    get_TlsConfiguration specEnv tls_document_server
      = .ok (.Server "secret" "key.pem" "cert.pem" "dh.pem") ∧
    get_TlsConfiguration specEnv tls_document_client = .ok (.Client "ca.pem") :=
  ⟨((get_TlsConfiguration_variants specEnv tls_document_both).1 "key.pem" "cert.pem" "dh.pem"
      "" rfl rfl rfl (Or.inr ⟨rfl, rfl⟩)).1 "ca.pem" rfl,
   ((get_TlsConfiguration_variants specEnv tls_document_server).1 "key.pem" "cert.pem"
      "dh.pem" "secret" rfl rfl rfl (Or.inl rfl)).2 rfl,
   (get_TlsConfiguration_variants specEnv tls_document_client).2 "ca.pem" rfl rfl rfl rfl rfl⟩

/-- C1 fails as stated: in `tls_document_password_sequence` private key, certificate chain
and DH params are all present (the CA certificate is absent), but the password holds a
sequence instead of a string, and the builder throws instead of returning the Server
variant. -/
theorem get_TlsConfiguration_password_sequence_fails :
    is_tag_present tls_document_password_sequence specEnv.TLS_PRIVATE_KEY_TAG = .ok true ∧
    is_tag_present tls_document_password_sequence specEnv.TLS_CERT_TAG = .ok true ∧
    is_tag_present tls_document_password_sequence specEnv.TLS_DHPARAMS_TAG = .ok true ∧
    is_tag_present tls_document_password_sequence specEnv.TLS_CA_TAG = .ok false ∧
    get_TlsConfiguration specEnv tls_document_password_sequence
      = .error .TypeConversionError :=
  ⟨rfl, rfl, rfl, rfl, rfl⟩

/-- C2 (amended): for every TLS document whose present fields are scalar strings and which
lacks at least one of private key, certificate chain and DH params: the builder fails with
`IncoherentSecurityConfiguration` when the CA certificate is absent, and returns the Client
variant carrying the CA file when the CA certificate is present (a CA certificate together
with only some of the three server fields, or with a password, is accepted as Client). -/
theorem get_TlsConfiguration_incomplete_server (env : Env) (yml : Yaml) (bk bc bd : Bool)
    (hs : string_valued yml (tls_tags env) = true)
    (hk : is_tag_present yml env.TLS_PRIVATE_KEY_TAG = .ok bk)
    (hc : is_tag_present yml env.TLS_CERT_TAG = .ok bc)
    (hd : is_tag_present yml env.TLS_DHPARAMS_TAG = .ok bd)
    (hnot : (bk && bc && bd) = false) :
    (is_tag_present yml env.TLS_CA_TAG = .ok false →
      get_TlsConfiguration env yml = .error .IncoherentSecurityConfiguration) ∧
    (∀ ca : String, get_in_tag get_scalar_string yml env.TLS_CA_TAG = .ok ca →
      get_TlsConfiguration env yml = .ok (.Client ca)) := by
  obtain ⟨bp, hp⟩ := is_tag_present_ok_of_ok yml _ env.TLS_PASSWORD_TAG _ hk
  obtain ⟨sk, hsk⟩ := optional_string_ok yml _ _ _ hs (by simp [tls_tags]) hk
  obtain ⟨sp, hsp⟩ := optional_string_ok yml _ _ _ hs (by simp [tls_tags]) hp
  obtain ⟨sc, hsc⟩ := optional_string_ok yml _ _ _ hs (by simp [tls_tags]) hc
  obtain ⟨sd, hsd⟩ := optional_string_ok yml _ _ _ hs (by simp [tls_tags]) hd
  refine ⟨?_, ?_⟩
  · intro hca
    simp only [get_TlsConfiguration, bind, Except.bind, hk, hp, hca, hc, hd, hsk, hsp, hsc,
      hsd, hnot]
    rfl
  · intro ca hca
    have hca1 := is_tag_present_of_get_in_tag _ _ _ _ hca
    simp only [get_TlsConfiguration, bind, Except.bind, hk, hp, hca, hca1, hc, hd, hsk, hsp,
      hsc, hsd, hnot]
    rfl

/-- Witness for C2: a lone password is rejected, a CA certificate with a lone private key is
accepted as Client. -/
theorem get_TlsConfiguration_incomplete_server_witness :
    get_TlsConfiguration specEnv tls_document_password
      = .error .IncoherentSecurityConfiguration ∧
    get_TlsConfiguration specEnv tls_document_ca_key = .ok (.Client "ca.pem") :=
  ⟨(get_TlsConfiguration_incomplete_server specEnv tls_document_password false false false
      rfl rfl rfl rfl rfl).1 rfl,
   (get_TlsConfiguration_incomplete_server specEnv tls_document_ca_key true false false
      rfl rfl rfl rfl rfl).2 "ca.pem" rfl⟩

/-- C2 fails as stated: `tls_document_ca_key` holds a CA certificate and a private key only,
which is none of the Server, Both and Client combinations, yet the builder does not fail:
it returns the Client variant. -/
theorem get_TlsConfiguration_ca_with_key_accepted :
    is_tag_present tls_document_ca_key specEnv.TLS_PRIVATE_KEY_TAG = .ok true ∧
    is_tag_present tls_document_ca_key specEnv.TLS_PASSWORD_TAG = .ok false ∧
    is_tag_present tls_document_ca_key specEnv.TLS_CA_TAG = .ok true ∧
    is_tag_present tls_document_ca_key specEnv.TLS_CERT_TAG = .ok false ∧
    is_tag_present tls_document_ca_key specEnv.TLS_DHPARAMS_TAG = .ok false ∧
    get_TlsConfiguration specEnv tls_document_ca_key = .ok (.Client "ca.pem") :=
  ⟨rfl, rfl, rfl, rfl, rfl, rfl⟩

/-- C3: the outcome kind of the security builder (Client, Server, Both or failure) is a
function of the five presence flags alone: two documents with string-valued fields and the
same present tags among the five get the same outcome kind; and one table from the 32
presence combinations to outcome kinds describes the builder on every such document. -/
theorem get_TlsConfiguration_outcome_deterministic :
    (∀ (env : Env) (y1 y2 : Yaml),
      string_valued y1 (tls_tags env) = true →
      string_valued y2 (tls_tags env) = true →
      (∀ tag ∈ tls_tags env, is_tag_present y1 tag = is_tag_present y2 tag) →
      outcome_kind (get_TlsConfiguration env y1) = outcome_kind (get_TlsConfiguration env y2)) ∧
    (∃ table : Bool → Bool → Bool → Bool → Bool → Option TlsKind,
      ∀ (env : Env) (yml : Yaml) (bk bp bca bc bd : Bool),
        string_valued yml (tls_tags env) = true →
        is_tag_present yml env.TLS_PRIVATE_KEY_TAG = .ok bk →
        is_tag_present yml env.TLS_PASSWORD_TAG = .ok bp →
        is_tag_present yml env.TLS_CA_TAG = .ok bca →
        is_tag_present yml env.TLS_CERT_TAG = .ok bc →
        is_tag_present yml env.TLS_DHPARAMS_TAG = .ok bd →
        outcome_kind (get_TlsConfiguration env yml) = table bk bp bca bc bd) := by
  refine ⟨?_, ?_⟩
  · intro env y1 y2 hs1 hs2 hsame
    have ek := hsame env.TLS_PRIVATE_KEY_TAG (by simp [tls_tags])
    have ep := hsame env.TLS_PASSWORD_TAG (by simp [tls_tags])
    have eca := hsame env.TLS_CA_TAG (by simp [tls_tags])
    have ec := hsame env.TLS_CERT_TAG (by simp [tls_tags])
    have ed := hsame env.TLS_DHPARAMS_TAG (by simp [tls_tags])
    cases hk : is_tag_present y1 env.TLS_PRIVATE_KEY_TAG with
    | error e =>
      have hk2 := ek ▸ hk
      simp [get_TlsConfiguration, hk, hk2, bind, Except.bind, outcome_kind]
    | ok bk =>
      obtain ⟨bp, hp⟩ := is_tag_present_ok_of_ok y1 _ env.TLS_PASSWORD_TAG _ hk
      obtain ⟨bca, hca⟩ := is_tag_present_ok_of_ok y1 _ env.TLS_CA_TAG _ hk
      obtain ⟨bc, hc⟩ := is_tag_present_ok_of_ok y1 _ env.TLS_CERT_TAG _ hk
      obtain ⟨bd, hd⟩ := is_tag_present_ok_of_ok y1 _ env.TLS_DHPARAMS_TAG _ hk
      rw [tls_outcome_of_flags env y1 bk bp bca bc bd hs1 hk hp hca hc hd,
        tls_outcome_of_flags env y2 bk bp bca bc bd hs2 (ek ▸ hk) (ep ▸ hp) (eca ▸ hca)
          (ec ▸ hc) (ed ▸ hd)]
  · exact ⟨fun bk _ bca bc bd =>
      if (bk && bc && bd) = true then
        (if bca = true then some TlsKind.Both else some TlsKind.Server)
      else (if bca = true then some TlsKind.Client else none),
      fun env yml bk bp bca bc bd hs hk hp hca hc hd =>
        tls_outcome_of_flags env yml bk bp bca bc bd hs hk hp hca hc hd⟩

/-- Witness for C3: two documents with the same present tags (private key and CA
certificate) and different values get the same outcome kind. -/
theorem get_TlsConfiguration_outcome_deterministic_witness :
    outcome_kind (get_TlsConfiguration specEnv tls_document_ca_key)
      = outcome_kind (get_TlsConfiguration specEnv tls_document_key_ca) :=
  get_TlsConfiguration_outcome_deterministic.1 specEnv tls_document_ca_key
    tls_document_key_ca rfl rfl (by
      intro tag h
      simp only [tls_tags, specEnv, List.mem_cons, List.mem_singleton, List.not_mem_nil,
        or_false] at h
      rcases h with rfl | rfl | rfl | rfl | rfl <;> rfl)

/-! ## Address builder -/

theorem Logged.lift_result {α : Type} (r : Result α) : (Logged.lift r).result = r := rfl

theorem Logged.lift_log {α : Type} (r : Result α) : (Logged.lift r).log = [] := rfl

theorem get_Address_error_of_not_map (env : Env) (yml : Yaml) (e : ConfigurationException)
    (h : is_tag_present yml env.ADDRESS_IP_VERSION_TAG = .error e) :
    get_Address env yml = ⟨[], .error e⟩ := by
  simp [get_Address, h, bind, Logged.bind, Logged.lift]

/-- C4 (amended): for every Address document in which neither the ip tag nor the domain-name
tag is present, the builder fails; the failure is `AddressUnderspecified`, with nothing
logged, whenever the ip-version tag is absent or holds a valid IP version, whatever the port
and transport tags contain. -/
theorem get_Address_underspecified (env : Env) (yml : Yaml)
    (hip : is_tag_present yml env.ADDRESS_IP_TAG = .ok false)
    (hdn : is_tag_present yml env.ADDRESS_DNS_TAG = .ok false) :
    (∀ a : Address, (get_Address env yml).result ≠ .ok a) ∧
    (optional_valid (get_IpVersion env) yml env.ADDRESS_IP_VERSION_TAG = true →
      get_Address env yml = ⟨[], .error .AddressUnderspecified⟩) := by
  obtain ⟨bv, hv⟩ := is_tag_present_ok_of_ok yml _ env.ADDRESS_IP_VERSION_TAG _ hip
  cases bv with
  | false =>
    have hres : get_Address env yml = ⟨[], .error .AddressUnderspecified⟩ := by
      simp [get_Address, hv, hip, hdn, bind, Logged.bind, Logged.lift, pure, Logged.pure,
        Logged.throw]
    exact ⟨fun a h => by simp [hres] at h, fun _ => hres⟩
  | true =>
    cases hg : get_in_tag (get_IpVersion env) yml env.ADDRESS_IP_VERSION_TAG with
    | error e =>
      refine ⟨fun a h => ?_, fun hval => ?_⟩
      · simp [get_Address, hv, hg, bind, Logged.bind, Logged.lift] at h
      · simp [optional_valid, hv, hg] at hval
    | ok v =>
      have hres : get_Address env yml = ⟨[], .error .AddressUnderspecified⟩ := by
        simp [get_Address, hv, hg, hip, hdn, bind, Logged.bind, Logged.lift, pure,
          Logged.pure, Logged.throw]
      exact ⟨fun a h => by simp [hres] at h, fun _ => hres⟩

/-- Witness for C4: a document with neither ip nor domain-name, a malformed port and an
unknown transport fails with `AddressUnderspecified`. -/
theorem get_Address_underspecified_witness :
    get_Address specEnv address_document_port_transport
      = ⟨[], .error .AddressUnderspecified⟩ :=
  (get_Address_underspecified specEnv address_document_port_transport rfl rfl).2 rfl

/-- C4 fails as stated: `address_document_version_v5` has neither ip nor domain-name, and the
builder fails on the ip-version value before it checks them: the error is the unknown
enumeration value, not `AddressUnderspecified`. -/
theorem get_Address_version_checked_first :
    is_tag_present address_document_version_v5 specEnv.ADDRESS_IP_TAG = .ok false ∧
    is_tag_present address_document_version_v5 specEnv.ADDRESS_DNS_TAG = .ok false ∧
    get_Address specEnv address_document_version_v5
      = ⟨[], .error (.UnknownEnumerationValue "v5")⟩ ∧
    (get_Address specEnv address_document_version_v5).result
      ≠ .error .AddressUnderspecified :=
  ⟨rfl, rfl, rfl, by
    intro h
    rw [show (get_Address specEnv address_document_version_v5).result
      = .error (.UnknownEnumerationValue "v5") from rfl] at h
    cases h⟩

/-! ### Removing a tag from a document -/

theorem lookup_filter_ne (entries : List (String × Yaml)) (tag other : TagType)
    (h : other ≠ tag) :
    (entries.filter (fun kv => kv.1 != tag)).lookup other = entries.lookup other := by
  induction entries with
  | nil => rfl
  | cons kv rest ih =>
    obtain ⟨k, v⟩ := kv
    by_cases hk : k = tag
    · subst hk
      have hne : (other == k) = false := by simpa using h
      simp [List.filter_cons, List.lookup_cons, hne, ih]
    · have hkeep : (k != tag) = true := by simpa using hk
      simp only [List.filter_cons, hkeep, if_true, List.lookup_cons, ih]

theorem lookup_filter_self (entries : List (String × Yaml)) (tag : TagType) :
    (entries.filter (fun kv => kv.1 != tag)).lookup tag = none := by
  induction entries with
  | nil => rfl
  | cons kv rest ih =>
    obtain ⟨k, v⟩ := kv
    by_cases hk : k = tag
    · subst hk
      simp [List.filter_cons, ih]
    · have hkeep : (k != tag) = true := by simpa using hk
      have hne : (tag == k) = false := by simpa using fun h : tag = k => hk h.symm
      simp only [List.filter_cons, hkeep, if_true, List.lookup_cons, hne, ih]

theorem index_erase_ne (yml : Yaml) (tag other : TagType) (h : other ≠ tag) :
    (yml.erase tag).index other = yml.index other := by
  cases yml <;> simp [Yaml.erase, Yaml.index, lookup_filter_ne _ _ _ h]

theorem is_tag_present_erase_ne (yml : Yaml) (tag other : TagType) (h : other ≠ tag) :
    is_tag_present (yml.erase tag) other = is_tag_present yml other := by
  unfold is_tag_present
  rw [index_erase_ne yml tag other h]
  cases yml <;> rfl

theorem get_in_tag_erase_ne {α : Type} (reader : Yaml → Result α) (yml : Yaml)
    (tag other : TagType) (h : other ≠ tag) :
    get_in_tag reader (yml.erase tag) other = get_in_tag reader yml other := by
  unfold get_in_tag get_value_in_tag
  rw [is_tag_present_erase_ne yml tag other h, index_erase_ne yml tag other h]

theorem is_tag_present_erase_self (yml : Yaml) (tag : TagType) (b : Bool)
    (h : is_tag_present yml tag = .ok b) :
    is_tag_present (yml.erase tag) tag = .ok false := by
  cases yml with
  | map entries => simp [is_tag_present, Yaml.erase, Yaml.index, Yaml.IsMap, lookup_filter_self]
  | null => rfl
  | scalar _ => simp [is_tag_present, Yaml.IsMap, Yaml.IsNull] at h
  | sequence _ => simp [is_tag_present, Yaml.IsMap, Yaml.IsNull] at h

/-- An optional field that is valid is either absent, or present and read successfully. -/
theorem optional_valid_cases {α : Type} (reader : Yaml → Result α) (yml : Yaml)
    (tag : TagType) (h : optional_valid reader yml tag = true) :
    is_tag_present yml tag = .ok false ∨
      (is_tag_present yml tag = .ok true ∧ ∃ v, get_in_tag reader yml tag = .ok v) := by
  unfold optional_valid at h
  cases hp : is_tag_present yml tag with
  | error e => simp [hp] at h
  | ok b =>
    cases b with
    | false => exact Or.inl rfl
    | true =>
      cases hg : get_in_tag reader yml tag with
      | error e => simp [hp, hg] at h
      | ok v => exact Or.inr ⟨rfl, v, rfl⟩

/-- The Address built from a document with ip and domain name. -/
theorem ip_and_domain_address_value (env : Env) (yml : Yaml) (ip dn : String)
    (hip : get_in_tag get_IpType yml env.ADDRESS_IP_TAG = .ok ip)
    (hdn : get_in_tag get_scalar_string yml env.ADDRESS_DNS_TAG = .ok dn)
    (hver : optional_valid (get_IpVersion env) yml env.ADDRESS_IP_VERSION_TAG = true)
    (hport : optional_valid (get_PortType env) yml env.ADDRESS_PORT_TAG = true)
    (htp : optional_valid (get_TransportProtocol env) yml env.ADDRESS_TRANSPORT_TAG = true) :
    ∃ a : Address,
      get_Address env yml = ⟨[⟨"DDSROUTER_YAML", dns_ignored_message env⟩], .ok a⟩ ∧
      a.ip? = some ip ∧ a.domain_name? = none := by
  have hip1 := is_tag_present_of_get_in_tag _ _ _ _ hip
  have hdn1 := is_tag_present_of_get_in_tag _ _ _ _ hdn
  rcases optional_valid_cases _ _ _ hver with hv | ⟨hv, v, hvv⟩ <;>
  rcases optional_valid_cases _ _ _ hport with hp | ⟨hp, p, hpv⟩ <;>
  rcases optional_valid_cases _ _ _ htp with ht | ⟨ht, t, htv⟩ <;>
  simp [get_Address, hip, hdn, hip1, hdn1, hv, hp, ht, *, bind, Logged.bind, Logged.lift,
    pure, Logged.pure, Logged.throw, logWarning, Address.ip?, Address.domain_name?]

/-- The Address built from a document with ip and domain name, when the domain-name tag
differs from the other Address tags. -/
theorem ip_and_domain_address_erase (env : Env) (yml : Yaml) (ip dn : String)
    (hip : get_in_tag get_IpType yml env.ADDRESS_IP_TAG = .ok ip)
    (hdn : get_in_tag get_scalar_string yml env.ADDRESS_DNS_TAG = .ok dn)
    (hver : optional_valid (get_IpVersion env) yml env.ADDRESS_IP_VERSION_TAG = true)
    (hport : optional_valid (get_PortType env) yml env.ADDRESS_PORT_TAG = true)
    (htp : optional_valid (get_TransportProtocol env) yml env.ADDRESS_TRANSPORT_TAG = true)
    (hdist : env.ADDRESS_IP_VERSION_TAG ≠ env.ADDRESS_DNS_TAG ∧
      env.ADDRESS_IP_TAG ≠ env.ADDRESS_DNS_TAG ∧
      env.ADDRESS_PORT_TAG ≠ env.ADDRESS_DNS_TAG ∧
      env.ADDRESS_TRANSPORT_TAG ≠ env.ADDRESS_DNS_TAG) :
    ∃ a : Address,
      get_Address env yml = ⟨[⟨"DDSROUTER_YAML", dns_ignored_message env⟩], .ok a⟩ ∧
      a.ip? = some ip ∧ a.domain_name? = none ∧
      get_Address env (yml.erase env.ADDRESS_DNS_TAG) = ⟨[], .ok a⟩ := by
  obtain ⟨d1, d2, d3, d4⟩ := hdist
  have hip1 := is_tag_present_of_get_in_tag _ _ _ _ hip
  have hdn1 := is_tag_present_of_get_in_tag _ _ _ _ hdn
  have hdn2 := is_tag_present_erase_self yml _ _ hdn1
  have e1 := is_tag_present_erase_ne yml _ _ d1
  have e2 := is_tag_present_erase_ne yml _ _ d2
  have e3 := is_tag_present_erase_ne yml _ _ d3
  have e4 := is_tag_present_erase_ne yml _ _ d4
  have g1 := get_in_tag_erase_ne (get_IpVersion env) yml _ _ d1
  have g2 := get_in_tag_erase_ne get_IpType yml _ _ d2
  have g3 := get_in_tag_erase_ne (get_PortType env) yml _ _ d3
  have g4 := get_in_tag_erase_ne (get_TransportProtocol env) yml _ _ d4
  rcases optional_valid_cases _ _ _ hver with hv | ⟨hv, v, hvv⟩ <;>
  rcases optional_valid_cases _ _ _ hport with hp | ⟨hp, p, hpv⟩ <;>
  rcases optional_valid_cases _ _ _ htp with ht | ⟨ht, t, htv⟩ <;>
  simp [get_Address, hip, hdn, hip1, hdn1, hdn2, e1, e2, e3, e4, g1, g2, g3, g4, hv, hp, ht,
    *, bind, Logged.bind, Logged.lift, pure, Logged.pure, Logged.throw, logWarning,
    Address.ip?, Address.domain_name?]

/-- C5 (amended): for every Address document in which the ip tag and the domain-name tag are
both present with scalar (string) values and the ip-version, port and transport tags are
absent or valid, the builder succeeds, the Address is constructed from the ip value and not
from the domain name, exactly one warning, about the ignored domain-name tag, is recorded,
and (the domain-name tag being different from the other Address tags) the result is the one
obtained from the document with the domain-name tag removed. -/
theorem get_Address_ip_and_domain (env : Env) (yml : Yaml) (ip dn : String)
    (hip : get_in_tag get_IpType yml env.ADDRESS_IP_TAG = .ok ip)
    (hdn : get_in_tag get_scalar_string yml env.ADDRESS_DNS_TAG = .ok dn)
    (hver : optional_valid (get_IpVersion env) yml env.ADDRESS_IP_VERSION_TAG = true)
    (hport : optional_valid (get_PortType env) yml env.ADDRESS_PORT_TAG = true)
    (htp : optional_valid (get_TransportProtocol env) yml env.ADDRESS_TRANSPORT_TAG = true) :
    ∃ a : Address,
      get_Address env yml = ⟨[⟨"DDSROUTER_YAML", dns_ignored_message env⟩], .ok a⟩ ∧
      a.ip? = some ip ∧ a.domain_name? = none ∧
      (env.ADDRESS_IP_VERSION_TAG ≠ env.ADDRESS_DNS_TAG ∧
        env.ADDRESS_IP_TAG ≠ env.ADDRESS_DNS_TAG ∧
        env.ADDRESS_PORT_TAG ≠ env.ADDRESS_DNS_TAG ∧
        env.ADDRESS_TRANSPORT_TAG ≠ env.ADDRESS_DNS_TAG →
        get_Address env (yml.erase env.ADDRESS_DNS_TAG) = ⟨[], .ok a⟩) := by
  obtain ⟨a, h1, h2, h3⟩ := ip_and_domain_address_value env yml ip dn hip hdn hver hport htp
  refine ⟨a, h1, h2, h3, fun hdist => ?_⟩
  obtain ⟨b, hb1, -, -, hb4⟩ :=
    ip_and_domain_address_erase env yml ip dn hip hdn hver hport htp hdist
  have hab : a = b := by
    have h := h1.symm.trans hb1
    simpa using h
  rw [hab]
  exact hb4

/-- Witness for C5: ip, domain name and transport given. -/
theorem get_Address_ip_and_domain_witness :
    ∃ a : Address,
      get_Address specEnv address_document_ip_domain
        = ⟨[⟨"DDSROUTER_YAML", dns_ignored_message specEnv⟩], .ok a⟩ ∧
      a.ip? = some "192.168.1.2" ∧ a.domain_name? = none ∧
      get_Address specEnv (address_document_ip_domain.erase specEnv.ADDRESS_DNS_TAG)
        = ⟨[], .ok a⟩ :=
  (get_Address_ip_and_domain specEnv address_document_ip_domain "192.168.1.2" "localhost"
    rfl rfl rfl rfl rfl).imp fun _ h =>
      ⟨h.1, h.2.1, h.2.2.1, h.2.2.2 ⟨by decide, by decide, by decide, by decide⟩⟩

/-- C5 fails as stated: in `address_document_ip_domain_sequence` the ip tag and the
domain-name tag are both present and no other field is given, but the domain name is a
sequence: the builder reads it before it decides to ignore it and throws, with no warning
recorded, whereas the same document without the domain-name tag yields an Address. -/
theorem get_Address_ignored_domain_is_read :
    is_tag_present address_document_ip_domain_sequence specEnv.ADDRESS_IP_TAG = .ok true ∧
    is_tag_present address_document_ip_domain_sequence specEnv.ADDRESS_DNS_TAG = .ok true ∧
    get_Address specEnv address_document_ip_domain_sequence
      = ⟨[], .error .TypeConversionError⟩ ∧
    get_Address specEnv (address_document_ip_domain_sequence.erase specEnv.ADDRESS_DNS_TAG)
      = ⟨[], .ok (.of_ip "192.168.1.2" specEnv.default_port
          specEnv.default_transport_protocol)⟩ :=
  ⟨rfl, rfl, rfl, rfl⟩

/-- An optional read either throws or yields a value: the default when the tag is absent,
the value read when it is present. Nothing is logged. -/
theorem optional_read_cases {α : Type} (b : Bool) (r : Result α) (d : α) :
    (∃ e, (if b = true then Logged.lift r else (pure d : Logged α)) = ⟨[], .error e⟩ ∧
      b = true ∧ r = .error e) ∨
    (∃ v, (if b = true then Logged.lift r else (pure d : Logged α)) = ⟨[], .ok v⟩ ∧
      (b = false → v = d) ∧ (b = true → r = .ok v)) := by
  cases b with
  | false => exact Or.inr ⟨d, rfl, fun _ => rfl, fun h => absurd h (by decide)⟩
  | true =>
    cases r with
    | error e => exact Or.inl ⟨e, rfl, rfl, rfl⟩
    | ok v => exact Or.inr ⟨v, rfl, fun h => absurd h (by decide), fun _ => rfl⟩

/-- Port and transport of the Address the builder returns, in terms of the reads of the two
tags; existence of the result when every present field is valid; and the result for a
document holding only the ip tag. -/
theorem address_port_transport_as_read (env : Env) (yml : Yaml) :
    (∀ a : Address, (get_Address env yml).result = .ok a →
      (is_tag_present yml env.ADDRESS_PORT_TAG = .ok false → a.port = env.default_port) ∧
      (is_tag_present yml env.ADDRESS_PORT_TAG = .ok true →
        get_in_tag (get_PortType env) yml env.ADDRESS_PORT_TAG = .ok a.port) ∧
      (is_tag_present yml env.ADDRESS_TRANSPORT_TAG = .ok false →
        a.transport_protocol = env.default_transport_protocol) ∧
      (is_tag_present yml env.ADDRESS_TRANSPORT_TAG = .ok true →
        get_in_tag (get_TransportProtocol env) yml env.ADDRESS_TRANSPORT_TAG
          = .ok a.transport_protocol)) ∧
    (optional_valid get_IpType yml env.ADDRESS_IP_TAG = true →
      optional_valid get_scalar_string yml env.ADDRESS_DNS_TAG = true →
      (is_tag_present yml env.ADDRESS_IP_TAG = .ok true ∨
        is_tag_present yml env.ADDRESS_DNS_TAG = .ok true) →
      optional_valid (get_IpVersion env) yml env.ADDRESS_IP_VERSION_TAG = true →
      optional_valid (get_PortType env) yml env.ADDRESS_PORT_TAG = true →
      optional_valid (get_TransportProtocol env) yml env.ADDRESS_TRANSPORT_TAG = true →
      ∃ a : Address, (get_Address env yml).result = .ok a) ∧
    (∀ ip : String, yml = .map [(env.ADDRESS_IP_TAG, .scalar ip)] →
      env.ADDRESS_IP_VERSION_TAG ≠ env.ADDRESS_IP_TAG →
      env.ADDRESS_DNS_TAG ≠ env.ADDRESS_IP_TAG →
      env.ADDRESS_PORT_TAG ≠ env.ADDRESS_IP_TAG →
      env.ADDRESS_TRANSPORT_TAG ≠ env.ADDRESS_IP_TAG →
      get_Address env yml
        = ⟨[], .ok (.of_ip ip env.default_port env.default_transport_protocol)⟩) := by
  refine ⟨?_, ?_, ?_⟩
  · intro a h
    cases hv : is_tag_present yml env.ADDRESS_IP_VERSION_TAG with
    | error e => simp [get_Address_error_of_not_map env yml e hv] at h
    | ok bv =>
      obtain ⟨bi, hi⟩ := is_tag_present_ok_of_ok yml _ env.ADDRESS_IP_TAG _ hv
      obtain ⟨bd, hd⟩ := is_tag_present_ok_of_ok yml _ env.ADDRESS_DNS_TAG _ hv
      obtain ⟨bp, hp⟩ := is_tag_present_ok_of_ok yml _ env.ADDRESS_PORT_TAG _ hv
      obtain ⟨bt, ht⟩ := is_tag_present_ok_of_ok yml _ env.ADDRESS_TRANSPORT_TAG _ hv
      simp only [get_Address, bind, Logged.bind, Logged.lift_result, Logged.lift_log, hv, hi,
        hd, hp, ht] at h
      rcases optional_read_cases bv
          (get_in_tag (get_IpVersion env) yml env.ADDRESS_IP_VERSION_TAG) IpVersion.IPv4
        with ⟨e, rv, -, -⟩ | ⟨vv, rv, -, -⟩
      · simp [rv] at h
      rcases optional_read_cases bi (get_in_tag get_IpType yml env.ADDRESS_IP_TAG) ""
        with ⟨e, ri, -, -⟩ | ⟨vi, ri, -, -⟩
      · simp [rv, ri] at h
      rcases optional_read_cases bd (get_in_tag get_scalar_string yml env.ADDRESS_DNS_TAG) ""
        with ⟨e, rd, -, -⟩ | ⟨vd, rd, -, -⟩
      · simp [rv, ri, rd] at h
      rcases optional_read_cases bp (get_in_tag (get_PortType env) yml env.ADDRESS_PORT_TAG)
          env.default_port
        with ⟨e, rp, -, -⟩ | ⟨vp, rp, hp0, hp1⟩
      · simp only [rv, ri, rd, rp] at h
        cases bi <;> cases bd <;>
          simp [pure, Logged.pure, Logged.throw, logWarning] at h
      rcases optional_read_cases bt
          (get_in_tag (get_TransportProtocol env) yml env.ADDRESS_TRANSPORT_TAG)
          env.default_transport_protocol
        with ⟨e, rt, -, -⟩ | ⟨vt, rt, ht0, ht1⟩
      · simp only [rv, ri, rd, rp, rt] at h
        cases bi <;> cases bd <;>
          simp [pure, Logged.pure, Logged.throw, logWarning] at h
      have hport : a.port = vp ∧ a.transport_protocol = vt := by
        simp only [rv, ri, rd, rp, rt] at h
        cases bi <;> cases bd <;> cases bv <;>
          simp [pure, Logged.pure, Logged.throw, logWarning] at h <;>
          subst h <;> exact ⟨rfl, rfl⟩
      obtain ⟨hap, hat⟩ := hport
      refine ⟨fun h0 => ?_, fun h1 => ?_, fun h0 => ?_, fun h1 => ?_⟩
      · rw [hp] at h0
        rw [hap]
        exact hp0 (by simpa using h0)
      · rw [hp] at h1
        rw [hap]
        exact hp1 (by simpa using h1)
      · rw [ht] at h0
        rw [hat]
        exact ht0 (by simpa using h0)
      · rw [ht] at h1
        rw [hat]
        exact ht1 (by simpa using h1)
  · intro hvi hvd hpres hvv hvp hvt
    rcases optional_valid_cases _ _ _ hvv with hv | ⟨hv, v, hvv⟩ <;>
    rcases optional_valid_cases _ _ _ hvp with hp | ⟨hp, p, hpv⟩ <;>
    rcases optional_valid_cases _ _ _ hvt with ht | ⟨ht, t, htv⟩ <;>
    rcases optional_valid_cases _ _ _ hvi with hi | ⟨hi, i, hiv⟩ <;>
    rcases optional_valid_cases _ _ _ hvd with hd | ⟨hd, d, hdv⟩ <;>
    simp [hi, hd] at hpres <;>
    simp [get_Address, hv, hp, ht, hi, hd, *, bind, Logged.bind, Logged.lift, pure,
      Logged.pure, Logged.throw, logWarning]
  · intro ip hyml d1 d2 d3 d4
    subst hyml
    have n1 : (env.ADDRESS_IP_VERSION_TAG == env.ADDRESS_IP_TAG) = false := by simpa using d1
    have n2 : (env.ADDRESS_DNS_TAG == env.ADDRESS_IP_TAG) = false := by simpa using d2
    have n3 : (env.ADDRESS_PORT_TAG == env.ADDRESS_IP_TAG) = false := by simpa using d3
    have n4 : (env.ADDRESS_TRANSPORT_TAG == env.ADDRESS_IP_TAG) = false := by simpa using d4
    simp [get_Address, is_tag_present, get_in_tag, get_value_in_tag, get_IpType,
      get_scalar_string, Yaml.index, Yaml.IsMap, Yaml.IsNull, List.lookup, n1, n2, n3, n4,
      bind, Logged.bind, Logged.lift, pure, Logged.pure, Logged.throw, logWarning]

/-- C6: whenever the Address builder returns an Address, its port is
`Address::default_port()` if the port tag is absent and the port read from the tag if it is
present: for a port node holding the text `s` it is the number that text converts to; its
transport is `Address::default_transport_protocol()` if the transport tag is absent and the
transport read from the tag if it is present: TCP for the text of the TCP tag, UDP for the
text of the UDP tag. The builder does return an Address whenever ip or domain-name is
present and every present field is valid; and a document holding only the ip tag yields the
Address of that ip with the default port and the default transport. -/
theorem get_Address_port_transport (env : Env) (yml : Yaml) :
    (∀ a : Address, (get_Address env yml).result = .ok a →
      (is_tag_present yml env.ADDRESS_PORT_TAG = .ok false → a.port = env.default_port) ∧
      (is_tag_present yml env.ADDRESS_PORT_TAG = .ok true →
        get_in_tag (get_PortType env) yml env.ADDRESS_PORT_TAG = .ok a.port) ∧
      (∀ (text : String) (port : PortType),
        yml.index env.ADDRESS_PORT_TAG = some (.scalar text) →
        env.as_PortType text = some port → a.port = port) ∧
      (is_tag_present yml env.ADDRESS_TRANSPORT_TAG = .ok false →
        a.transport_protocol = env.default_transport_protocol) ∧
      (is_tag_present yml env.ADDRESS_TRANSPORT_TAG = .ok true →
        get_in_tag (get_TransportProtocol env) yml env.ADDRESS_TRANSPORT_TAG
          = .ok a.transport_protocol) ∧
      (yml.index env.ADDRESS_TRANSPORT_TAG = some (.scalar env.ADDRESS_TRANSPORT_TCP_TAG) →
        a.transport_protocol = TransportProtocol.TCP) ∧
      (yml.index env.ADDRESS_TRANSPORT_TAG = some (.scalar env.ADDRESS_TRANSPORT_UDP_TAG) →
        env.ADDRESS_TRANSPORT_UDP_TAG ≠ env.ADDRESS_TRANSPORT_TCP_TAG →
        a.transport_protocol = TransportProtocol.UDP)) ∧
    (optional_valid get_IpType yml env.ADDRESS_IP_TAG = true →
      optional_valid get_scalar_string yml env.ADDRESS_DNS_TAG = true →
      (is_tag_present yml env.ADDRESS_IP_TAG = .ok true ∨
        is_tag_present yml env.ADDRESS_DNS_TAG = .ok true) →
      optional_valid (get_IpVersion env) yml env.ADDRESS_IP_VERSION_TAG = true →
      optional_valid (get_PortType env) yml env.ADDRESS_PORT_TAG = true →
      optional_valid (get_TransportProtocol env) yml env.ADDRESS_TRANSPORT_TAG = true →
      ∃ a : Address, (get_Address env yml).result = .ok a) ∧
    (∀ ip : String, yml = .map [(env.ADDRESS_IP_TAG, .scalar ip)] →
      env.ADDRESS_IP_VERSION_TAG ≠ env.ADDRESS_IP_TAG →
      env.ADDRESS_DNS_TAG ≠ env.ADDRESS_IP_TAG →
      env.ADDRESS_PORT_TAG ≠ env.ADDRESS_IP_TAG →
      env.ADDRESS_TRANSPORT_TAG ≠ env.ADDRESS_IP_TAG →
      get_Address env yml
        = ⟨[], .ok (.of_ip ip env.default_port env.default_transport_protocol)⟩) := by
  obtain ⟨hread, hexists, hip⟩ := address_port_transport_as_read env yml
  refine ⟨?_, hexists, hip⟩
  intro a ha
  obtain ⟨hp0, hp1, ht0, ht1⟩ := hread a ha
  refine ⟨hp0, hp1, ?_, ht0, ht1, ?_, ?_⟩
  · intro text port hnode hconv
    obtain ⟨hpres, hget⟩ := get_in_tag_of_index (get_PortType env) yml _ _ hnode
    have h := hp1 hpres
    rw [hget] at h
    simp only [get_PortType, hconv] at h
    exact (Except.ok.inj h).symm
  · intro hnode
    obtain ⟨hpres, hget⟩ := get_in_tag_of_index (get_TransportProtocol env) yml _ _ hnode
    have h := ht1 hpres
    rw [hget] at h
    simp [get_TransportProtocol, get_enumeration, get_scalar_string, List.lookup] at h
    exact h.symm
  · intro hnode hne
    obtain ⟨hpres, hget⟩ := get_in_tag_of_index (get_TransportProtocol env) yml _ _ hnode
    have h := ht1 hpres
    rw [hget] at h
    have hne1 : (env.ADDRESS_TRANSPORT_UDP_TAG == env.ADDRESS_TRANSPORT_TCP_TAG) = false := by
      simpa using hne
    simp [get_TransportProtocol, get_enumeration, get_scalar_string, List.lookup, hne1] at h
    exact h.symm

/-- Witness for C6: the document `{ip: 192.168.1.2}`, which gets the default port and the
default transport, and the document `{ip: 192.168.1.2, port: 11666, transport: tcp}`, which
gets port 11666 and TCP. -/
theorem get_Address_port_transport_witness :
    get_Address specEnv address_document_ip
      = ⟨[], .ok (.of_ip "192.168.1.2" specEnv.default_port
          specEnv.default_transport_protocol)⟩ ∧
    (Address.of_ip "192.168.1.2" 11600 TransportProtocol.UDP).port = specEnv.default_port ∧
    (Address.of_ip "192.168.1.2" 11600 TransportProtocol.UDP).transport_protocol
      = specEnv.default_transport_protocol ∧
    (∃ a : Address, (get_Address specEnv address_document_ip).result = .ok a) ∧
    (get_Address specEnv address_document_ip_port_tcp).result
      = .ok (.of_ip "192.168.1.2" 11666 TransportProtocol.TCP) ∧
    (Address.of_ip "192.168.1.2" 11666 TransportProtocol.TCP).port = 11666 ∧
    (Address.of_ip "192.168.1.2" 11666 TransportProtocol.TCP).transport_protocol
      = TransportProtocol.TCP :=
  ⟨(get_Address_port_transport specEnv address_document_ip).2.2 "192.168.1.2" rfl
      (by decide) (by decide) (by decide) (by decide),
   ((get_Address_port_transport specEnv address_document_ip).1 _ rfl).1 rfl,
   ((get_Address_port_transport specEnv address_document_ip).1 _ rfl).2.2.2.1 rfl,
   (get_Address_port_transport specEnv address_document_ip).2.1 rfl rfl (Or.inl rfl) rfl rfl
      rfl,
   rfl,
   ((get_Address_port_transport specEnv address_document_ip_port_tcp).1
      (.of_ip "192.168.1.2" 11666 TransportProtocol.TCP) rfl).2.2.1 "11666" 11666 rfl rfl,
   ((get_Address_port_transport specEnv address_document_ip_port_tcp).1
      (.of_ip "192.168.1.2" 11666 TransportProtocol.TCP) rfl).2.2.2.2.2.1 rfl⟩

/-! ## Generic accessors -/

theorem lookup_isSome_iff_key (entries : List (String × Yaml)) (tag : TagType) :
    (entries.lookup tag).isSome = decide (tag ∈ entries.map Prod.fst) := by
  induction entries with
  | nil => rfl
  | cons kv rest ih =>
    obtain ⟨k, v⟩ := kv
    by_cases hk : tag = k
    · subst hk
      simp [List.lookup_cons]
    · have hne : (tag == k) = false := by simpa using hk
      simp [List.lookup_cons, hne, ih, hk]

/-- C14: on a scalar or a sequence node, `is_tag_present` and `get_value_in_tag` fail with
the malformed-tree error, for every tag; on a null node `is_tag_present` returns false
without failing; on a mapping it returns true exactly when the tag is a key of the
mapping. -/
theorem is_tag_present_by_node (tag : TagType) :
    (∀ text : String,
      is_tag_present (.scalar text) tag = .error (.MalformedTree tag) ∧
      get_value_in_tag (.scalar text) tag = .error (.MalformedTree tag)) ∧
    (∀ items : List Yaml,
      is_tag_present (.sequence items) tag = .error (.MalformedTree tag) ∧
      get_value_in_tag (.sequence items) tag = .error (.MalformedTree tag)) ∧
    is_tag_present .null tag = .ok false ∧
    (∀ entries : List (String × Yaml),
      is_tag_present (.map entries) tag = .ok (decide (tag ∈ entries.map Prod.fst))) := by
  refine ⟨fun _ => ⟨rfl, rfl⟩, fun _ => ⟨rfl, rfl⟩, rfl, fun entries => ?_⟩
  have h := lookup_isSome_iff_key entries tag
  have hif : ∀ b : Bool, (if b = true then true else false) = b := by
    intro b
    cases b <;> rfl
  have hcond : (!true && !false) = false := rfl
  simp only [is_tag_present, Yaml.IsMap, Yaml.IsNull, Yaml.index, hif, h, hcond]
  rfl

/-- C15: on a mapping or null node, `get_value_in_tag` returns the subtree stored under the
tag when `is_tag_present` is true, and fails with the missing-required-tag error exactly
when the tag is absent. -/
theorem get_value_in_tag_on_map (yml : Yaml) (tag : TagType)
    (hnode : yml.IsMap = true ∨ yml.IsNull = true) :
    (is_tag_present yml tag = .ok true →
      ∃ subtree, yml.index tag = some subtree ∧ get_value_in_tag yml tag = .ok subtree) ∧
    (get_value_in_tag yml tag = .error (.MissingRequiredTag tag) ↔
      is_tag_present yml tag = .ok false) := by
  have hm : (!yml.IsMap && !yml.IsNull) = false := by
    rcases hnode with h | h <;> simp [h]
  cases hi : yml.index tag with
  | none =>
    simp [get_value_in_tag, is_tag_present, hm, hi]
  | some v =>
    simp [get_value_in_tag, is_tag_present, hm, hi]

/-- Witness for C15: the subtree under `name` of `{name: HelloWorld, type: Chat}`, and the
missing tag `keyed`. -/
theorem get_value_in_tag_on_map_witness :
    (∃ subtree, topic_document_name_type.index "name" = some subtree ∧
      get_value_in_tag topic_document_name_type "name" = .ok subtree) ∧
    get_value_in_tag topic_document_name_type "keyed" = .error (.MissingRequiredTag "keyed") :=
  ⟨(get_value_in_tag_on_map topic_document_name_type "name" (Or.inl rfl)).1 rfl,
   (get_value_in_tag_on_map topic_document_name_type "keyed" (Or.inl rfl)).2.2 rfl⟩

/-! ## Identity builder -/

/-- C11: when the literal guid tag is present with a string value, the identity builder
returns the GuidPrefix built from that string, whatever the id tag and the ROS-id flag
hold. -/
theorem get_GuidPrefix_literal (env : Env) (yml : Yaml) (guid : String)
    (h : get_in_tag get_scalar_string yml env.DISCOVERY_SERVER_GUID_TAG = .ok guid) :
    get_GuidPrefix env yml = .ok (.of_string guid) := by
  have h1 := is_tag_present_of_get_in_tag _ _ _ _ h
  simp [get_GuidPrefix, h, h1, bind, Except.bind, pure, Except.pure]

/-- Witness for C11: a literal guid next to a malformed id and a malformed ROS flag. -/
theorem get_GuidPrefix_literal_witness :
    get_GuidPrefix specEnv guid_document_literal
      = .ok (.of_string "01.0f.00.00.00.00.00.00.00.00.ca.fe") :=
  get_GuidPrefix_literal specEnv guid_document_literal "01.0f.00.00.00.00.00.00.00.00.ca.fe" rfl

/-- C12 (amended): when the literal guid tag is absent, the identity builder requires the
numeric id: it fails when the id tag is missing; when the id tag holds a number `id` it
returns `GuidPrefix(ros_id, id)` if the ROS-id flag tag is present and holds the boolean
`ros_id`, and `GuidPrefix(id)` if the ROS-id flag tag is absent; it fails when the id is
not read as a number, and with the error of the flag when the ROS-id flag tag is present
and is not read as a boolean. -/
theorem get_GuidPrefix_numeric (env : Env) (yml : Yaml)
    (hguid : is_tag_present yml env.DISCOVERY_SERVER_GUID_TAG = .ok false) :
    (is_tag_present yml env.DISCOVERY_SERVER_ID_TAG = .ok false →
      ∀ g : GuidPrefix, get_GuidPrefix env yml ≠ .ok g) ∧
    (∀ (id : Nat) (ros_id : Bool),
      get_in_tag (get_scalar env.as_uint32) yml env.DISCOVERY_SERVER_ID_TAG = .ok id →
      get_in_tag (get_scalar env.as_bool) yml env.DISCOVERY_SERVER_ID_ROS_TAG = .ok ros_id →
      get_GuidPrefix env yml = .ok (.of_ros_id ros_id id)) ∧
    (∀ id : Nat,
      get_in_tag (get_scalar env.as_uint32) yml env.DISCOVERY_SERVER_ID_TAG = .ok id →
      is_tag_present yml env.DISCOVERY_SERVER_ID_ROS_TAG = .ok false →
      get_GuidPrefix env yml = .ok (.of_id id)) ∧
    (∀ e : ConfigurationException,
      get_in_tag (get_scalar env.as_uint32) yml env.DISCOVERY_SERVER_ID_TAG = .error e →
      ∀ g : GuidPrefix, get_GuidPrefix env yml ≠ .ok g) ∧
    (∀ e : ConfigurationException,
      is_tag_present yml env.DISCOVERY_SERVER_ID_ROS_TAG = .ok true →
      get_in_tag (get_scalar env.as_bool) yml env.DISCOVERY_SERVER_ID_ROS_TAG = .error e →
      get_GuidPrefix env yml = .error e) := by
  have hfail : ∀ e : ConfigurationException,
      get_in_tag (get_scalar env.as_uint32) yml env.DISCOVERY_SERVER_ID_TAG = .error e →
      ∀ g : GuidPrefix, get_GuidPrefix env yml ≠ .ok g := by
    intro e hmiss g hres
    obtain ⟨b, hb⟩ := is_tag_present_ok_of_ok yml _ env.DISCOVERY_SERVER_ID_ROS_TAG _ hguid
    cases b with
    | false =>
      simp [get_GuidPrefix, hguid, hb, hmiss, bind, Except.bind, pure, Except.pure] at hres
    | true =>
      cases hr : get_in_tag (get_scalar env.as_bool) yml env.DISCOVERY_SERVER_ID_ROS_TAG <;>
        simp [get_GuidPrefix, hguid, hb, hr, hmiss, bind, Except.bind, pure, Except.pure]
          at hres
  refine ⟨?_, ?_, ?_, hfail, ?_⟩
  · intro hid
    exact hfail _ (get_in_tag_of_absent (get_scalar env.as_uint32) yml _ hid)
  · intro id ros_id hid hros
    have hros1 := is_tag_present_of_get_in_tag _ _ _ _ hros
    simp [get_GuidPrefix, hguid, hid, hros, hros1, bind, Except.bind, pure, Except.pure]
  · intro id hid hros
    simp [get_GuidPrefix, hguid, hid, hros, bind, Except.bind, pure, Except.pure]
  · intro e hros hre
    simp [get_GuidPrefix, hguid, hros, hre, bind, Except.bind, pure, Except.pure]

/-- Witness for C12: `{id: 7, ros-discovery-server: true}`, `{id: 7}`, and a document
without guid and id. -/
theorem get_GuidPrefix_numeric_witness :
    get_GuidPrefix specEnv guid_document_ros = .ok (.of_ros_id true 7) ∧
    get_GuidPrefix specEnv guid_document_id = .ok (.of_id 7) ∧
    (∀ g : GuidPrefix, get_GuidPrefix specEnv guid_document_ros_malformed ≠ .ok g) :=
  ⟨(get_GuidPrefix_numeric specEnv guid_document_ros rfl).2.1 7 true rfl rfl,
   (get_GuidPrefix_numeric specEnv guid_document_id rfl).2.2.1 7 rfl rfl,
   (get_GuidPrefix_numeric specEnv guid_document_ros_malformed rfl).1 rfl⟩

/-- C12 fails as stated: `guid_document_id_text` has no guid tag and has the id tag, but the
id is no number, and the identity builder throws instead of returning a GuidPrefix. -/
theorem get_GuidPrefix_id_not_a_number :
    is_tag_present guid_document_id_text specEnv.DISCOVERY_SERVER_GUID_TAG = .ok false ∧
    is_tag_present guid_document_id_text specEnv.DISCOVERY_SERVER_ID_TAG = .ok true ∧
    is_tag_present guid_document_id_text specEnv.DISCOVERY_SERVER_ID_ROS_TAG = .ok false ∧
    get_GuidPrefix specEnv guid_document_id_text = .error .TypeConversionError :=
  ⟨rfl, rfl, rfl, rfl⟩

/-! ## Topic builders -/

/-- C19 (amended): the RealTopic builder fails when the name tag or the type tag is missing;
when name and type hold strings and the keyed tag is absent or holds a boolean, it returns
the topic with exactly that name and type, built with the keyed flag read from the keyed
tag when that tag is present, and by the constructor that applies the default keyed value
when it is absent; it fails, with the error of the field, when the name or the type is not
read as a string or when the keyed tag is present and is not read as a boolean. -/
theorem get_RealTopic_fields (env : Env) (yml : Yaml) :
    ((is_tag_present yml env.TOPIC_NAME_TAG = .ok false ∨
        is_tag_present yml env.TOPIC_TYPE_NAME_TAG = .ok false) →
      ∀ topic : RealTopic, get_RealTopic env yml ≠ .ok topic) ∧
    (∀ name type : String,
      get_in_tag get_scalar_string yml env.TOPIC_NAME_TAG = .ok name →
      get_in_tag get_scalar_string yml env.TOPIC_TYPE_NAME_TAG = .ok type →
      (∀ keyed : Bool,
        get_in_tag (get_scalar env.as_bool) yml env.TOPIC_KIND_TAG = .ok keyed →
        get_RealTopic env yml = .ok (.of_name_type_keyed name type keyed)) ∧
      (is_tag_present yml env.TOPIC_KIND_TAG = .ok false →
        get_RealTopic env yml = .ok (.of_name_type name type))) ∧
    ((∀ e : ConfigurationException,
        get_in_tag get_scalar_string yml env.TOPIC_NAME_TAG = .error e →
        get_RealTopic env yml = .error e) ∧
      (∀ (name : String) (e : ConfigurationException),
        get_in_tag get_scalar_string yml env.TOPIC_NAME_TAG = .ok name →
        get_in_tag get_scalar_string yml env.TOPIC_TYPE_NAME_TAG = .error e →
        get_RealTopic env yml = .error e) ∧
      (∀ (name type : String) (e : ConfigurationException),
        get_in_tag get_scalar_string yml env.TOPIC_NAME_TAG = .ok name →
        get_in_tag get_scalar_string yml env.TOPIC_TYPE_NAME_TAG = .ok type →
        is_tag_present yml env.TOPIC_KIND_TAG = .ok true →
        get_in_tag (get_scalar env.as_bool) yml env.TOPIC_KIND_TAG = .error e →
        get_RealTopic env yml = .error e)) := by
  refine ⟨?_, ?_, ?_⟩
  · intro hmiss topic hres
    rcases hmiss with hn | ht
    · have h := get_in_tag_of_absent get_scalar_string yml _ hn
      simp [get_RealTopic, h, bind, Except.bind] at hres
    · have h := get_in_tag_of_absent get_scalar_string yml _ ht
      cases hname : get_in_tag get_scalar_string yml env.TOPIC_NAME_TAG <;>
        simp [get_RealTopic, h, hname, bind, Except.bind] at hres
  · intro name type hn ht
    refine ⟨?_, ?_⟩
    · intro keyed hk
      have hk1 := is_tag_present_of_get_in_tag _ _ _ _ hk
      simp [get_RealTopic, hn, ht, hk, hk1, bind, Except.bind, pure, Except.pure]
    · intro hk
      simp [get_RealTopic, hn, ht, hk, bind, Except.bind, pure, Except.pure]
  · refine ⟨?_, ?_, ?_⟩
    · intro e hn
      simp [get_RealTopic, hn, bind, Except.bind]
    · intro name e hn ht
      simp [get_RealTopic, hn, ht, bind, Except.bind]
    · intro name type e hn ht hk hke
      simp [get_RealTopic, hn, ht, hk, hke, bind, Except.bind]

/-- Witness for C19: a keyed topic, a topic without keyed tag, and a document without
name. -/
theorem get_RealTopic_fields_witness :
    get_RealTopic specEnv topic_document_keyed
      = .ok (.of_name_type_keyed "HelloWorld" "Chat" true) ∧
    get_RealTopic specEnv topic_document_name_type = .ok (.of_name_type "HelloWorld" "Chat") ∧
    (∀ topic : RealTopic, get_RealTopic specEnv topic_document_no_name ≠ .ok topic) :=
  ⟨((get_RealTopic_fields specEnv topic_document_keyed).2.1 "HelloWorld" "Chat" rfl rfl).1
      true rfl,
   ((get_RealTopic_fields specEnv topic_document_name_type).2.1 "HelloWorld" "Chat" rfl
      rfl).2 rfl,
   (get_RealTopic_fields specEnv topic_document_no_name).1 (Or.inl rfl)⟩

/-- C19 fails as stated: `topic_document_keyed_malformed` has the name tag and the type tag,
but its keyed flag is no boolean, and the RealTopic builder throws instead of returning the
topic. -/
theorem get_RealTopic_keyed_not_boolean :
    is_tag_present topic_document_keyed_malformed specEnv.TOPIC_NAME_TAG = .ok true ∧
    is_tag_present topic_document_keyed_malformed specEnv.TOPIC_TYPE_NAME_TAG = .ok true ∧
    get_RealTopic specEnv topic_document_keyed_malformed = .error .TypeConversionError :=
  ⟨rfl, rfl, rfl⟩

/-- C20 (amended): the WildcardTopic builder fails when the name tag is missing; when the
name holds a string, and the type tag and the keyed tag are each absent or hold a string
and a boolean, it succeeds for the four combinations of presence of the type and keyed
tags: the result carries the name, it carries the type pattern read exactly when the type
tag is present (otherwise it is built by the constructor without type, which applies the
match-any-type default), and it is marked as having an explicit keyed value, with the value
read, exactly when the keyed tag is present; it fails, with the error of the field, when
the name is not read as a string, when the type tag is present and is not read as a string,
or when the keyed tag is present and is not read as a boolean. -/
theorem get_WildcardTopic_fields (env : Env) (yml : Yaml) :
    (is_tag_present yml env.TOPIC_NAME_TAG = .ok false →
      ∀ topic : WildcardTopic, get_WildcardTopic env yml ≠ .ok topic) ∧
    (∀ name : String,
      get_in_tag get_scalar_string yml env.TOPIC_NAME_TAG = .ok name →
      (∀ (type : String) (keyed : Bool),
        get_in_tag get_scalar_string yml env.TOPIC_TYPE_NAME_TAG = .ok type →
        get_in_tag (get_scalar env.as_bool) yml env.TOPIC_KIND_TAG = .ok keyed →
        get_WildcardTopic env yml = .ok (.of_name_type name type true (some keyed))) ∧
      (∀ keyed : Bool,
        is_tag_present yml env.TOPIC_TYPE_NAME_TAG = .ok false →
        get_in_tag (get_scalar env.as_bool) yml env.TOPIC_KIND_TAG = .ok keyed →
        get_WildcardTopic env yml = .ok (.of_name name true (some keyed))) ∧
      (∀ type : String,
        get_in_tag get_scalar_string yml env.TOPIC_TYPE_NAME_TAG = .ok type →
        is_tag_present yml env.TOPIC_KIND_TAG = .ok false →
        get_WildcardTopic env yml = .ok (.of_name_type name type false none)) ∧
      (is_tag_present yml env.TOPIC_TYPE_NAME_TAG = .ok false →
        is_tag_present yml env.TOPIC_KIND_TAG = .ok false →
        get_WildcardTopic env yml = .ok (.of_name name false none))) ∧
    ((∀ e : ConfigurationException,
        get_in_tag get_scalar_string yml env.TOPIC_NAME_TAG = .error e →
        get_WildcardTopic env yml = .error e) ∧
      (∀ (name : String) (e : ConfigurationException),
        get_in_tag get_scalar_string yml env.TOPIC_NAME_TAG = .ok name →
        is_tag_present yml env.TOPIC_TYPE_NAME_TAG = .ok true →
        get_in_tag get_scalar_string yml env.TOPIC_TYPE_NAME_TAG = .error e →
        get_WildcardTopic env yml = .error e) ∧
      (∀ (name : String) (e : ConfigurationException),
        get_in_tag get_scalar_string yml env.TOPIC_NAME_TAG = .ok name →
        optional_valid get_scalar_string yml env.TOPIC_TYPE_NAME_TAG = true →
        is_tag_present yml env.TOPIC_KIND_TAG = .ok true →
        get_in_tag (get_scalar env.as_bool) yml env.TOPIC_KIND_TAG = .error e →
        get_WildcardTopic env yml = .error e)) := by
  refine ⟨?_, ?_, ?_⟩
  · intro hn topic hres
    have h := get_in_tag_of_absent get_scalar_string yml _ hn
    simp [get_WildcardTopic, h, bind, Except.bind] at hres
  · intro name hn
    refine ⟨?_, ?_, ?_, ?_⟩
    · intro type keyed ht hk
      have ht1 := is_tag_present_of_get_in_tag _ _ _ _ ht
      have hk1 := is_tag_present_of_get_in_tag _ _ _ _ hk
      simp [get_WildcardTopic, hn, ht, hk, ht1, hk1, bind, Except.bind, pure, Except.pure]
    · intro keyed ht hk
      have hk1 := is_tag_present_of_get_in_tag _ _ _ _ hk
      simp [get_WildcardTopic, hn, ht, hk, hk1, bind, Except.bind, pure, Except.pure]
    · intro type ht hk
      have ht1 := is_tag_present_of_get_in_tag _ _ _ _ ht
      simp [get_WildcardTopic, hn, ht, hk, ht1, bind, Except.bind, pure, Except.pure]
    · intro ht hk
      simp [get_WildcardTopic, hn, ht, hk, bind, Except.bind, pure, Except.pure]
  · refine ⟨?_, ?_, ?_⟩
    · intro e hn
      simp [get_WildcardTopic, hn, bind, Except.bind]
    · intro name e hn ht hte
      simp [get_WildcardTopic, hn, ht, hte, bind, Except.bind]
    · intro name e hn hval hk hke
      rcases optional_valid_cases _ _ _ hval with ht | ⟨ht, v, htv⟩
      · simp [get_WildcardTopic, hn, ht, hk, hke, bind, Except.bind, pure, Except.pure]
      · simp [get_WildcardTopic, hn, ht, htv, hk, hke, bind, Except.bind, pure, Except.pure]

/-- Witness for C20: the four combinations of presence of type and keyed, and a document
without name. -/
theorem get_WildcardTopic_fields_witness :
    get_WildcardTopic specEnv topic_document_keyed
      = .ok (.of_name_type "HelloWorld" "Chat" true (some true)) ∧
    get_WildcardTopic specEnv topic_document_name_keyed
      = .ok (.of_name "Hello*" true (some false)) ∧
    get_WildcardTopic specEnv topic_document_name_type
      = .ok (.of_name_type "HelloWorld" "Chat" false none) ∧
    get_WildcardTopic specEnv topic_document_name = .ok (.of_name "Hello*" false none) ∧
    (∀ topic : WildcardTopic, get_WildcardTopic specEnv topic_document_no_name ≠ .ok topic) :=
  ⟨((get_WildcardTopic_fields specEnv topic_document_keyed).2.1 "HelloWorld" rfl).1 "Chat"
      true rfl rfl,
   ((get_WildcardTopic_fields specEnv topic_document_name_keyed).2.1 "Hello*" rfl).2.1 false
      rfl rfl,
   ((get_WildcardTopic_fields specEnv topic_document_name_type).2.1 "HelloWorld" rfl).2.2.1
      "Chat" rfl rfl,
   ((get_WildcardTopic_fields specEnv topic_document_name).2.1 "Hello*" rfl).2.2.2 rfl rfl,
   (get_WildcardTopic_fields specEnv topic_document_no_name).1 rfl⟩

/-- C20 fails as stated: `topic_document_name_keyed_malformed` has the name tag, but its
keyed flag is no boolean, and the WildcardTopic builder throws instead of returning the
topic. -/
theorem get_WildcardTopic_keyed_not_boolean :
    is_tag_present topic_document_name_keyed_malformed specEnv.TOPIC_NAME_TAG = .ok true ∧
    get_in_tag get_scalar_string topic_document_name_keyed_malformed specEnv.TOPIC_NAME_TAG
      = .ok "Hello*" ∧
    get_WildcardTopic specEnv topic_document_name_keyed_malformed
      = .error .TypeConversionError :=
  ⟨rfl, rfl, rfl⟩

/-! ## Participant builders -/

theorem get_in_tag_error_of_not_present {α : Type} (reader : Yaml → Result α) (yml : Yaml)
    (tag : TagType) (h : is_tag_present yml tag ≠ .ok true) :
    ∃ e, get_in_tag reader yml tag = .error e := by
  unfold get_in_tag get_value_in_tag
  cases hp : is_tag_present yml tag with
  | error e => exact ⟨e, rfl⟩
  | ok b =>
    cases b with
    | false => exact ⟨_, rfl⟩
    | true => exact absurd hp h

/-- C18: the Discovery-Server participant builder returns no configuration when the name
tag, the kind tag or the discovery-server guid tag is missing, whatever the rest of the
document holds. -/
theorem get_DiscoveryServerParticipantConfiguration_mandatory (env : Env) (yml : Yaml)
    (hmiss : is_tag_present yml env.PARTICIPANT_NAME_TAG ≠ .ok true ∨
      is_tag_present yml env.PARTICIPANT_KIND_TAG ≠ .ok true ∨
      is_tag_present yml env.DISCOVERY_SERVER_GUID_PREFIX_TAG ≠ .ok true) :
    ∀ cfg : DiscoveryServerParticipantConfiguration,
      (get_DiscoveryServerParticipantConfiguration env yml).result ≠ .ok cfg := by
  intro cfg hres
  rcases hmiss with hn | hk | hg
  · obtain ⟨e, he⟩ := get_in_tag_error_of_not_present get_ParticipantId yml _ hn
    simp [get_DiscoveryServerParticipantConfiguration, he, bind, Logged.bind, Logged.lift]
      at hres
  · obtain ⟨e, he⟩ := get_in_tag_error_of_not_present (get_ParticipantKind env) yml _ hk
    cases hid : get_in_tag get_ParticipantId yml env.PARTICIPANT_NAME_TAG <;>
      simp [get_DiscoveryServerParticipantConfiguration, he, hid, bind, Logged.bind,
        Logged.lift] at hres
  · obtain ⟨e, he⟩ := get_in_tag_error_of_not_present (get_GuidPrefix env) yml _ hg
    cases hid : get_in_tag get_ParticipantId yml env.PARTICIPANT_NAME_TAG <;>
    cases hkind : get_in_tag (get_ParticipantKind env) yml env.PARTICIPANT_KIND_TAG <;>
      simp [get_DiscoveryServerParticipantConfiguration, he, hid, hkind, bind, Logged.bind,
        Logged.lift] at hres

/-- Witness for C18: a document without name whose tls block and listening address are
invalid. -/
theorem get_DiscoveryServerParticipantConfiguration_mandatory_witness :
    is_tag_present participant_document_ds_no_name specEnv.PARTICIPANT_NAME_TAG = .ok false ∧
    ∀ cfg : DiscoveryServerParticipantConfiguration,
      (get_DiscoveryServerParticipantConfiguration specEnv
        participant_document_ds_no_name).result ≠ .ok cfg :=
  ⟨rfl,
   get_DiscoveryServerParticipantConfiguration_mandatory specEnv
    participant_document_ds_no_name
    (Or.inl (by
      intro h
      rw [show is_tag_present participant_document_ds_no_name specEnv.PARTICIPANT_NAME_TAG
        = .ok false from rfl] at h
      cases h))⟩

theorem supplied_cases {α : Type} (yml : Yaml) (tag : TagType) (read : Result α)
    (x : Option α) (h : supplied yml tag read = .ok x) :
    (is_tag_present yml tag = .ok false ∧ x = none) ∨
      (is_tag_present yml tag = .ok true ∧ ∃ v, read = .ok v ∧ x = some v) := by
  unfold supplied at h
  cases hp : is_tag_present yml tag with
  | error e => simp [hp] at h
  | ok b =>
    cases b with
    | false =>
      simp [hp] at h
      exact Or.inl ⟨rfl, h.symm⟩
    | true =>
      cases hr : read with
      | error e => simp [hp, hr] at h
      | ok v =>
        simp [hp, hr] at h
        exact Or.inr ⟨rfl, v, rfl, h.symm⟩

/-- C17 (amended): for a document whose name, kind and discovery-server guid are read, and
whose optional fields domain, listening addresses, connection addresses and tls are each
absent or read successfully (16 combinations of presence), the Discovery-Server participant
builder succeeds; every supplied optional field is passed unchanged to the configuration, an omitted
listening or connection address field yields the empty set, and an omitted domain or tls is
not passed to the constructor, which then applies its default. -/
theorem get_DiscoveryServerParticipantConfiguration_round_trip (env : Env) (yml : Yaml)
    (id : ParticipantId) (kind : ParticipantKind) (guid : GuidPrefix)
    (domain : Option DomainId) (listening : Option (Finset Address))
    (connection : Option (Finset DiscoveryServerConnectionAddress))
    (tls : Option TlsConfiguration)
    (hid : get_in_tag get_ParticipantId yml env.PARTICIPANT_NAME_TAG = .ok id)
    (hkind : get_in_tag (get_ParticipantKind env) yml env.PARTICIPANT_KIND_TAG = .ok kind)
    (hguid : get_in_tag (get_GuidPrefix env) yml env.DISCOVERY_SERVER_GUID_PREFIX_TAG
      = .ok guid)
    (hdomain : supplied yml env.DOMAIN_ID_TAG
      (get_in_tag (get_DomainId env) yml env.DOMAIN_ID_TAG) = .ok domain)
    (hlistening : supplied yml env.LISTENING_ADDRESSES_TAG
      (get_set (get_Address env) yml env.LISTENING_ADDRESSES_TAG).result = .ok listening)
    (hconnection : supplied yml env.CONNECTION_ADDRESSES_TAG
      (get_set (get_DiscoveryServerConnectionAddress env) yml
        env.CONNECTION_ADDRESSES_TAG).result = .ok connection)
    (htls : supplied yml env.TLS_TAG
      (get_in_tag (get_TlsConfiguration env) yml env.TLS_TAG) = .ok tls) :
    (get_DiscoveryServerParticipantConfiguration env yml).result
      = .ok { id := id, discovery_server_guid := guid,
              listening_addresses := listening.getD ∅,
              connection_addresses := connection.getD ∅,
              kind := kind, tls := tls, domain := domain } := by
  rcases supplied_cases _ _ _ _ hdomain with ⟨hd, rfl⟩ | ⟨hd, d, hdv, rfl⟩ <;>
  rcases supplied_cases _ _ _ _ hlistening with ⟨hl, rfl⟩ | ⟨hl, l, hlv, rfl⟩ <;>
  rcases supplied_cases _ _ _ _ hconnection with ⟨hc, rfl⟩ | ⟨hc, c, hcv, rfl⟩ <;>
  rcases supplied_cases _ _ _ _ htls with ⟨ht, rfl⟩ | ⟨ht, t, htv, rfl⟩ <;>
  simp [get_DiscoveryServerParticipantConfiguration, hid, hkind, hguid, hd, hl, hc, ht, *,
    bind, Logged.bind, Logged.lift, pure, Logged.pure, Except.map]

/-- Witness for C17: a document with every optional field, and one with none. -/
theorem get_DiscoveryServerParticipantConfiguration_round_trip_witness :
    (get_DiscoveryServerParticipantConfiguration specEnv participant_document_ds_full).result
      = .ok { id := ⟨"DS"⟩, discovery_server_guid := .of_id 1,
              listening_addresses := {Address.of_ip "127.0.0.1" 11600 .UDP},
              connection_addresses :=
                {DiscoveryServerConnectionAddress.mk (.of_id 2)
                  {Address.of_ip "192.168.1.2" 11600 .UDP}},
              kind := ⟨2⟩, tls := some (.Client "ca.pem"), domain := some ⟨3⟩ } ∧
    (get_DiscoveryServerParticipantConfiguration specEnv participant_document_ds_bare).result
      = .ok { id := ⟨"DS"⟩, discovery_server_guid := .of_id 1, listening_addresses := ∅,
              connection_addresses := ∅, kind := ⟨2⟩, tls := none, domain := none } :=
  ⟨get_DiscoveryServerParticipantConfiguration_round_trip specEnv participant_document_ds_full
      ⟨"DS"⟩ ⟨2⟩ (.of_id 1) (some ⟨3⟩) (some {Address.of_ip "127.0.0.1" 11600 .UDP})
      (some {DiscoveryServerConnectionAddress.mk (.of_id 2)
        {Address.of_ip "192.168.1.2" 11600 .UDP}})
      (some (.Client "ca.pem")) rfl rfl rfl rfl rfl rfl rfl,
   get_DiscoveryServerParticipantConfiguration_round_trip specEnv participant_document_ds_bare
      ⟨"DS"⟩ ⟨2⟩ (.of_id 1) none none none none rfl rfl rfl rfl rfl rfl rfl⟩

/-- C17 fails as stated: `participant_document_ds_domain_text` has a valid name, kind and
guid, but its domain is no number, and the Discovery-Server participant builder throws
instead of returning a configuration. -/
theorem get_DiscoveryServerParticipantConfiguration_domain_not_a_number :
    get_in_tag get_ParticipantId participant_document_ds_domain_text
      specEnv.PARTICIPANT_NAME_TAG = .ok ⟨"DS"⟩ ∧
    get_in_tag (get_ParticipantKind specEnv) participant_document_ds_domain_text
      specEnv.PARTICIPANT_KIND_TAG = .ok ⟨2⟩ ∧
    get_in_tag (get_GuidPrefix specEnv) participant_document_ds_domain_text
      specEnv.DISCOVERY_SERVER_GUID_PREFIX_TAG = .ok (.of_id 1) ∧
    is_tag_present participant_document_ds_domain_text specEnv.DOMAIN_ID_TAG = .ok true ∧
    (get_DiscoveryServerParticipantConfiguration specEnv
      participant_document_ds_domain_text).result = .error .TypeConversionError :=
  ⟨rfl, rfl, rfl, rfl, rfl⟩

/-! ## Order of evaluation of mandatory and optional fields -/

/-- C13 (amended): every entity builder fails when a mandatory field is missing. The topic
builders, the three participant builders and the connection-address builder read their
mandatory fields first: a missing first mandatory field (the name, or the discovery-server
guid of a connection address) is reported as the missing-required-tag error of that field
whatever the other fields contain, and a missing later mandatory field is reported as such
once the mandatory fields before it are read. The
identity builder and the Address builder read an optional field first: an identity document
without guid and id fails on the missing id when the ROS-id flag is absent or valid, and an
Address document with neither ip nor domain name fails as underspecified when its ip-version
is absent or valid; when that optional field is present and malformed, its own error is the
one reported. -/
theorem mandatory_field_missing (env : Env) (yml : Yaml) :
    (is_tag_present yml env.DISCOVERY_SERVER_GUID_TAG = .ok false →
      is_tag_present yml env.DISCOVERY_SERVER_ID_TAG = .ok false →
      (∀ g : GuidPrefix, get_GuidPrefix env yml ≠ .ok g) ∧
      (optional_valid (get_scalar env.as_bool) yml env.DISCOVERY_SERVER_ID_ROS_TAG = true →
        get_GuidPrefix env yml = .error (.MissingRequiredTag env.DISCOVERY_SERVER_ID_TAG)) ∧
      (∀ e : ConfigurationException,
        is_tag_present yml env.DISCOVERY_SERVER_ID_ROS_TAG = .ok true →
        get_in_tag (get_scalar env.as_bool) yml env.DISCOVERY_SERVER_ID_ROS_TAG = .error e →
        get_GuidPrefix env yml = .error e)) ∧
    (is_tag_present yml env.ADDRESS_IP_TAG = .ok false →
      is_tag_present yml env.ADDRESS_DNS_TAG = .ok false →
      (optional_valid (get_IpVersion env) yml env.ADDRESS_IP_VERSION_TAG = true →
        get_Address env yml = ⟨[], .error .AddressUnderspecified⟩) ∧
      (∀ e : ConfigurationException,
        is_tag_present yml env.ADDRESS_IP_VERSION_TAG = .ok true →
        get_in_tag (get_IpVersion env) yml env.ADDRESS_IP_VERSION_TAG = .error e →
        get_Address env yml = ⟨[], .error e⟩)) ∧
    (is_tag_present yml env.TOPIC_NAME_TAG = .ok false →
      get_RealTopic env yml = .error (.MissingRequiredTag env.TOPIC_NAME_TAG) ∧
      get_WildcardTopic env yml = .error (.MissingRequiredTag env.TOPIC_NAME_TAG)) ∧
    (∀ name : String,
      get_in_tag get_scalar_string yml env.TOPIC_NAME_TAG = .ok name →
      is_tag_present yml env.TOPIC_TYPE_NAME_TAG = .ok false →
      get_RealTopic env yml = .error (.MissingRequiredTag env.TOPIC_TYPE_NAME_TAG)) ∧
    (is_tag_present yml env.PARTICIPANT_NAME_TAG = .ok false →
      get_SimpleParticipantConfiguration env yml
        = .error (.MissingRequiredTag env.PARTICIPANT_NAME_TAG) ∧
      get_DiscoveryServerParticipantConfiguration env yml
        = ⟨[], .error (.MissingRequiredTag env.PARTICIPANT_NAME_TAG)⟩) ∧
    (∀ id : ParticipantId,
      get_in_tag get_ParticipantId yml env.PARTICIPANT_NAME_TAG = .ok id →
      is_tag_present yml env.PARTICIPANT_KIND_TAG = .ok false →
      get_SimpleParticipantConfiguration env yml
        = .error (.MissingRequiredTag env.PARTICIPANT_KIND_TAG) ∧
      get_DiscoveryServerParticipantConfiguration env yml
        = ⟨[], .error (.MissingRequiredTag env.PARTICIPANT_KIND_TAG)⟩) ∧
    (∀ (id : ParticipantId) (kind : ParticipantKind),
      get_in_tag get_ParticipantId yml env.PARTICIPANT_NAME_TAG = .ok id →
      get_in_tag (get_ParticipantKind env) yml env.PARTICIPANT_KIND_TAG = .ok kind →
      (is_tag_present yml env.DOMAIN_ID_TAG = .ok false →
        get_SimpleParticipantConfiguration env yml
          = .error (.MissingRequiredTag env.DOMAIN_ID_TAG)) ∧
      (is_tag_present yml env.DISCOVERY_SERVER_GUID_PREFIX_TAG = .ok false →
        get_DiscoveryServerParticipantConfiguration env yml
          = ⟨[], .error (.MissingRequiredTag env.DISCOVERY_SERVER_GUID_PREFIX_TAG)⟩)) ∧
    ((is_tag_present yml env.PARTICIPANT_NAME_TAG = .ok false →
        get_ParticipantConfiguration env yml
          = .error (.MissingRequiredTag env.PARTICIPANT_NAME_TAG)) ∧
      (∀ id : ParticipantId,
        get_in_tag get_ParticipantId yml env.PARTICIPANT_NAME_TAG = .ok id →
        is_tag_present yml env.PARTICIPANT_KIND_TAG = .ok false →
        get_ParticipantConfiguration env yml
          = .error (.MissingRequiredTag env.PARTICIPANT_KIND_TAG))) ∧
    ((is_tag_present yml env.DISCOVERY_SERVER_GUID_PREFIX_TAG = .ok false →
        get_DiscoveryServerConnectionAddress env yml
          = ⟨[], .error (.MissingRequiredTag env.DISCOVERY_SERVER_GUID_PREFIX_TAG)⟩) ∧
      (∀ guid : GuidPrefix,
        get_in_tag (get_GuidPrefix env) yml env.DISCOVERY_SERVER_GUID_PREFIX_TAG = .ok guid →
        is_tag_present yml env.COLLECTION_ADDRESSES_TAG = .ok false →
        get_DiscoveryServerConnectionAddress env yml
          = ⟨[], .error (.MissingRequiredTag env.COLLECTION_ADDRESSES_TAG)⟩)) ∧
    ((is_tag_present yml env.ADDRESS_IP_TAG = .ok false →
        is_tag_present yml env.ADDRESS_DNS_TAG = .ok false →
        ∀ a : Address, (get_Address env yml).result ≠ .ok a) ∧
      ((is_tag_present yml env.TOPIC_NAME_TAG = .ok false ∨
          is_tag_present yml env.TOPIC_TYPE_NAME_TAG = .ok false) →
        ∀ topic : RealTopic, get_RealTopic env yml ≠ .ok topic) ∧
      ((is_tag_present yml env.PARTICIPANT_NAME_TAG = .ok false ∨
          is_tag_present yml env.PARTICIPANT_KIND_TAG = .ok false) →
        ∀ c : ParticipantConfiguration, get_ParticipantConfiguration env yml ≠ .ok c) ∧
      ((is_tag_present yml env.PARTICIPANT_NAME_TAG = .ok false ∨
          is_tag_present yml env.PARTICIPANT_KIND_TAG = .ok false ∨
          is_tag_present yml env.DOMAIN_ID_TAG = .ok false) →
        ∀ c : SimpleParticipantConfiguration,
          get_SimpleParticipantConfiguration env yml ≠ .ok c) ∧
      ((is_tag_present yml env.PARTICIPANT_NAME_TAG = .ok false ∨
          is_tag_present yml env.PARTICIPANT_KIND_TAG = .ok false ∨
          is_tag_present yml env.DISCOVERY_SERVER_GUID_PREFIX_TAG = .ok false) →
        ∀ c : DiscoveryServerParticipantConfiguration,
          (get_DiscoveryServerParticipantConfiguration env yml).result ≠ .ok c) ∧
      ((is_tag_present yml env.DISCOVERY_SERVER_GUID_PREFIX_TAG = .ok false ∨
          is_tag_present yml env.COLLECTION_ADDRESSES_TAG = .ok false) →
        ∀ c : DiscoveryServerConnectionAddress,
          (get_DiscoveryServerConnectionAddress env yml).result ≠ .ok c)) := by
  refine ⟨?_, ?_, ?_, ?_, ?_, ?_, ?_, ?_, ?_, ?_⟩
  · intro hguid hid
    have hmiss := get_in_tag_of_absent (get_scalar env.as_uint32) yml _ hid
    refine ⟨?_, ?_, ?_⟩
    · intro g hres
      obtain ⟨b, hb⟩ := is_tag_present_ok_of_ok yml _ env.DISCOVERY_SERVER_ID_ROS_TAG _ hguid
      cases b with
      | false =>
        simp [get_GuidPrefix, hguid, hb, hmiss, bind, Except.bind, pure, Except.pure] at hres
      | true =>
        cases hr : get_in_tag (get_scalar env.as_bool) yml env.DISCOVERY_SERVER_ID_ROS_TAG <;>
          simp [get_GuidPrefix, hguid, hb, hr, hmiss, bind, Except.bind, pure, Except.pure]
            at hres
    · intro hval
      rcases optional_valid_cases _ _ _ hval with hr | ⟨hr, v, hrv⟩
      · simp [get_GuidPrefix, hguid, hr, hmiss, bind, Except.bind, pure, Except.pure]
      · simp [get_GuidPrefix, hguid, hr, hrv, hmiss, bind, Except.bind, pure, Except.pure]
    · intro e hr hre
      simp [get_GuidPrefix, hguid, hr, hre, bind, Except.bind, pure, Except.pure]
  · intro hip hdn
    refine ⟨?_, ?_⟩
    · intro hval
      rcases optional_valid_cases _ _ _ hval with hv | ⟨hv, v, hvv⟩
      · simp [get_Address, hv, hip, hdn, bind, Logged.bind, Logged.lift, pure, Logged.pure,
          Logged.throw]
      · simp [get_Address, hv, hvv, hip, hdn, bind, Logged.bind, Logged.lift, pure,
          Logged.pure, Logged.throw]
    · intro e hv hve
      simp [get_Address, hv, hve, bind, Logged.bind, Logged.lift]
  · intro hn
    have h := get_in_tag_of_absent get_scalar_string yml _ hn
    exact ⟨by simp [get_RealTopic, h, bind, Except.bind],
      by simp [get_WildcardTopic, h, bind, Except.bind]⟩
  · intro name hn ht
    have h := get_in_tag_of_absent get_scalar_string yml _ ht
    simp [get_RealTopic, hn, h, bind, Except.bind]
  · intro hn
    have h := get_in_tag_of_absent get_ParticipantId yml _ hn
    exact ⟨by simp [get_SimpleParticipantConfiguration, h, bind, Except.bind],
      by simp [get_DiscoveryServerParticipantConfiguration, h, bind, Logged.bind, Logged.lift]⟩
  · intro id hid hk
    have h := get_in_tag_of_absent (get_ParticipantKind env) yml _ hk
    exact ⟨by simp [get_SimpleParticipantConfiguration, hid, h, bind, Except.bind],
      by simp [get_DiscoveryServerParticipantConfiguration, hid, h, bind, Logged.bind,
        Logged.lift]⟩
  · intro id kind hid hkind
    refine ⟨?_, ?_⟩
    · intro hd
      have h := get_in_tag_of_absent (get_DomainId env) yml _ hd
      simp [get_SimpleParticipantConfiguration, hid, hkind, h, bind, Except.bind]
    · intro hg
      have h := get_in_tag_of_absent (get_GuidPrefix env) yml _ hg
      simp [get_DiscoveryServerParticipantConfiguration, hid, hkind, h, bind, Logged.bind,
        Logged.lift]
  · refine ⟨?_, ?_⟩
    · intro hn
      have h := get_in_tag_of_absent get_ParticipantId yml _ hn
      simp [get_ParticipantConfiguration, h, bind, Except.bind]
    · intro id hid hk
      have h := get_in_tag_of_absent (get_ParticipantKind env) yml _ hk
      simp [get_ParticipantConfiguration, hid, h, bind, Except.bind]
  · refine ⟨?_, ?_⟩
    · intro hg
      have h := get_in_tag_of_absent (get_GuidPrefix env) yml _ hg
      simp [get_DiscoveryServerConnectionAddress, h, bind, Logged.bind, Logged.lift]
    · intro guid hg ha
      have hv : get_value_in_tag yml env.COLLECTION_ADDRESSES_TAG
          = .error (.MissingRequiredTag env.COLLECTION_ADDRESSES_TAG) := by
        simp [get_value_in_tag, ha]
      simp [get_DiscoveryServerConnectionAddress, get_set, get_in_tag_logged, hg, hv, bind,
        Logged.bind, Logged.lift, Logged.throw]
  · refine ⟨?_, ?_, ?_, ?_, ?_, ?_⟩
    · intro hip hdn a hres
      obtain ⟨bv, hv⟩ := is_tag_present_ok_of_ok yml _ env.ADDRESS_IP_VERSION_TAG _ hip
      cases bv with
      | false =>
        simp [get_Address, hv, hip, hdn, bind, Logged.bind, Logged.lift, pure, Logged.pure,
          Logged.throw] at hres
      | true =>
        cases hr : get_in_tag (get_IpVersion env) yml env.ADDRESS_IP_VERSION_TAG <;>
          simp [get_Address, hv, hr, hip, hdn, bind, Logged.bind, Logged.lift, pure,
            Logged.pure, Logged.throw] at hres
    · intro hmiss topic hres
      rcases hmiss with hn | ht
      · have h := get_in_tag_of_absent get_scalar_string yml _ hn
        simp [get_RealTopic, h, bind, Except.bind] at hres
      · have h := get_in_tag_of_absent get_scalar_string yml _ ht
        cases hname : get_in_tag get_scalar_string yml env.TOPIC_NAME_TAG <;>
          simp [get_RealTopic, h, hname, bind, Except.bind] at hres
    · intro hmiss c hres
      rcases hmiss with hn | hk
      · have h := get_in_tag_of_absent get_ParticipantId yml _ hn
        simp [get_ParticipantConfiguration, h, bind, Except.bind] at hres
      · have h := get_in_tag_of_absent (get_ParticipantKind env) yml _ hk
        cases hid : get_in_tag get_ParticipantId yml env.PARTICIPANT_NAME_TAG <;>
          simp [get_ParticipantConfiguration, h, hid, bind, Except.bind] at hres
    · intro hmiss c hres
      rcases hmiss with hn | hk | hd
      · have h := get_in_tag_of_absent get_ParticipantId yml _ hn
        simp [get_SimpleParticipantConfiguration, h, bind, Except.bind] at hres
      · have h := get_in_tag_of_absent (get_ParticipantKind env) yml _ hk
        cases hid : get_in_tag get_ParticipantId yml env.PARTICIPANT_NAME_TAG <;>
          simp [get_SimpleParticipantConfiguration, h, hid, bind, Except.bind] at hres
      · have h := get_in_tag_of_absent (get_DomainId env) yml _ hd
        cases hid : get_in_tag get_ParticipantId yml env.PARTICIPANT_NAME_TAG <;>
        cases hkind : get_in_tag (get_ParticipantKind env) yml env.PARTICIPANT_KIND_TAG <;>
          simp [get_SimpleParticipantConfiguration, h, hid, hkind, bind, Except.bind] at hres
    · intro hmiss c hres
      rcases hmiss with hn | hk | hg
      · have h := get_in_tag_of_absent get_ParticipantId yml _ hn
        simp [get_DiscoveryServerParticipantConfiguration, h, bind, Logged.bind, Logged.lift]
          at hres
      · have h := get_in_tag_of_absent (get_ParticipantKind env) yml _ hk
        cases hid : get_in_tag get_ParticipantId yml env.PARTICIPANT_NAME_TAG <;>
          simp [get_DiscoveryServerParticipantConfiguration, h, hid, bind, Logged.bind,
            Logged.lift] at hres
      · have h := get_in_tag_of_absent (get_GuidPrefix env) yml _ hg
        cases hid : get_in_tag get_ParticipantId yml env.PARTICIPANT_NAME_TAG <;>
        cases hkind : get_in_tag (get_ParticipantKind env) yml env.PARTICIPANT_KIND_TAG <;>
          simp [get_DiscoveryServerParticipantConfiguration, h, hid, hkind, bind, Logged.bind,
            Logged.lift] at hres
    · intro hmiss c hres
      rcases hmiss with hg | ha
      · have h := get_in_tag_of_absent (get_GuidPrefix env) yml _ hg
        simp [get_DiscoveryServerConnectionAddress, h, bind, Logged.bind, Logged.lift] at hres
      · have hv : get_value_in_tag yml env.COLLECTION_ADDRESSES_TAG
            = .error (.MissingRequiredTag env.COLLECTION_ADDRESSES_TAG) := by
          simp [get_value_in_tag, ha]
        cases hg : get_in_tag (get_GuidPrefix env) yml env.DISCOVERY_SERVER_GUID_PREFIX_TAG <;>
          simp [get_DiscoveryServerConnectionAddress, get_set, get_in_tag_logged, hg, hv, bind,
            Logged.bind, Logged.lift, Logged.throw] at hres

/-- Witness for C13: a topic document without name and with a malformed keyed flag fails on
the missing name; an identity document without guid and id and with a valid ROS flag fails
on the missing id; a participant document without name fails on the missing name; a
connection-address document without addresses fails on the missing addresses. -/
theorem mandatory_field_missing_witness :
    get_RealTopic specEnv topic_document_no_name = .error (.MissingRequiredTag "name") ∧
    get_WildcardTopic specEnv topic_document_no_name = .error (.MissingRequiredTag "name") ∧
    get_GuidPrefix specEnv guid_document_ros_only = .error (.MissingRequiredTag "id") ∧
    get_ParticipantConfiguration specEnv participant_document_ds_no_name
      = .error (.MissingRequiredTag "name") ∧
    get_DiscoveryServerConnectionAddress specEnv connection_document_no_addresses
      = ⟨[], .error (.MissingRequiredTag "addresses")⟩ :=
  ⟨((mandatory_field_missing specEnv topic_document_no_name).2.2.1 rfl).1,
   ((mandatory_field_missing specEnv topic_document_no_name).2.2.1 rfl).2,
   ((mandatory_field_missing specEnv guid_document_ros_only).1 rfl rfl).2.1 rfl,
   ((mandatory_field_missing specEnv participant_document_ds_no_name).2.2.2.2.2.2.2.1).1 rfl,
   ((mandatory_field_missing specEnv connection_document_no_addresses).2.2.2.2.2.2.2.2.1).2
      (.of_id 2) rfl rfl⟩

/-- C13 fails as stated: `guid_document_ros_malformed` has neither guid nor id, and the
identity builder fails on the malformed ROS-id flag, which it reads before the id, not on
the missing id; likewise the Address builder fails on the ip-version of
`address_document_version_v5`, which has neither ip nor domain name, not as
underspecified. -/
theorem optional_field_read_before_mandatory :
    is_tag_present guid_document_ros_malformed specEnv.DISCOVERY_SERVER_GUID_TAG = .ok false ∧
    is_tag_present guid_document_ros_malformed specEnv.DISCOVERY_SERVER_ID_TAG = .ok false ∧
    get_GuidPrefix specEnv guid_document_ros_malformed = .error .TypeConversionError ∧
    get_GuidPrefix specEnv guid_document_ros_malformed
      ≠ .error (.MissingRequiredTag specEnv.DISCOVERY_SERVER_ID_TAG) ∧
    is_tag_present address_document_version_v5 specEnv.ADDRESS_IP_TAG = .ok false ∧
    is_tag_present address_document_version_v5 specEnv.ADDRESS_DNS_TAG = .ok false ∧
    (get_Address specEnv address_document_version_v5).result
      = .error (.UnknownEnumerationValue "v5") :=
  ⟨rfl, rfl, rfl,
    (fun h => by
      rw [show get_GuidPrefix specEnv guid_document_ros_malformed
        = .error .TypeConversionError from rfl] at h
      cases h),
    rfl, rfl, rfl⟩

/-! ## Enumerations -/

/-- C21: enumeration resolution is exact-match only. On a scalar, the transport reader
returns TCP exactly when the text is the TCP tag and UDP exactly when it is the UDP tag, and
the ip-version reader returns IPv4 and IPv6 exactly for the v4 and v6 tags (the two tags of
a table being different); every other text fails as an unknown enumeration value. -/
theorem enumeration_exact_match (env : Env) (text : String) :
    (env.ADDRESS_TRANSPORT_TCP_TAG ≠ env.ADDRESS_TRANSPORT_UDP_TAG →
      (get_TransportProtocol env (.scalar text) = .ok .TCP ↔
        text = env.ADDRESS_TRANSPORT_TCP_TAG) ∧
      (get_TransportProtocol env (.scalar text) = .ok .UDP ↔
        text = env.ADDRESS_TRANSPORT_UDP_TAG)) ∧
    (text ≠ env.ADDRESS_TRANSPORT_TCP_TAG → text ≠ env.ADDRESS_TRANSPORT_UDP_TAG →
      get_TransportProtocol env (.scalar text) = .error (.UnknownEnumerationValue text)) ∧
    (env.ADDRESS_IP_VERSION_V4_TAG ≠ env.ADDRESS_IP_VERSION_V6_TAG →
      (get_IpVersion env (.scalar text) = .ok .IPv4 ↔ text = env.ADDRESS_IP_VERSION_V4_TAG) ∧
      (get_IpVersion env (.scalar text) = .ok .IPv6 ↔ text = env.ADDRESS_IP_VERSION_V6_TAG)) ∧
    (text ≠ env.ADDRESS_IP_VERSION_V4_TAG → text ≠ env.ADDRESS_IP_VERSION_V6_TAG →
      get_IpVersion env (.scalar text) = .error (.UnknownEnumerationValue text)) := by
  refine ⟨?_, ?_, ?_, ?_⟩
  · intro hne
    by_cases h1 : text = env.ADDRESS_TRANSPORT_TCP_TAG
    · subst h1
      simp [get_TransportProtocol, get_enumeration, get_scalar_string, List.lookup, hne]
    · by_cases h2 : text = env.ADDRESS_TRANSPORT_UDP_TAG
      · subst h2
        have hb : (env.ADDRESS_TRANSPORT_UDP_TAG == env.ADDRESS_TRANSPORT_TCP_TAG) = false := by
          simpa using h1
        simp [get_TransportProtocol, get_enumeration, get_scalar_string, List.lookup, hb, h1]
      · have hb1 : (text == env.ADDRESS_TRANSPORT_TCP_TAG) = false := by simpa using h1
        have hb2 : (text == env.ADDRESS_TRANSPORT_UDP_TAG) = false := by simpa using h2
        simp [get_TransportProtocol, get_enumeration, get_scalar_string, List.lookup, hb1, hb2,
          h1, h2]
  · intro h1 h2
    have hb1 : (text == env.ADDRESS_TRANSPORT_TCP_TAG) = false := by simpa using h1
    have hb2 : (text == env.ADDRESS_TRANSPORT_UDP_TAG) = false := by simpa using h2
    simp [get_TransportProtocol, get_enumeration, get_scalar_string, List.lookup, hb1, hb2]
  · intro hne
    by_cases h1 : text = env.ADDRESS_IP_VERSION_V4_TAG
    · subst h1
      simp [get_IpVersion, get_enumeration, get_scalar_string, List.lookup, hne]
    · by_cases h2 : text = env.ADDRESS_IP_VERSION_V6_TAG
      · subst h2
        have hb : (env.ADDRESS_IP_VERSION_V6_TAG == env.ADDRESS_IP_VERSION_V4_TAG) = false := by
          simpa using h1
        simp [get_IpVersion, get_enumeration, get_scalar_string, List.lookup, hb, h1]
      · have hb1 : (text == env.ADDRESS_IP_VERSION_V4_TAG) = false := by simpa using h1
        have hb2 : (text == env.ADDRESS_IP_VERSION_V6_TAG) = false := by simpa using h2
        simp [get_IpVersion, get_enumeration, get_scalar_string, List.lookup, hb1, hb2, h1, h2]
  · intro h1 h2
    have hb1 : (text == env.ADDRESS_IP_VERSION_V4_TAG) = false := by simpa using h1
    have hb2 : (text == env.ADDRESS_IP_VERSION_V6_TAG) = false := by simpa using h2
    simp [get_IpVersion, get_enumeration, get_scalar_string, List.lookup, hb1, hb2]

/-- Witness for C21: `tcp` is TCP; `TCP` (another case), `tc` (a prefix) and `tcpx` (a
superstring) are unknown; `V4` is no ip version. -/
theorem enumeration_exact_match_witness :
    get_TransportProtocol specEnv (.scalar "tcp") = .ok .TCP ∧
    get_TransportProtocol specEnv (.scalar "TCP") = .error (.UnknownEnumerationValue "TCP") ∧
    get_TransportProtocol specEnv (.scalar "tc") = .error (.UnknownEnumerationValue "tc") ∧
    get_TransportProtocol specEnv (.scalar "tcpx") = .error (.UnknownEnumerationValue "tcpx") ∧
    get_IpVersion specEnv (.scalar "V4") = .error (.UnknownEnumerationValue "V4") :=
  ⟨((enumeration_exact_match specEnv "tcp").1 (by decide)).1.2 rfl,
   (enumeration_exact_match specEnv "TCP").2.1 (by decide) (by decide),
   (enumeration_exact_match specEnv "tc").2.1 (by decide) (by decide),
   (enumeration_exact_match specEnv "tcpx").2.1 (by decide) (by decide),
   (enumeration_exact_match specEnv "V4").2.2.2 (by decide) (by decide)⟩

/-! ## Security builder: exact failure condition -/

/-- C26: on a TLS document whose present fields are all strings, the security builder fails
if and only if the CA certificate is absent and at least one of private key, certificate
chain and DH params is absent, and it then fails as incoherent; whenever the CA certificate
is present it succeeds, with the Both variant if the three server fields are present and
the Client variant otherwise; the outcome kind does not depend on the presence of the
password; and a configuration built without password tag carries the empty string as
password. -/
theorem get_TlsConfiguration_failure_condition (env : Env) (yml : Yaml)
    (bk bp bca bc bd : Bool)
    (hs : string_valued yml (tls_tags env) = true)
    (hk : is_tag_present yml env.TLS_PRIVATE_KEY_TAG = .ok bk)
    (hp : is_tag_present yml env.TLS_PASSWORD_TAG = .ok bp)
    (hca : is_tag_present yml env.TLS_CA_TAG = .ok bca)
    (hc : is_tag_present yml env.TLS_CERT_TAG = .ok bc)
    (hd : is_tag_present yml env.TLS_DHPARAMS_TAG = .ok bd) :
    ((∃ e, get_TlsConfiguration env yml = .error e) ↔
      (bca = false ∧ (bk && bc && bd) = false)) ∧
    (bca = false → (bk && bc && bd) = false →
      get_TlsConfiguration env yml = .error .IncoherentSecurityConfiguration) ∧
    (bca = true → ∃ cfg, get_TlsConfiguration env yml = .ok cfg ∧
      cfg.kind = (if (bk && bc && bd) = true then TlsKind.Both else TlsKind.Client)) ∧
    outcome_kind (get_TlsConfiguration env yml) =
      (if (bk && bc && bd) = true then
        (if bca = true then some TlsKind.Both else some TlsKind.Server)
      else (if bca = true then some TlsKind.Client else none)) ∧
    (bp = false → ∀ cfg, get_TlsConfiguration env yml = .ok cfg →
      cfg.private_key_file_password? = none ∨ cfg.private_key_file_password? = some "") := by
  obtain ⟨sk, hsk⟩ := optional_string_ok yml _ _ _ hs (by simp [tls_tags]) hk
  obtain ⟨sp, hsp⟩ := optional_string_ok yml _ _ _ hs (by simp [tls_tags]) hp
  obtain ⟨sca, hsca⟩ := optional_string_ok yml _ _ _ hs (by simp [tls_tags]) hca
  obtain ⟨sc, hsc⟩ := optional_string_ok yml _ _ _ hs (by simp [tls_tags]) hc
  obtain ⟨sd, hsd⟩ := optional_string_ok yml _ _ _ hs (by simp [tls_tags]) hd
  have hres : get_TlsConfiguration env yml =
      (if (bk && bc && bd) = true then
        (if bca = true then .ok (.Both sp sk sca sc sd) else .ok (.Server sp sk sc sd))
      else (if bca = true then .ok (.Client sca)
        else .error .IncoherentSecurityConfiguration)) := by
    simp only [get_TlsConfiguration, bind, Except.bind, hk, hp, hca, hc, hd, hsk, hsp, hsca,
      hsc, hsd]
    cases bk <;> cases bc <;> cases bd <;> cases bca <;> rfl
  have hsp0 : bp = false → sp = "" := by
    intro hb
    subst hb
    have h : (Except.ok "" : Result String) = .ok sp := hsp
    injection h with h
    exact h.symm
  rw [hres]
  refine ⟨?_, ?_, ?_, ?_, ?_⟩
  · cases bk <;> cases bc <;> cases bd <;> cases bca <;> simp
  · intro h1 h2
    simp [h1, h2]
  · intro h1
    cases bk <;> cases bc <;> cases bd <;> simp [h1, TlsConfiguration.kind]
  · cases bk <;> cases bc <;> cases bd <;> cases bca <;> rfl
  · intro hb cfg hcfg
    have hsp1 := hsp0 hb
    subst hsp1
    cases bk <;> cases bc <;> cases bd <;> cases bca <;>
      simp at hcfg <;> subst hcfg <;> simp [TlsConfiguration.private_key_file_password?]

/-- Witness for C26: a lone password is rejected as incoherent. -/
theorem get_TlsConfiguration_failure_condition_witness :
    get_TlsConfiguration specEnv tls_document_password
      = .error .IncoherentSecurityConfiguration :=
  (get_TlsConfiguration_failure_condition specEnv tls_document_password false true false
    false false rfl rfl rfl rfl rfl rfl).2.1 rfl rfl

/-! ## Address builder: kind selection -/

/-- C25: for every document from which the Address builder returns an Address: the Address
is constructed from the domain name if and only if the domain-name tag is present and the
ip tag is absent, and from the literal ip if and only if the ip tag is present; the
ip-version is passed to the constructor if and only if the ip-version tag is present, with
the ip as with the domain name; and the values used are those read from the tags. -/
theorem get_Address_kind_selection (env : Env) (yml : Yaml) (a : Address)
    (h : (get_Address env yml).result = .ok a) :
    (a.domain_name?.isSome = true ↔
      (is_tag_present yml env.ADDRESS_DNS_TAG = .ok true ∧
        is_tag_present yml env.ADDRESS_IP_TAG = .ok false)) ∧
    (a.ip?.isSome = true ↔ is_tag_present yml env.ADDRESS_IP_TAG = .ok true) ∧
    (a.ip_version?.isSome = true ↔ is_tag_present yml env.ADDRESS_IP_VERSION_TAG = .ok true) ∧
    (∀ dn : String, a.domain_name? = some dn →
      get_in_tag get_scalar_string yml env.ADDRESS_DNS_TAG = .ok dn) ∧
    (∀ ip : IpType, a.ip? = some ip → get_in_tag get_IpType yml env.ADDRESS_IP_TAG = .ok ip) ∧
    (∀ v : IpVersion, a.ip_version? = some v →
      get_in_tag (get_IpVersion env) yml env.ADDRESS_IP_VERSION_TAG = .ok v) := by
  cases hv : is_tag_present yml env.ADDRESS_IP_VERSION_TAG with
  | error e => simp [get_Address_error_of_not_map env yml e hv] at h
  | ok bv =>
    obtain ⟨bi, hi⟩ := is_tag_present_ok_of_ok yml _ env.ADDRESS_IP_TAG _ hv
    obtain ⟨bd, hd⟩ := is_tag_present_ok_of_ok yml _ env.ADDRESS_DNS_TAG _ hv
    obtain ⟨bp, hp⟩ := is_tag_present_ok_of_ok yml _ env.ADDRESS_PORT_TAG _ hv
    obtain ⟨bt, ht⟩ := is_tag_present_ok_of_ok yml _ env.ADDRESS_TRANSPORT_TAG _ hv
    simp only [get_Address, bind, Logged.bind, Logged.lift_result, Logged.lift_log, hv, hi,
      hd, hp, ht] at h
    rcases optional_read_cases bv
        (get_in_tag (get_IpVersion env) yml env.ADDRESS_IP_VERSION_TAG) IpVersion.IPv4
      with ⟨e, rv, -, -⟩ | ⟨vv, rv, -, hv1⟩
    · simp [rv] at h
    rcases optional_read_cases bi (get_in_tag get_IpType yml env.ADDRESS_IP_TAG) ""
      with ⟨e, ri, -, -⟩ | ⟨vi, ri, -, hi1⟩
    · simp [rv, ri] at h
    rcases optional_read_cases bd (get_in_tag get_scalar_string yml env.ADDRESS_DNS_TAG) ""
      with ⟨e, rd, -, -⟩ | ⟨vd, rd, -, hd1⟩
    · simp [rv, ri, rd] at h
    rcases optional_read_cases bp (get_in_tag (get_PortType env) yml env.ADDRESS_PORT_TAG)
        env.default_port
      with ⟨e, rp, -, -⟩ | ⟨vp, rp, -, -⟩
    · simp only [rv, ri, rd, rp] at h
      cases bi <;> cases bd <;>
        simp [pure, Logged.pure, Logged.throw, logWarning] at h
    rcases optional_read_cases bt
        (get_in_tag (get_TransportProtocol env) yml env.ADDRESS_TRANSPORT_TAG)
        env.default_transport_protocol
      with ⟨e, rt, -, -⟩ | ⟨vt, rt, -, -⟩
    · simp only [rv, ri, rd, rp, rt] at h
      cases bi <;> cases bd <;>
        simp [pure, Logged.pure, Logged.throw, logWarning] at h
    simp only [rv, ri, rd, rp, rt] at h
    cases bi <;> cases bd <;> cases bv <;>
      simp [pure, Logged.pure, Logged.throw, logWarning] at h <;>
      subst h <;>
      simp [Address.domain_name?, Address.ip?, Address.ip_version?] <;>
      simp_all

/-- Witness for C25: `{domain-name: localhost, ip-version: v6}` is built from the domain
name, with the ip-version. -/
theorem get_Address_kind_selection_witness :
    (get_Address specEnv address_document_domain_version).result
      = .ok (.of_domain_version 11600 .IPv6 "localhost" .UDP) ∧
    (is_tag_present address_document_domain_version specEnv.ADDRESS_DNS_TAG = .ok true ∧
      is_tag_present address_document_domain_version specEnv.ADDRESS_IP_TAG = .ok false) ∧
    is_tag_present address_document_domain_version specEnv.ADDRESS_IP_VERSION_TAG
      = .ok true :=
  ⟨rfl,
   (get_Address_kind_selection specEnv address_document_domain_version
      (.of_domain_version 11600 .IPv6 "localhost" .UDP) rfl).1.1 rfl,
   (get_Address_kind_selection specEnv address_document_domain_version
      (.of_domain_version 11600 .IPv6 "localhost" .UDP) rfl).2.2.1.1 rfl⟩

/-! ## Connection address builder -/

theorem Logged.bind_result_ok {α β : Type} (x : Logged α) (f : α → Logged β) (a : α)
    (h : x.result = .ok a) : (x >>= f).result = (f a).result := by
  show (Logged.bind x f).result = (f a).result
  simp [Logged.bind, h]

theorem Logged.bind_result_error {α β : Type} (x : Logged α) (f : α → Logged β)
    (e : ConfigurationException) (h : x.result = .error e) :
    (x >>= f).result = .error e := by
  show (Logged.bind x f).result = .error e
  simp [Logged.bind, h]

theorem read_items_ok {α : Type} (reader : Yaml → Logged α) (items : List Yaml)
    (values : List α)
    (h : List.Forall₂ (fun item value => (reader item).result = .ok value) items values) :
    (read_items reader items).result = .ok values := by
  induction h with
  | nil => rfl
  | cons hhead _ ih =>
    unfold read_items
    rw [Logged.bind_result_ok _ _ _ hhead, Logged.bind_result_ok _ _ _ ih]
    rfl

theorem read_items_error {α : Type} (reader : Yaml → Logged α) (items : List Yaml)
    (h : ∃ item ∈ items, ∀ value, (reader item).result ≠ .ok value) :
    ∀ values, (read_items reader items).result ≠ .ok values := by
  induction items with
  | nil =>
    obtain ⟨item, hmem, _⟩ := h
    simp at hmem
  | cons head rest ih =>
    intro values hres
    unfold read_items at hres
    cases hhead : (reader head).result with
    | error e =>
      rw [Logged.bind_result_error _ _ _ hhead] at hres
      cases hres
    | ok value =>
      rw [Logged.bind_result_ok _ _ _ hhead] at hres
      obtain ⟨item, hmem, hbad⟩ := h
      rcases List.mem_cons.mp hmem with rfl | hrest
      · exact hbad value hhead
      · cases hrest' : (read_items reader rest).result with
        | error e =>
          rw [Logged.bind_result_error _ _ _ hrest'] at hres
          cases hres
        | ok others => exact ih ⟨item, hrest, hbad⟩ others hrest'

theorem get_set_result_of_sequence {α : Type} [DecidableEq α] (reader : Yaml → Logged α)
    (yml : Yaml) (tag : TagType) (items : List Yaml)
    (h : get_value_in_tag yml tag = .ok (.sequence items)) :
    (get_set reader yml tag).result
      = match (read_items reader items).result with
        | .ok values => .ok values.toFinset
        | .error e => .error e := by
  unfold get_set
  have hlist : (get_in_tag_logged (get_list reader) yml tag).result
      = (read_items reader items).result := by
    simp [get_in_tag_logged, h, get_list]
  cases hr : (read_items reader items).result with
  | error e =>
    rw [Logged.bind_result_error _ _ e (hlist.trans hr)]
  | ok values =>
    rw [Logged.bind_result_ok _ _ values (hlist.trans hr)]
    rfl

theorem get_set_result_error_of_not_present {α : Type} [DecidableEq α]
    (reader : Yaml → Logged α) (yml : Yaml) (tag : TagType)
    (h : is_tag_present yml tag ≠ .ok true) :
    ∃ e, (get_set reader yml tag).result = .error e := by
  unfold get_set
  have hv : ∃ e, get_value_in_tag yml tag = .error e := by
    unfold get_value_in_tag
    cases hp : is_tag_present yml tag with
    | error e => exact ⟨e, rfl⟩
    | ok b =>
      cases b with
      | false => exact ⟨_, rfl⟩
      | true => exact absurd hp h
  obtain ⟨e, he⟩ := hv
  refine ⟨e, ?_⟩
  have hlist : (get_in_tag_logged (get_list reader) yml tag).result = .error e := by
    simp [get_in_tag_logged, he, Logged.throw]
  rw [Logged.bind_result_error _ _ e hlist]

/-- C22 (amended): the connection-address builder returns no connection address when the
discovery-server guid tag or the addresses tag is missing, or when one of the listed
addresses is invalid; when the guid is read, the addresses tag holds a sequence and every
listed address is read, it returns the connection address holding that GuidPrefix and the
set of the addresses read, in which each of them occurs once, however often the document
lists it; it fails, with the error of the guid, when the guid under its tag is not read,
and with a conversion error when the guid is read and the addresses tag holds no
sequence. -/
theorem get_DiscoveryServerConnectionAddress_fields (env : Env) (yml : Yaml) :
    ((is_tag_present yml env.DISCOVERY_SERVER_GUID_PREFIX_TAG ≠ .ok true ∨
        is_tag_present yml env.COLLECTION_ADDRESSES_TAG ≠ .ok true) →
      ∀ c : DiscoveryServerConnectionAddress,
        (get_DiscoveryServerConnectionAddress env yml).result ≠ .ok c) ∧
    (∀ items : List Yaml,
      get_value_in_tag yml env.COLLECTION_ADDRESSES_TAG = .ok (.sequence items) →
      (∃ item ∈ items, ∀ a : Address, (get_Address env item).result ≠ .ok a) →
      ∀ c : DiscoveryServerConnectionAddress,
        (get_DiscoveryServerConnectionAddress env yml).result ≠ .ok c) ∧
    (∀ (guid : GuidPrefix) (items : List Yaml) (addresses : List Address),
      get_in_tag (get_GuidPrefix env) yml env.DISCOVERY_SERVER_GUID_PREFIX_TAG = .ok guid →
      get_value_in_tag yml env.COLLECTION_ADDRESSES_TAG = .ok (.sequence items) →
      List.Forall₂ (fun item a => (get_Address env item).result = .ok a) items addresses →
      (get_DiscoveryServerConnectionAddress env yml).result
        = .ok { discovery_server_guid := guid, addresses := addresses.toFinset } ∧
      (∀ a : Address, a ∈ addresses.toFinset ↔ a ∈ addresses) ∧
      (∀ a ∈ addresses, Multiset.count a addresses.toFinset.val = 1)) ∧
    (∀ e : ConfigurationException,
      get_in_tag (get_GuidPrefix env) yml env.DISCOVERY_SERVER_GUID_PREFIX_TAG = .error e →
      (get_DiscoveryServerConnectionAddress env yml).result = .error e) ∧
    (∀ (guid : GuidPrefix) (node : Yaml),
      get_in_tag (get_GuidPrefix env) yml env.DISCOVERY_SERVER_GUID_PREFIX_TAG = .ok guid →
      get_value_in_tag yml env.COLLECTION_ADDRESSES_TAG = .ok node →
      (∀ items : List Yaml, node ≠ .sequence items) →
      (get_DiscoveryServerConnectionAddress env yml).result
        = .error .TypeConversionError) := by
  refine ⟨?_, ?_, ?_, ?_, ?_⟩
  · intro hmiss c hres
    unfold get_DiscoveryServerConnectionAddress at hres
    cases hg : get_in_tag (get_GuidPrefix env) yml env.DISCOVERY_SERVER_GUID_PREFIX_TAG with
    | error e =>
      rw [Logged.bind_result_error _ _ e (by simp [Logged.lift, hg])] at hres
      cases hres
    | ok guid =>
      rw [Logged.bind_result_ok _ _ guid (by simp [Logged.lift, hg])] at hres
      have hpres := is_tag_present_of_get_in_tag _ _ _ _ hg
      rcases hmiss with hm | hm
      · exact hm hpres
      · obtain ⟨e, he⟩ := get_set_result_error_of_not_present (get_Address env) yml _ hm
        rw [Logged.bind_result_error _ _ e he] at hres
        cases hres
  · intro items hitems hbad c hres
    unfold get_DiscoveryServerConnectionAddress at hres
    cases hg : get_in_tag (get_GuidPrefix env) yml env.DISCOVERY_SERVER_GUID_PREFIX_TAG with
    | error e =>
      rw [Logged.bind_result_error _ _ e (by simp [Logged.lift, hg])] at hres
      cases hres
    | ok guid =>
      rw [Logged.bind_result_ok _ _ guid (by simp [Logged.lift, hg])] at hres
      have hset := get_set_result_of_sequence (get_Address env) yml _ items hitems
      cases hr : (read_items (get_Address env) items).result with
      | error e =>
        rw [hr] at hset
        rw [Logged.bind_result_error _ _ e hset] at hres
        cases hres
      | ok values => exact read_items_error _ _ hbad values hr
  · intro guid items addresses hg hitems hall
    refine ⟨?_, ?_, ?_⟩
    · unfold get_DiscoveryServerConnectionAddress
      rw [Logged.bind_result_ok _ _ guid (by simp [Logged.lift, hg])]
      have hset := get_set_result_of_sequence (get_Address env) yml _ items hitems
      rw [read_items_ok _ _ _ hall] at hset
      rw [Logged.bind_result_ok _ _ _ hset]
      rfl
    · intro a
      exact List.mem_toFinset
    · intro a ha
      exact Multiset.count_eq_one_of_mem addresses.toFinset.nodup (List.mem_toFinset.mpr ha)
  · intro e hg
    unfold get_DiscoveryServerConnectionAddress
    rw [Logged.bind_result_error _ _ e (by simp [Logged.lift, hg])]
  · intro guid node hg hnode hns
    unfold get_DiscoveryServerConnectionAddress
    rw [Logged.bind_result_ok _ _ guid (by simp [Logged.lift, hg])]
    have hlist : (get_in_tag_logged (get_list (get_Address env)) yml
        env.COLLECTION_ADDRESSES_TAG).result = .error .TypeConversionError := by
      cases node with
      | sequence items => exact absurd rfl (hns items)
      | null => simp [get_in_tag_logged, hnode, get_list, Logged.throw]
      | scalar _ => simp [get_in_tag_logged, hnode, get_list, Logged.throw]
      | map _ => simp [get_in_tag_logged, hnode, get_list, Logged.throw]
    have hset : (get_set (get_Address env) yml env.COLLECTION_ADDRESSES_TAG).result
        = .error .TypeConversionError := by
      unfold get_set
      exact Logged.bind_result_error _ _ _ hlist
    rw [Logged.bind_result_error _ _ _ hset]

/-- Witness for C22: a document that lists one address twice yields a set of two
addresses; a document without addresses yields nothing. -/
theorem get_DiscoveryServerConnectionAddress_fields_witness :
    (get_DiscoveryServerConnectionAddress specEnv connection_document_duplicate).result
      = .ok { discovery_server_guid := .of_id 2,
              addresses := [Address.of_ip "192.168.1.2" 11600 .UDP,
                Address.of_ip "192.168.1.3" 11600 .UDP,
                Address.of_ip "192.168.1.2" 11600 .UDP].toFinset } ∧
    ([Address.of_ip "192.168.1.2" 11600 .UDP, Address.of_ip "192.168.1.3" 11600 .UDP,
      Address.of_ip "192.168.1.2" 11600 .UDP].toFinset).card = 2 ∧
    (∀ c : DiscoveryServerConnectionAddress,
      (get_DiscoveryServerConnectionAddress specEnv connection_document_no_addresses).result
        ≠ .ok c) ∧
    (∀ c : DiscoveryServerConnectionAddress,
      (get_DiscoveryServerConnectionAddress specEnv
        connection_document_invalid_address).result ≠ .ok c) :=
  ⟨((get_DiscoveryServerConnectionAddress_fields specEnv connection_document_duplicate).2.2.1
      (.of_id 2) _ _ rfl rfl
      (List.Forall₂.cons rfl (List.Forall₂.cons rfl (List.Forall₂.cons rfl
        List.Forall₂.nil)))).1,
   by decide,
   (get_DiscoveryServerConnectionAddress_fields specEnv connection_document_no_addresses).1
      (Or.inr (by
        intro h
        rw [show is_tag_present connection_document_no_addresses
          specEnv.COLLECTION_ADDRESSES_TAG = .ok false from rfl] at h
        cases h)),
   (get_DiscoveryServerConnectionAddress_fields specEnv
      connection_document_invalid_address).2.1 _ rfl
      ⟨.map [("port", .scalar "1")], by simp, fun a h => by
        rw [show (get_Address specEnv (.map [("port", .scalar "1")])).result
          = .error .AddressUnderspecified from rfl] at h
        cases h⟩⟩

/-- C22 fails as stated: `connection_document_guid_text` has the discovery-server guid tag
and the addresses tag, and its one listed address is valid, but the id of the guid is no
number, and the connection-address builder throws instead of returning a connection
address. -/
theorem get_DiscoveryServerConnectionAddress_guid_not_read :
    is_tag_present connection_document_guid_text specEnv.DISCOVERY_SERVER_GUID_PREFIX_TAG
      = .ok true ∧
    is_tag_present connection_document_guid_text specEnv.COLLECTION_ADDRESSES_TAG
      = .ok true ∧
    (get_Address specEnv (.map [("ip", .scalar "192.168.1.2")])).result
      = .ok (.of_ip "192.168.1.2" 11600 .UDP) ∧
    (get_DiscoveryServerConnectionAddress specEnv connection_document_guid_text).result
      = .error .TypeConversionError :=
  ⟨rfl, rfl, rfl, rfl⟩

end yaml

namespace databroker

/-! ## Topic matcher -/

theorem any_suffix_isEmpty (s : List Char) : any_suffix (fun l => l.isEmpty) s = true := by
  induction s with
  | nil => rfl
  | cons c rest ih => simp [any_suffix, ih]

theorem match_chars_nil (s : List Char) : match_chars [] s = s.isEmpty := by
  cases s <;> rfl

/-- The pattern `*` matches every candidate. -/
theorem match_pattern_star (str : String) : match_pattern "*" str = true := by
  have h : match_chars ['*'] str.toList = true := by
    have hf : match_chars [] = fun l => l.isEmpty := funext match_chars_nil
    simp [match_chars, hf, any_suffix_isEmpty]
  exact h

/-- A pattern without `*` and `?` matches exactly itself. -/
theorem match_chars_literal (p s : List Char) (hstar : '*' ∉ p) (hq : '?' ∉ p) :
    match_chars p s = decide (p = s) := by
  induction p generalizing s with
  | nil => cases s <;> simp [match_chars]
  | cons a rest ih =>
    have ha1 : a ≠ '*' := fun h => hstar (by simp [h])
    have ha2 : a ≠ '?' := fun h => hq (by simp [h])
    have hr1 : '*' ∉ rest := fun h => hstar (by simp [h])
    have hr2 : '?' ∉ rest := fun h => hq (by simp [h])
    cases s with
    | nil => simp [match_chars, ha1]
    | cons c tail =>
      simp [match_chars, ha1, ha2, ih tail hr1 hr2]

/-- C7: `WildcardTopic::matches` is true if and only if the pattern name matches the real
topic name under `match_pattern` and the pattern type matches the real topic type under
`match_pattern`; a name mismatch yields false whatever the types are. -/
theorem WildcardTopic_matches_iff (self : WildcardTopic) (other : RealTopic) :
    (self.matches other = true ↔
      (match_pattern self.topic_name other.topic_name = true ∧
        match_pattern self.topic_type other.topic_type = true)) ∧
    (match_pattern self.topic_name other.topic_name = false → self.matches other = false) := by
  unfold WildcardTopic.matches
  cases match_pattern self.topic_name other.topic_name <;> simp

/-- Witness for C7: the names differ, so the topics do not match although the types do. -/
theorem WildcardTopic_matches_iff_witness :
    WildcardTopic.matches { topic_name := "Hello*", topic_type := "Chat" }
      { topic_name := "GoodbyeWorld", topic_type := "Chat" } = false :=
  (WildcardTopic_matches_iff { topic_name := "Hello*", topic_type := "Chat" }
    { topic_name := "GoodbyeWorld", topic_type := "Chat" }).2 (by decide)

/-- C8: a WildcardTopic constructed from a name pattern only matches a real topic exactly
when the name pattern matches the topic name, whatever the topic type; the pattern `Hello*`
matches the topic `HelloWorld` of type `Chat` and matches no topic named `GoodbyeWorld`. -/
theorem WildcardTopic_name_only_matches (topic_name : String) (other : RealTopic) :
    (WildcardTopic.of_topic_name topic_name).matches other
      = match_pattern topic_name other.topic_name ∧
    (WildcardTopic.of_topic_name "Hello*").matches
      { topic_name := "HelloWorld", topic_type := "Chat" } = true ∧
    (WildcardTopic.of_topic_name "Hello*").matches
      { topic_name := "GoodbyeWorld", topic_type := other.topic_type } = false := by
  refine ⟨?_, by decide, ?_⟩
  · simp [WildcardTopic.matches, WildcardTopic.of_topic_name, match_pattern_star]
  · have h : match_pattern "Hello*" "GoodbyeWorld" = false := by decide
    simp [WildcardTopic.matches, WildcardTopic.of_topic_name, h]

/-- C9: topic name matching is whole-string, case-sensitive glob matching: the name pattern
`*` (type absent) matches every real topic; a pattern name without `*` and `?` that differs
from the candidate name matches no topic, whatever the type pattern (so `hello` does not
match `Hello`); and `ab*` does not match the candidate `xab`. -/
theorem WildcardTopic_name_matching (self : WildcardTopic) (other : RealTopic) :
    (WildcardTopic.of_topic_name "*").matches other = true ∧
    ('*' ∉ self.topic_name.toList → '?' ∉ self.topic_name.toList →
      self.topic_name ≠ other.topic_name → self.matches other = false) ∧
    (WildcardTopic.of_topic_name "hello").matches
      { topic_name := "Hello", topic_type := other.topic_type } = false ∧
    (WildcardTopic.of_topic_name "ab*").matches
      { topic_name := "xab", topic_type := other.topic_type } = false := by
  refine ⟨?_, ?_, ?_, ?_⟩
  · simp [WildcardTopic.matches, WildcardTopic.of_topic_name, match_pattern_star]
  · intro hstar hq hne
    have hl : self.topic_name.toList ≠ other.topic_name.toList :=
      fun h => hne (String.ext h)
    have h : match_pattern self.topic_name other.topic_name = false := by
      unfold match_pattern
      rw [match_chars_literal _ _ hstar hq]
      simpa using hl
    simp [WildcardTopic.matches, h]
  · have h : match_pattern "hello" "Hello" = false := by decide
    simp [WildcardTopic.matches, WildcardTopic.of_topic_name, h]
  · have h : match_pattern "ab*" "xab" = false := by decide
    simp [WildcardTopic.matches, WildcardTopic.of_topic_name, h]

/-- Witness for C9: the literal pattern `HelloWorld` does not match the topic `HelloWorlds`. -/
theorem WildcardTopic_name_matching_witness :
    WildcardTopic.matches { topic_name := "HelloWorld", topic_type := "*" }
      { topic_name := "HelloWorlds", topic_type := "Chat" } = false :=
  (WildcardTopic_name_matching { topic_name := "HelloWorld", topic_type := "*" }
    { topic_name := "HelloWorlds", topic_type := "Chat" }).2.1 (by decide) (by decide)
    (by decide)

/-- C10 (the code at the failing input): `WildcardTopic::contains` raises nothing; for every
pattern and every argument, the pattern itself included, it returns `false`. -/
theorem WildcardTopic_contains_returns_false (self : WildcardTopic) (other : AbstractTopic) :
    self.contains other = .ok false ∧
    self.contains self.toAbstractTopic = .ok false ∧
    (∀ message : String, self.contains other ≠ .error (.UnsupportedException message)) := by
  refine ⟨rfl, rfl, ?_⟩
  intro message h
  simp [WildcardTopic.contains] at h

/-! ## Tracks -/

/-- C23 (amended): the Track constructor stores the topic, the source and the map of targets
exactly as they are passed: the target set of the constructed Track contains the source
participant if and only if the map passed by the caller does. -/
theorem Track_create_members (topic : RealTopic) (source : IDatabrokerParticipant)
    (targets : List (ParticipantId × IDatabrokerParticipant)) :
    (Track.create topic source targets).topic_ = topic ∧
    (Track.create topic source targets).source_participant_ = source ∧
    (Track.create topic source targets).target_participants_ = targets ∧
    (source ∈ (Track.create topic source targets).target_participants_.map Prod.snd ↔
      source ∈ targets.map Prod.snd) :=
  ⟨rfl, rfl, rfl, Iff.rfl⟩

/-- C23 fails as stated: a Track constructed with the participant of reference 1 as source
and with the targets `P1` (that same participant) and `P2` has its source among its
targets. -/
theorem Track_create_keeps_source_in_targets :
    (Track.create chatter_topic ⟨1⟩ two_targets).source_participant_
      ∈ (Track.create chatter_topic ⟨1⟩ two_targets).target_participants_.map Prod.snd := by
  decide

/-! ## Participants -/

theorem lookup_filter_key_ne {β : Type} (entries : List (String × β)) (key other : String)
    (h : other ≠ key) :
    (entries.filter (fun entry => entry.1 != key)).lookup other = entries.lookup other := by
  induction entries with
  | nil => rfl
  | cons entry rest ih =>
    obtain ⟨k, v⟩ := entry
    by_cases hk : k = key
    · subst hk
      have hne : (other == k) = false := by simpa using h
      simp [List.filter_cons, List.lookup_cons, hne, ih]
    · have hkeep : (k != key) = true := by simpa using hk
      simp only [List.filter_cons, hkeep, if_true, List.lookup_cons, ih]

theorem has_key_assign {α : Type} (map : StringMap α) (key other : String)
    (pointer : Option α) :
    (map.assign key pointer).has_key other = (decide (other = key) || map.has_key other) := by
  by_cases h : other = key
  · subst h
    simp [StringMap.has_key, StringMap.find, StringMap.assign, List.lookup_cons]
  · have hne : (other == key) = false := by simpa using h
    simp [StringMap.has_key, StringMap.find, StringMap.assign, List.lookup_cons, hne, h,
      lookup_filter_key_ne _ _ _ h]

theorem add_topic_of_has_key (dds : Middleware) (self : DataBrokerParticipant)
    (topic_name : String) (h : self.topics_.has_key topic_name = true) :
    DataBrokerParticipant.add_topic dds self topic_name = (self, []) := by
  unfold StringMap.has_key at h
  cases hf : self.topics_.find topic_name with
  | none => simp [hf] at h
  | some t => simp [DataBrokerParticipant.add_topic, hf]

theorem add_topic_of_creation_failure (dds : Middleware) (self : DataBrokerParticipant)
    (topic_name : String)
    (h : dds.create_topic (DataBrokerParticipant.topic_mangled_ topic_name)
      DataBrokerParticipant.type_name_ = none) :
    (DataBrokerParticipant.add_topic dds self topic_name).1 = self := by
  cases hf : self.topics_.find topic_name with
  | some t => simp [DataBrokerParticipant.add_topic, hf]
  | none => simp [DataBrokerParticipant.add_topic, hf, DataBrokerParticipant.get_topic_, h]

theorem add_topic_of_creation (dds : Middleware) (self : DataBrokerParticipant)
    (topic_name : String) (topic : Topic)
    (hf : self.topics_.find topic_name = none)
    (h : dds.create_topic (DataBrokerParticipant.topic_mangled_ topic_name)
      DataBrokerParticipant.type_name_ = some topic) :
    (DataBrokerParticipant.add_topic dds self topic_name).1 =
      { self with
        topics_ := self.topics_.assign topic_name (some topic),
        datawriters_ := self.datawriters_.assign topic_name (dds.create_datawriter (some topic)),
        datareaders_ :=
          self.datareaders_.assign topic_name (dds.create_datareader (some topic)) } := by
  simp [DataBrokerParticipant.add_topic, hf, DataBrokerParticipant.get_topic_, h]

theorem has_key_after_creation (dds : Middleware) (self : DataBrokerParticipant)
    (topic_name : String)
    (h : self.topics_.has_key topic_name = true ∨
      (dds.create_topic (DataBrokerParticipant.topic_mangled_ topic_name)
        DataBrokerParticipant.type_name_).isSome = true) :
    (DataBrokerParticipant.add_topic dds self topic_name).1.topics_.has_key topic_name
      = true := by
  cases hk : self.topics_.has_key topic_name with
  | true => rw [add_topic_of_has_key dds self topic_name hk]; exact hk
  | false =>
    have hf : self.topics_.find topic_name = none := by
      unfold StringMap.has_key at hk
      cases hfind : self.topics_.find topic_name with
      | none => rfl
      | some t => simp [hfind] at hk
    rcases h with h | h
    · rw [hk] at h
      cases h
    · cases hc : dds.create_topic (DataBrokerParticipant.topic_mangled_ topic_name)
          DataBrokerParticipant.type_name_ with
      | none => simp [hc] at h
      | some topic =>
        rw [add_topic_of_creation dds self topic_name topic hf hc]
        simp [has_key_assign]

/-- C27: `add_topic` is idempotent. When the name is already a key of `topics_`, the call
leaves the participant unchanged and makes no call to the middleware (no topic, writer or
reader is created); hence, once a first call found or created the topic, a second call with
the same name changes nothing, whatever the middleware would answer; and two calls answered
alike by the middleware leave the participant in the state of one call. -/
theorem add_topic_idempotent (dds : Middleware) (self : DataBrokerParticipant)
    (topic_name : String) :
    (self.topics_.has_key topic_name = true →
      DataBrokerParticipant.add_topic dds self topic_name = (self, [])) ∧
    ((self.topics_.has_key topic_name = true ∨
        (dds.create_topic (DataBrokerParticipant.topic_mangled_ topic_name)
          DataBrokerParticipant.type_name_).isSome = true) →
      ∀ again : Middleware,
        DataBrokerParticipant.add_topic again
            (DataBrokerParticipant.add_topic dds self topic_name).1 topic_name
          = ((DataBrokerParticipant.add_topic dds self topic_name).1, [])) ∧
    (DataBrokerParticipant.add_topic dds
        (DataBrokerParticipant.add_topic dds self topic_name).1 topic_name).1
      = (DataBrokerParticipant.add_topic dds self topic_name).1 := by
  refine ⟨add_topic_of_has_key dds self topic_name, ?_, ?_⟩
  · intro h again
    exact add_topic_of_has_key again _ topic_name (has_key_after_creation dds self topic_name h)
  · cases hc : dds.create_topic (DataBrokerParticipant.topic_mangled_ topic_name)
        DataBrokerParticipant.type_name_ with
    | none =>
      rw [add_topic_of_creation_failure dds self topic_name hc,
        add_topic_of_creation_failure dds self topic_name hc]
    | some topic =>
      rw [add_topic_of_has_key dds _ topic_name
        (has_key_after_creation dds self topic_name (Or.inr (by simp [hc])))]

/-- Witness for C27: a second `add_topic` of `chatter`, answered by a failing middleware,
changes nothing after a first one that created the topic. -/
theorem add_topic_idempotent_witness :
    DataBrokerParticipant.add_topic failing_middleware
        (DataBrokerParticipant.add_topic obliging_middleware initialised_participant
          "chatter").1 "chatter"
      = ((DataBrokerParticipant.add_topic obliging_middleware initialised_participant
          "chatter").1, []) :=
  (add_topic_idempotent obliging_middleware initialised_participant "chatter").2.1
    (Or.inr rfl) failing_middleware

/-- A `send_data` call that returns leaves the participant as it was. -/
theorem send_data_returns_self (self next : DataBrokerParticipant) (topic : String)
    (data : StdString) (events : List Event)
    (h : DataBrokerParticipant.send_data self topic data = .returns (next, events)) :
    next = self := by
  unfold DataBrokerParticipant.send_data at h
  split at h
  · cases h; rfl
  · cases h
  · cases h; rfl

theorem same_keys_add_topic (dds : Middleware) (self : DataBrokerParticipant)
    (topic_name : String) (h : self.same_keys) :
    (DataBrokerParticipant.add_topic dds self topic_name).1.same_keys := by
  cases hf : self.topics_.find topic_name with
  | some t =>
    have hk : self.topics_.has_key topic_name = true := by simp [StringMap.has_key, hf]
    rw [add_topic_of_has_key dds self topic_name hk]
    exact h
  | none =>
    cases hc : dds.create_topic (DataBrokerParticipant.topic_mangled_ topic_name)
        DataBrokerParticipant.type_name_ with
    | none =>
      rw [add_topic_of_creation_failure dds self topic_name hc]
      exact h
    | some topic =>
      rw [add_topic_of_creation dds self topic_name topic hf hc]
      intro key
      simp only [has_key_assign]
      rw [(h key).1, (h key).2]
      exact ⟨rfl, rfl⟩

theorem same_keys_enable (dds : Middleware) (self : DataBrokerParticipant)
    (h : self.same_keys) : (DataBrokerParticipant.enable dds self).2.1.same_keys := by
  unfold DataBrokerParticipant.enable
  split
  · split
    · exact h
    · split
      · exact h
      · exact h
  · exact h

/-- C28: in every state a participant reaches from its construction (three empty maps) by
`enable`, `add_topic`, `stop_topic` and `send_data` calls, whatever the middleware answers,
the maps `topics_`, `datawriters_` and `datareaders_` have the same key set; and when the
creation of the topic fails in `add_topic`, the participant is left unchanged, so none of
the three maps gains an entry. -/
theorem reachable_same_keys :
    (∀ self : DataBrokerParticipant, DataBrokerParticipant.Reachable self → self.same_keys) ∧
    (∀ (dds : Middleware) (self : DataBrokerParticipant) (topic_name : String),
      dds.create_topic (DataBrokerParticipant.topic_mangled_ topic_name)
        DataBrokerParticipant.type_name_ = none →
      (DataBrokerParticipant.add_topic dds self topic_name).1 = self) := by
  refine ⟨?_, add_topic_of_creation_failure⟩
  intro self hreach
  induction hreach with
  | constructed s ht hw hr =>
    intro key
    simp [StringMap.has_key, StringMap.find, ht, hw, hr]
  | enable dds s _ ih => exact same_keys_enable dds s ih
  | add_topic dds s name _ ih => exact same_keys_add_topic dds s name ih
  | stop_topic s topic _ ih => exact ih
  | send_data s next topic data events _ hsend ih =>
    rw [send_data_returns_self s next topic data events hsend]
    exact ih

/-- Witness for C28: after `add_topic` of `chatter` and of `rosout` and a `send_data` that
returns, the three maps have the same keys; an `add_topic` whose topic creation fails leaves
the participant as it was. -/
theorem reachable_same_keys_witness :
    (∃ events : List Event,
      DataBrokerParticipant.send_data
        (DataBrokerParticipant.add_topic obliging_middleware
          (DataBrokerParticipant.add_topic obliging_middleware initialised_participant
            "chatter").1 "rosout").1 "chatter" ⟨"hello"⟩
        = .returns ((DataBrokerParticipant.add_topic obliging_middleware
          (DataBrokerParticipant.add_topic obliging_middleware initialised_participant
            "chatter").1 "rosout").1, events)) ∧
    (DataBrokerParticipant.add_topic obliging_middleware
      (DataBrokerParticipant.add_topic obliging_middleware initialised_participant
        "chatter").1 "rosout").1.same_keys ∧
    (DataBrokerParticipant.add_topic failing_middleware initialised_participant "chatter").1
      = initialised_participant :=
  ⟨⟨_, rfl⟩,
   reachable_same_keys.1 _
      (.send_data _ _ "chatter" ⟨"hello"⟩ _
        (.add_topic obliging_middleware _ "rosout"
          (.add_topic obliging_middleware initialised_participant "chatter"
            (.constructed initialised_participant rfl rfl rfl))) rfl),
   reachable_same_keys.2 failing_middleware initialised_participant "chatter" rfl⟩

/-- What `send_data` does in each of its three cases: for a topic that is no key of
`datawriters_` it logs one error, issues no write and returns; for a key whose writer is
set it issues exactly one write, on that writer and with the data given, and returns; in
both cases the participant is left unchanged; for a key whose stored pointer is null it
dereferences the null pointer. -/
theorem send_data_outcomes (self : DataBrokerParticipant) (topic : String)
    (data : StdString) :
    (self.datawriters_.has_key topic = false →
      DataBrokerParticipant.send_data self topic data
        = .returns (self, [.logError ("Datawriter missing for topic " ++ topic
            ++ " in Participant " ++ DataBrokerParticipant.name)])) ∧
    (∀ dw : DataWriter, self.datawriters_.find topic = some (some dw) →
      DataBrokerParticipant.send_data self topic data
        = .returns (self, [.write dw data, .logInfo ("Data sent in topic " ++ topic
            ++ " in Participant " ++ DataBrokerParticipant.name)])) ∧
    (self.datawriters_.find topic = some none →
      DataBrokerParticipant.send_data self topic data = .null_dereference) := by
  refine ⟨?_, ?_, ?_⟩
  · intro h
    have hf : self.datawriters_.find topic = none := by
      unfold StringMap.has_key at h
      cases hfind : self.datawriters_.find topic with
      | none => rfl
      | some t => simp [hfind] at h
    simp [DataBrokerParticipant.send_data, hf]
  · intro dw hf
    simp [DataBrokerParticipant.send_data, hf]
  · intro hf
    simp [DataBrokerParticipant.send_data, hf]

/-- C29 (the code at the failing input): after an `add_topic` of `chatter` in which the
middleware answered `create_datawriter` with the null pointer, `chatter` is a key of the
three maps and the pointer stored in `datawriters_` is null; `send_data` on `chatter` then
dereferences the null pointer: it issues no write on a writer and does not return. With a
writer set, the same call issues exactly one write on that writer and leaves the
participant unchanged. -/
theorem send_data_null_writer :
    (DataBrokerParticipant.add_topic writerless_middleware initialised_participant
      "chatter").1.topics_.has_key "chatter" = true ∧
    (DataBrokerParticipant.add_topic writerless_middleware initialised_participant
      "chatter").1.datawriters_.has_key "chatter" = true ∧
    (DataBrokerParticipant.add_topic writerless_middleware initialised_participant
      "chatter").1.datawriters_.find "chatter" = some none ∧
    DataBrokerParticipant.send_data
      (DataBrokerParticipant.add_topic writerless_middleware initialised_participant
        "chatter").1 "chatter" ⟨"hello"⟩ = .null_dereference ∧
    DataBrokerParticipant.send_data
      (DataBrokerParticipant.add_topic obliging_middleware initialised_participant
        "chatter").1 "chatter" ⟨"hello"⟩
      = .returns ((DataBrokerParticipant.add_topic obliging_middleware
          initialised_participant "chatter").1,
        [.write ⟨2⟩ ⟨"hello"⟩,
          .logInfo "Data sent in topic chatter in Participant DataBroker_Participant"]) := by
  refine ⟨?_, ?_, ?_, ?_, ?_⟩ <;> decide

/-- C30: `enable` on a participant that is not enabled returns false and leaves `enabled_`
false, without calling the middleware, if the underlying participant was never created; it
returns false and leaves `enabled_` false if the underlying enable does not return
`RETCODE_OK`; otherwise it returns true and sets `enabled_`. On an enabled participant it
returns true, leaves the participant unchanged and does not call the underlying enable. So
`enabled_` never goes from true to false, and no other member is changed. -/
theorem enable_result (dds : Middleware) (self : DataBrokerParticipant) :
    (self.enabled_ = false → self.participant_ = none →
      (DataBrokerParticipant.enable dds self).1 = false ∧
      (DataBrokerParticipant.enable dds self).2.1 = self ∧
      Event.participant_enable ∉ (DataBrokerParticipant.enable dds self).2.2) ∧
    (self.enabled_ = false → self.participant_ ≠ none → dds.enable ≠ .RETCODE_OK →
      (DataBrokerParticipant.enable dds self).1 = false ∧
      (DataBrokerParticipant.enable dds self).2.1 = self) ∧
    (self.enabled_ = false → self.participant_ ≠ none → dds.enable = .RETCODE_OK →
      (DataBrokerParticipant.enable dds self).1 = true ∧
      (DataBrokerParticipant.enable dds self).2.1 = { self with enabled_ := true }) ∧
    (self.enabled_ = true →
      (DataBrokerParticipant.enable dds self).1 = true ∧
      (DataBrokerParticipant.enable dds self).2.1 = self ∧
      Event.participant_enable ∉ (DataBrokerParticipant.enable dds self).2.2) ∧
    (self.enabled_ = true → (DataBrokerParticipant.enable dds self).2.1.enabled_ = true) ∧
    ((DataBrokerParticipant.enable dds self).1
      = (DataBrokerParticipant.enable dds self).2.1.enabled_) := by
  refine ⟨?_, ?_, ?_, ?_, ?_, ?_⟩
  · intro he hp
    simp [DataBrokerParticipant.enable, he, hp]
  · intro he hp hd
    have hp2 : self.participant_.isNone = false := by
      cases h : self.participant_ with
      | none => exact absurd h hp
      | some _ => rfl
    simp [DataBrokerParticipant.enable, he, hp2, hd]
  · intro he hp hd
    have hp2 : self.participant_.isNone = false := by
      cases h : self.participant_ with
      | none => exact absurd h hp
      | some _ => rfl
    simp [DataBrokerParticipant.enable, he, hp2, hd]
  · intro he
    simp [DataBrokerParticipant.enable, he]
  · intro he
    simp [DataBrokerParticipant.enable, he]
  · cases he : self.enabled_ <;> cases hp : self.participant_ <;>
      by_cases hd : dds.enable = .RETCODE_OK <;>
      simp [DataBrokerParticipant.enable, he, hp, hd]

/-- Witness for C30: a created participant is enabled by an obliging middleware and not by
a failing one. -/
theorem enable_result_witness :
    (DataBrokerParticipant.enable obliging_middleware initialised_participant).1 = true ∧
    (DataBrokerParticipant.enable failing_middleware initialised_participant).1 = false :=
  ⟨((enable_result obliging_middleware initialised_participant).2.2.1 rfl (by decide) rfl).1,
   ((enable_result failing_middleware initialised_participant).2.1 rfl (by decide)
      (by decide)).1⟩

/-! ## WAN participant QoS -/

theorem foldl_add_listening_address (lib : QosLibrary) (udp : Bool) (addresses : List Address)
    (pqos : DomainParticipantQos) :
    addresses.foldl (add_listening_address lib udp) pqos =
      { pqos with
        user_transports := pqos.user_transports ++
          (if udp then [] else addresses.map (fun a => .TCPv4 (listening_descriptor a))),
        metatrafficUnicastLocatorList :=
          (addresses.map (listening_locator udp)).foldl lib.locator_list_push_back
            pqos.metatrafficUnicastLocatorList } := by
  induction addresses generalizing pqos with
  | nil => cases udp <;> simp
  | cons address rest ih =>
    rw [List.foldl_cons, ih]
    cases udp <;> simp [add_listening_address]

theorem foldl_add_connection_address (lib : QosLibrary) (udp : Bool)
    (addresses : List Address) (pqos : DomainParticipantQos) :
    addresses.foldl (add_connection_address lib udp) pqos =
      { pqos with
        m_DiscoveryServers := pqos.m_DiscoveryServers ++
          addresses.map (fun a =>
            { guidPrefix := some a.guid,
              metatrafficUnicastLocatorList :=
                lib.locator_list_push_back [] (connection_locator udp a) }) } := by
  induction addresses generalizing pqos with
  | nil => simp
  | cons address rest ih =>
    rw [List.foldl_cons, ih]
    simp [add_connection_address]

theorem foldl_push_back_new (lib : QosLibrary) (hlib : lib.appends_new)
    (locators initial : List Locator_t) (hnodup : locators.Nodup)
    (hnew : ∀ x ∈ locators, x ∉ initial) :
    locators.foldl lib.locator_list_push_back initial = initial ++ locators := by
  induction locators generalizing initial with
  | nil => simp
  | cons x rest ih =>
    have hx : x ∉ initial := hnew x (by simp)
    rw [List.foldl_cons, hlib initial x hx]
    have hnodup' := List.nodup_cons.mp hnodup
    rw [ih (initial ++ [x]) hnodup'.2]
    · simp
    · intro y hy
      have hyi : y ∉ initial := hnew y (by simp [hy])
      have hyx : y ≠ x := fun h => hnodup'.1 (h ▸ hy)
      simp [hyi, hyx]

/-- Pushing a list of locators one after the other: the list gains, in their order, the
locators it did not hold, each once. -/
theorem foldl_push_back_gained (lib : QosLibrary) (hnew : lib.appends_new)
    (hkeep : lib.keeps_present) (locators initial : List Locator_t) :
    ∃ gained : List Locator_t,
      locators.foldl lib.locator_list_push_back initial = initial ++ gained ∧
      gained.Sublist locators ∧ gained.Nodup ∧
      (∀ x ∈ gained, x ∉ initial) ∧
      (∀ x ∈ locators, x ∈ initial ∨ x ∈ gained) := by
  induction locators generalizing initial with
  | nil => exact ⟨[], by simp⟩
  | cons x rest ih =>
    by_cases hx : x ∈ initial
    · obtain ⟨gained, hfold, hsub, hnodup, hdisj, hcover⟩ := ih initial
      refine ⟨gained, ?_, hsub.cons x, hnodup, hdisj, ?_⟩
      · rw [List.foldl_cons, hkeep initial x hx, hfold]
      · intro y hy
        rcases List.mem_cons.mp hy with rfl | hrest
        · exact Or.inl hx
        · exact hcover y hrest
    · obtain ⟨gained, hfold, hsub, hnodup, hdisj, hcover⟩ := ih (initial ++ [x])
      have hxg : x ∉ gained := fun hmem => hdisj x hmem (by simp)
      refine ⟨x :: gained, ?_, hsub.cons₂ x, List.nodup_cons.mpr ⟨hxg, hnodup⟩, ?_, ?_⟩
      · rw [List.foldl_cons, hnew initial x hx, hfold]
        simp
      · intro y hy
        rcases List.mem_cons.mp hy with rfl | hrest
        · exact hx
        · exact fun hmem => hdisj y hrest (by simp [hmem])
      · intro y hy
        rcases List.mem_cons.mp hy with rfl | hrest
        · exact Or.inr (by simp)
        · rcases hcover y hrest with hmem | hmem
          · rcases List.mem_append.mp hmem with hi | hs
            · exact Or.inl hi
            · exact Or.inr (by simp at hs; simp [hs])
          · exact Or.inr (List.mem_cons_of_mem _ hmem)

theorem fastdds_library_appends_new : fastdds_library.appends_new := by
  intro list locator h
  simp [fastdds_library, LocatorList.push_back, h]

theorem fastdds_library_keeps_present : fastdds_library.keeps_present := by
  intro list locator h
  simp [fastdds_library, LocatorList.push_back, h]

/-- C31 (amended): for every server guid, list L of listening addresses, list C of connection
addresses and flag udp, the QoS returned by `wan_participant_qos` has the given guid as
wire-protocol prefix; one locator per listening address, of the address's ip and port, is
handed in the order of L to `LocatorList::push_back` of the metatraffic unicast list, which
adds a locator that the list does not hold yet at its end and leaves the list as it is
otherwise: the QoS gains, in the order of L and each once, the locators built from L that
the default QoS does not hold; these are exactly the |L| locators of L when they are
pairwise different and none is in the default QoS, and fewer than |L| otherwise. The QoS
gains exactly |C| remote discovery servers, in the order of C, each with the address's guid
and one locator; it gains |L| TCP transport descriptors when udp is false and none when udp
is true; every locator built has kind UDPv4 if udp is true and TCPv4 otherwise; and the
discovery protocol is SERVER. -/
theorem wan_participant_qos_fields (lib : QosLibrary) (server_guid : GuidPrefix_t)
    (listening_addresses connection_addresses : List Address) (udp : Bool) :
    (wan_participant_qos lib server_guid listening_addresses connection_addresses udp).prefix_
      = some server_guid ∧
    (wan_participant_qos lib server_guid listening_addresses connection_addresses
        udp).metatrafficUnicastLocatorList
      = (listening_addresses.map (listening_locator udp)).foldl lib.locator_list_push_back
          lib.default_participant_qos.metatrafficUnicastLocatorList ∧
    (lib.appends_new →
      (listening_addresses.map (listening_locator udp)).Nodup →
      (∀ x ∈ listening_addresses.map (listening_locator udp),
        x ∉ lib.default_participant_qos.metatrafficUnicastLocatorList) →
      (wan_participant_qos lib server_guid listening_addresses connection_addresses
          udp).metatrafficUnicastLocatorList
        = lib.default_participant_qos.metatrafficUnicastLocatorList
            ++ listening_addresses.map (listening_locator udp)) ∧
    (lib.appends_new → lib.keeps_present →
      ∃ gained : List Locator_t,
        (wan_participant_qos lib server_guid listening_addresses connection_addresses
            udp).metatrafficUnicastLocatorList
          = lib.default_participant_qos.metatrafficUnicastLocatorList ++ gained ∧
        gained.Sublist (listening_addresses.map (listening_locator udp)) ∧
        gained.Nodup ∧
        (∀ x ∈ gained, x ∉ lib.default_participant_qos.metatrafficUnicastLocatorList) ∧
        (∀ a ∈ listening_addresses,
          listening_locator udp a
              ∈ lib.default_participant_qos.metatrafficUnicastLocatorList ∨
            listening_locator udp a ∈ gained) ∧
        gained.length ≤ listening_addresses.length ∧
        (gained.length = listening_addresses.length ↔
          ((listening_addresses.map (listening_locator udp)).Nodup ∧
            ∀ x ∈ listening_addresses.map (listening_locator udp),
              x ∉ lib.default_participant_qos.metatrafficUnicastLocatorList))) ∧
    (lib.appends_new →
      (wan_participant_qos lib server_guid listening_addresses connection_addresses
          udp).m_DiscoveryServers
        = lib.default_participant_qos.m_DiscoveryServers ++
            connection_addresses.map (fun a =>
              { guidPrefix := some a.guid,
                metatrafficUnicastLocatorList := [connection_locator udp a] })) ∧
    ((wan_participant_qos lib server_guid listening_addresses connection_addresses
        udp).m_DiscoveryServers.length
      = lib.default_participant_qos.m_DiscoveryServers.length + connection_addresses.length) ∧
    (wan_participant_qos lib server_guid listening_addresses connection_addresses
        udp).user_transports
      = lib.default_participant_qos.user_transports ++
          (if udp then [] else
            listening_addresses.map (fun a => .TCPv4 (listening_descriptor a))) ∧
    (∀ a : Address,
      (listening_locator udp a).kind
        = (if udp then LocatorKind.LOCATOR_KIND_UDPv4 else LocatorKind.LOCATOR_KIND_TCPv4) ∧
      (connection_locator udp a).kind
        = (if udp then LocatorKind.LOCATOR_KIND_UDPv4 else LocatorKind.LOCATOR_KIND_TCPv4) ∧
      (listening_locator udp a).ipv4 = some a.ip ∧
      (listening_locator udp a).physical_port = a.port ∧
      (listening_locator udp a).logical_port = a.port ∧
      (connection_locator udp a).ipv4 = some a.ip ∧
      (connection_locator udp a).physical_port = a.port ∧
      (connection_locator udp a).logical_port = a.port) ∧
    (wan_participant_qos lib server_guid listening_addresses connection_addresses
        udp).discoveryProtocol = .SERVER := by
  have hlist : (wan_participant_qos lib server_guid listening_addresses connection_addresses
      udp).metatrafficUnicastLocatorList
      = (listening_addresses.map (listening_locator udp)).foldl lib.locator_list_push_back
          lib.default_participant_qos.metatrafficUnicastLocatorList := by
    simp [wan_participant_qos, foldl_add_listening_address, foldl_add_connection_address]
  have hservers : (wan_participant_qos lib server_guid listening_addresses
      connection_addresses udp).m_DiscoveryServers
      = lib.default_participant_qos.m_DiscoveryServers ++
          connection_addresses.map (fun a =>
            { guidPrefix := some a.guid,
              metatrafficUnicastLocatorList :=
                lib.locator_list_push_back [] (connection_locator udp a) }) := by
    simp [wan_participant_qos, foldl_add_listening_address, foldl_add_connection_address]
  refine ⟨?_, hlist, ?_, ?_, ?_, ?_, ?_, ?_, ?_⟩
  · simp [wan_participant_qos, foldl_add_listening_address, foldl_add_connection_address]
  · intro hlib hnodup hnew
    rw [hlist]
    exact foldl_push_back_new lib hlib _ _ hnodup hnew
  · intro hnew hkeep
    obtain ⟨gained, hfold, hsub, hnodup, hdisj, hcover⟩ := foldl_push_back_gained lib hnew hkeep
      (listening_addresses.map (listening_locator udp))
      lib.default_participant_qos.metatrafficUnicastLocatorList
    have hlen : gained.length ≤ listening_addresses.length := by
      simpa using hsub.length_le
    refine ⟨gained, hlist.trans hfold, hsub, hnodup, hdisj, ?_, hlen, ?_⟩
    · intro a ha
      exact hcover _ (List.mem_map_of_mem _ ha)
    · constructor
      · intro heq
        have hg : gained = listening_addresses.map (listening_locator udp) :=
          hsub.eq_of_length (by simpa using heq)
        rw [← hg]
        exact ⟨hnodup, hdisj⟩
      · intro hall
        have hfull := foldl_push_back_new lib hnew
          (listening_addresses.map (listening_locator udp))
          lib.default_participant_qos.metatrafficUnicastLocatorList hall.1 hall.2
        have hg : gained = listening_addresses.map (listening_locator udp) :=
          List.append_cancel_left (hfold.symm.trans hfull)
        simp [hg]
  · intro hlib
    rw [hservers]
    congr 1
    apply List.map_congr_left
    intro a _
    rw [hlib [] (connection_locator udp a) (by simp)]
    rfl
  · rw [hservers]
    simp
  · simp [wan_participant_qos, foldl_add_listening_address, foldl_add_connection_address]
  · intro a
    cases udp <;>
      simp [listening_locator, connection_locator, IPLocator.setIPv4, IPLocator.setWan,
        IPLocator.setLogicalPort, IPLocator.setPhysicalPort, Locator_t.default]
  · simp [wan_participant_qos]

/-- Witness for C31: two different listening addresses and one connection address over TCP
give two locators, one remote server and two TCP descriptors; a listening address listed
twice gives a list without repetition of at most two locators. -/
theorem wan_participant_qos_fields_witness :
    (wan_participant_qos fastdds_library ⟨"01.0f"⟩ [example_address, other_address]
        [other_address] false).metatrafficUnicastLocatorList
      = [listening_locator false example_address, listening_locator false other_address] ∧
    (wan_participant_qos fastdds_library ⟨"01.0f"⟩ [example_address, other_address]
        [other_address] false).m_DiscoveryServers
      = [{ guidPrefix := some ⟨"01.0e"⟩,
           metatrafficUnicastLocatorList := [connection_locator false other_address] }] ∧
    (wan_participant_qos fastdds_library ⟨"01.0f"⟩ [example_address, other_address]
        [other_address] false).user_transports.length = 2 ∧
    (∃ gained : List Locator_t,
      (wan_participant_qos fastdds_library ⟨"01.0f"⟩ [example_address, example_address] []
          true).metatrafficUnicastLocatorList
        = fastdds_library.default_participant_qos.metatrafficUnicastLocatorList ++ gained ∧
      gained.Nodup ∧ gained.length ≤ 2) :=
  ⟨(wan_participant_qos_fields fastdds_library ⟨"01.0f"⟩ [example_address, other_address]
      [other_address] false).2.2.1 fastdds_library_appends_new (by decide) (by decide),
   (wan_participant_qos_fields fastdds_library ⟨"01.0f"⟩ [example_address, other_address]
      [other_address] false).2.2.2.2.1 fastdds_library_appends_new,
   by decide,
   (match (wan_participant_qos_fields fastdds_library ⟨"01.0f"⟩
      [example_address, example_address] [] true).2.2.2.1 fastdds_library_appends_new
      fastdds_library_keeps_present with
    | ⟨gained, hlist, _, hnodup, _, _, hlen, _⟩ => ⟨gained, hlist, hnodup, hlen⟩)⟩

/-- C31 fails as stated: with the listening address `192.168.1.2:11600` listed twice, the
two locators built are equal and `LocatorList::push_back` of the middleware does not add the
second one: the QoS gains one metatraffic unicast locator, not two. -/
theorem wan_participant_qos_repeated_address :
    [example_address, example_address].length = 2 ∧
    (wan_participant_qos fastdds_library ⟨"01.0f"⟩ [example_address, example_address] []
        true).metatrafficUnicastLocatorList
      = [listening_locator true example_address] ∧
    (wan_participant_qos fastdds_library ⟨"01.0f"⟩ [example_address, example_address] []
        true).metatrafficUnicastLocatorList.length = 1 := by
  decide

end databroker
end ddsrouter
